import Mathlib

/-!
# AppController: lifecycle state machine and per-frame render transforms

A shallow embedding of `CrossPlatform/AppController.cpp`.

* C++ `float` values are rationals (`ℚ`); the cast `int(x)` is truncation toward zero.
  In `configureVideoBackground` every `float` division and product goes through a
  rounding function `round`, a parameter: `roundFloat32` (IEEE 754 binary32, round to
  nearest, ties to even, with an unbounded exponent range) is the arithmetic of the code
  and the one `configureRendering` passes, and the identity gives exact arithmetic. The
  conversion of a pixel dimension to `float` is taken as exact, which it is below 2^24.
  The display aspect ratio and the guide-view plane are computed over exact rationals.
  A division by zero, which gives an infinity or a NaN in C++, is outside what the
  model describes (`ℚ` gives 0).
* The tracking engine, the camera and the renderer are external collaborators: every
  value they return is an explicit argument of the operation that asks for it, and
  every call made to them is recorded, in order, in a list of `Event`s. Log lines and
  invocations of the two callbacks are events as well; a callback is identified by the
  function object stored in the session.
* Invoking an empty function object throws `std::bad_function_call`, which no method of
  the controller catches: the method then ends with `Fault.badFunctionCall` in place of
  a returned value, and the session and the calls are those made up to the throw.
* The matrix helpers (`MathUtils`, `Vuforia::Tool`) are taken as a parameter `MathOps`.
* Dereferencing a null pointer makes an accessor fail with `Fault.nullDereference`.
-/

namespace AppController

/-! ## Constants -/

/-- Selector of the image target, `AppController::IMAGE_TARGET_ID`. -/
def IMAGE_TARGET_ID : Int := 0

/-- Selector of the model target, `AppController::MODEL_TARGET_ID`. -/
def MODEL_TARGET_ID : Int := 1

/-- Near plane of the perspective projection, `NEAR_PLANE = 0.01f`. -/
def NEAR_PLANE : ℚ := 1 / 100

/-- Far plane of the perspective projection, `FAR_PLANE = 5.f`. -/
def FAR_PLANE : ℚ := 5

/-! ## Plain data -/

/-- The three build targets selected by the preprocessor. -/
inductive Platform where
  | android
  | uwp
  | ios
  deriving DecidableEq, Repr

/-- The two trackers the controller creates. -/
inductive TrackerType where
  | positionalDevice
  | object
  deriving DecidableEq, Repr

/-- The camera stream's native resolution, `Vuforia::VideoMode`. -/
structure VideoMode where
  mWidth : Int
  mHeight : Int
  deriving DecidableEq, Repr

/-- The cast `int(x)` of a float: truncation toward zero. -/
def truncToInt (x : ℚ) : Int :=
  if 0 ≤ x then Int.floor x else Int.ceil x

/-- Rounding of a rational to the nearest integer, a tie going to the even one. -/
def roundHalfEven (q : ℚ) : Int :=
  if q - (Int.floor q : ℚ) < 1 / 2 then Int.floor q
  else if 1 / 2 < q - (Int.floor q : ℚ) then Int.floor q + 1
  else if Int.floor q % 2 = 0 then Int.floor q
  else Int.floor q + 1

/-- The value of type `float` (IEEE 754 binary32: a 24-bit significand, round to nearest,
ties to even) that a `float` operation returns when its exact result is `x`. With `e` the
binary exponent of `x`, the representable values near `x` are the multiples of
`2 ^ (e - 23)`. The exponent range is not bounded: overflow and subnormal values are
outside what the model describes. -/
def roundFloat32 (x : ℚ) : ℚ :=
  if x = 0 then 0
  else
    (roundHalfEven (x / (2 : ℚ) ^ (Int.log 2 |x| - 23)) : ℚ) * (2 : ℚ) ^ (Int.log 2 |x| - 23)

/-- The `isScreenPortrait` test on a recorded orientation. -/
def isPortraitOrientation (orientation : Int) : Bool :=
  orientation == 0 || orientation == 1

/-- The width and height computed by `configureVideoBackground` (AppController.cpp
lines 838-937) before the casts `int(...)` that store them in `config.mSize`, for a given
orientation class, camera video mode and view size. `round` gives the result of each
`float` division and product from its exact value. -/
def videoBackgroundExtent (round : ℚ → ℚ) (portrait : Bool) (videoMode : VideoMode)
    (viewWidth viewHeight : ℚ) : ℚ × ℚ :=
  if portrait then
    let aspectRatioVideo : ℚ := round ((videoMode.mWidth : ℚ) / (videoMode.mHeight : ℚ))
    let aspectRatioView : ℚ := round (viewHeight / viewWidth)
    if aspectRatioVideo < aspectRatioView then
      (round ((videoMode.mHeight : ℚ) * round (viewHeight / (videoMode.mWidth : ℚ))),
       viewHeight)
    else
      (viewWidth,
       round ((videoMode.mWidth : ℚ) * round (viewWidth / (videoMode.mHeight : ℚ))))
  else
    let aspectRatioVideo : ℚ := round ((videoMode.mWidth : ℚ) / (videoMode.mHeight : ℚ))
    let aspectRatioView : ℚ := round (viewWidth / viewHeight)
    if aspectRatioVideo < aspectRatioView then
      (viewWidth,
       round ((videoMode.mHeight : ℚ) * round (viewWidth / (videoMode.mWidth : ℚ))))
    else
      (round ((videoMode.mWidth : ℚ) * round (viewHeight / (videoMode.mHeight : ℚ))),
       viewHeight)

/-- The size `config.mSize` stored by `configureVideoBackground`: the casts `int(...)` of
the computed width and height. -/
def videoBackgroundSize (round : ℚ → ℚ) (portrait : Bool) (videoMode : VideoMode)
    (viewWidth viewHeight : ℚ) : Int × Int :=
  (truncToInt (videoBackgroundExtent round portrait videoMode viewWidth viewHeight).1,
   truncToInt (videoBackgroundExtent round portrait videoMode viewWidth viewHeight).2)

/-! ## Collaborator calls and callbacks -/

/-- Focus modes requested from the camera. -/
inductive FocusMode where
  | FOCUS_MODE_TRIGGERAUTO
  | FOCUS_MODE_CONTINUOUSAUTO
  deriving DecidableEq, Repr

/-- Camera modes, `Vuforia::CameraDevice::MODE`. -/
inductive CameraMode where
  | MODE_DEFAULT
  | MODE_OPTIMIZE_SPEED
  | MODE_OPTIMIZE_QUALITY
  deriving DecidableEq, Repr

/-- Display orientations passed to `Vuforia::setCurrentOrientation` on UWP. -/
inductive DisplayOrientation where
  | PORTRAIT
  | PORTRAIT_FLIPPED
  | LANDSCAPE
  | LANDSCAPE_FLIPPED
  deriving DecidableEq, Repr

/-- Rotations passed to `Vuforia::setRotation` on iOS. -/
inductive Rotation where
  | ROTATE_IOS_90
  | ROTATE_IOS_270
  | ROTATE_IOS_180
  | ROTATE_IOS_0
  deriving DecidableEq, Repr

/-- A stored callback: `none` is an empty function object, `some k` the callable `k`. -/
abbrev Callback := Option Nat

/-- A failure that the C++ code does not guard against: the dereference of a null
pointer, and the `std::bad_function_call` thrown by the invocation of an empty function
object. -/
inductive Fault where
  | nullDereference
  | badFunctionCall
  deriving DecidableEq, Repr

/-- The outcome of the statements `callback(...); return value;`: the invocation of an
empty function object throws `std::bad_function_call`, which no method of the controller
catches, so that nothing is returned. -/
def invokeThenReturn {α : Type} (callback : Callback) (value : α) : Except Fault α :=
  match callback with
  | none => .error Fault.badFunctionCall
  | some _ => .ok value

/-- A handle of a data set owned by the object tracker (`Vuforia::DataSet*`, non-null). -/
abbrev DataSet := Nat

/-- A rendering-primitive set handed out by the engine. -/
abbrev RenderingPrimitives := Nat

/-- Everything the controller does to the outside world: calls to the engine, the
camera, the renderer and the trackers, invocations of the two callbacks, and log lines.
`showError` and `initDone` record the invocation expression; on an empty function object
(`none`) the invocation throws and no callback runs. -/
inductive Event where
  | log (msg : String)
  | showError (callback : Callback) (msg : String)
  | initDone (callback : Callback)
  | setInitParameters (appData : Option Nat) (flags : Option Int)
  | vuforiaInit
  | vuforiaDeinit
  | onPause
  | onResume
  | onSurfaceCreated
  | onSurfaceChanged (width height : Int)
  | setCurrentOrientation (o : DisplayOrientation)
  | setRotation (r : Rotation)
  | initTracker (t : TrackerType)
  | deinitTracker (t : TrackerType)
  | getTracker (t : TrackerType)
  | trackerStart (t : TrackerType)
  | trackerStop (t : TrackerType)
  | cameraInit
  | cameraSelectVideoMode (mode : CameraMode)
  | cameraStart
  | cameraStop
  | cameraDeinit
  | cameraSetFocusMode (mode : FocusMode)
  | cameraGetCurrentVideoMode
  | getRecommendedFps
  | setTargetFps (fps : Int)
  | createDataSet
  | dataSetLoad (ds : DataSet) (path : String)
  | activateDataSet (ds : DataSet)
  | deactivateDataSet (ds : Option DataSet)
  | destroyDataSet (ds : Option DataSet)
  | setVideoBackgroundConfig (width height : Int)
  | getRenderingPrimitives
  | updateState
  | rendererBegin
  | rendererEnd
  | setVideoBackgroundTexture
  | updateVideoBackgroundTexture
  deriving DecidableEq, Repr

/-- Invocations of the error callback. -/
def Event.isShowError : Event → Bool
  | .showError _ _ => true
  | _ => false

/-- Invocations of the completion callback. -/
def Event.isInitDone : Event → Bool
  | .initDone _ => true
  | _ => false

/-- Invocations of either callback. -/
def Event.isCallback (e : Event) : Bool :=
  e.isShowError || e.isInitDone

/-- Invocations that run a callback: those of a non-empty function object. -/
def Event.runsCallback : Event → Bool
  | .showError (some _) _ => true
  | .initDone (some _) => true
  | _ => false

/-- Calls that reach the engine, the camera, the renderer or a tracker: every event
that is neither a log line nor a callback invocation. -/
def Event.isEngineCall : Event → Bool
  | .log _ => false
  | .showError _ _ => false
  | .initDone _ => false
  | _ => true

/-- The terminal codes of `Vuforia::init()` named in `initVuforiaInternal`; their
numeric values come from the engine's headers. -/
structure InitCodes where
  INIT_NO_CAMERA_ACCESS : Int
  INIT_LICENSE_ERROR_NO_NETWORK_TRANSIENT : Int
  INIT_LICENSE_ERROR_NO_NETWORK_PERMANENT : Int
  INIT_LICENSE_ERROR_INVALID_KEY : Int
  INIT_LICENSE_ERROR_CANCELED_KEY : Int
  INIT_LICENSE_ERROR_MISSING_KEY : Int
  INIT_LICENSE_ERROR_PRODUCT_TYPE_MISMATCH : Int
  INIT_DEVICE_NOT_SUPPORTED : Int
  deriving DecidableEq, Repr

/-- Compile-time context of the controller: the platform and the engine's codes. -/
structure Env where
  platform : Platform
  codes : InitCodes
  deriving DecidableEq, Repr

/-! ## The tracking snapshot -/

/-- A 3x4 row-major pose, `Vuforia::Matrix34F`. -/
structure Matrix34F where
  data : Fin 12 → ℚ

/-- A three-component vector, `Vuforia::Vec3F`. -/
structure Vec3F where
  x : ℚ
  y : ℚ
  z : ℚ
  deriving DecidableEq

/-- Status of a trackable result, `Vuforia::TrackableResult::STATUS`. -/
inductive Status where
  | NO_POSE
  | LIMITED
  | TRACKED
  | EXTENDED_TRACKED
  deriving DecidableEq, Repr

/-- Status detail of a trackable result, `Vuforia::TrackableResult::STATUS_INFO`; the
two values the controller tests are named, the others are kept by number. -/
inductive StatusInfo where
  | NORMAL
  | NO_DETECTION_RECOMMENDING_GUIDANCE
  | OTHER (code : Nat)
  deriving DecidableEq, Repr

/-- A guide image, `Vuforia::Image`. -/
structure Image where
  id : Nat
  width : Int
  height : Int
  deriving DecidableEq, Repr

/-- A guide view of a model target. -/
structure GuideView where
  image : Image
  deriving DecidableEq, Repr

/-- An image target definition. -/
structure ImageTarget where
  id : Nat
  size : Vec3F
  deriving DecidableEq

/-- A model target definition. -/
structure ModelTarget where
  id : Nat
  size : Vec3F
  boundingBoxCenter : Vec3F
  guideViews : List GuideView
  deriving DecidableEq

/-- The target definition a result refers to, by the result's class type. -/
inductive Trackable where
  | imageTarget (target : ImageTarget)
  | modelTarget (target : ModelTarget)
  | other
  deriving DecidableEq

/-- One entry of the snapshot's result list. -/
structure TrackableResult where
  status : Status
  statusInfo : StatusInfo
  pose : Matrix34F
  trackable : Trackable

/-- The device/origin result of a snapshot. -/
structure DeviceTrackableResult where
  status : Status
  statusInfo : StatusInfo
  pose : Matrix34F

/-- Camera calibration: the field of view in radians (horizontal, vertical). -/
structure CameraCalibration where
  fieldOfViewRads : ℚ × ℚ
  deriving DecidableEq

/-- A per-frame tracking snapshot, `Vuforia::State`. -/
structure State where
  trackableResults : List TrackableResult
  deviceTrackableResult : Option DeviceTrackableResult
  cameraCalibration : Option CameraCalibration

/-- The default-constructed snapshot held before the first frame. -/
def State.empty : State :=
  { trackableResults := [], deviceTrackableResult := none, cameraCalibration := none }

/-! ## The session -/

/-- The data members of `AppController`. -/
structure Session where
  mShowErrorCallback : Callback
  mInitDoneCallback : Callback
  mVuforiaInitFlags : Int
  mTarget : Int
  mOrientation : Int
  mCameraMode : CameraMode
  mCameraIsActive : Bool
  mCameraIsStarted : Bool
  mDoneOneTimeRenderingConfiguration : Bool
  mCurrentRenderingPrimitives : Option RenderingPrimitives
  mDisplayAspectRatio : ℚ
  mVuforiaState : State
  mCurrentDataSet : Option DataSet
  mGuideViewModelTarget : Option ModelTarget

/-- A freshly constructed controller (the default member initialisers of
AppController.h; the controller object has static storage). -/
def Session.fresh : Session :=
  { mShowErrorCallback := none
    mInitDoneCallback := none
    mVuforiaInitFlags := 0
    mTarget := IMAGE_TARGET_ID
    mOrientation := 0
    mCameraMode := CameraMode.MODE_DEFAULT
    mCameraIsActive := false
    mCameraIsStarted := false
    mDoneOneTimeRenderingConfiguration := false
    mCurrentRenderingPrimitives := none
    mDisplayAspectRatio := 0
    mVuforiaState := State.empty
    mCurrentDataSet := none
    mGuideViewModelTarget := none }

/-- The assignment `mGuideViewModelTarget = candidate`. -/
def Session.withGuide (s : Session) (candidate : Option ModelTarget) : Session :=
  { s with mGuideViewModelTarget := candidate }

/-- The query `isCameraStarted()`. -/
def isCameraStarted (s : Session) : Bool :=
  s.mCameraIsStarted

/-- The private test `isScreenPortrait()`. -/
def isScreenPortrait (s : Session) : Bool :=
  isPortraitOrientation s.mOrientation

/-- The initialisation parameters passed to `initAR`. -/
structure InitConfig where
  vuforiaInitFlags : Int
  appData : Nat
  showErrorCallback : Callback
  initDoneCallback : Callback
  deriving DecidableEq, Repr

/-! ## Collaborator outcomes -/

/-- What the tracker manager answers to `getTracker` for the two trackers, and, for a
tracker that exists, what its `start()` or `stop()` returns: `none` is a null tracker.
-/
structure TrackersOutcome where
  deviceTracker : Option Bool
  objectTracker : Option Bool
  deriving DecidableEq, Repr

/-- Results of the calls made by `loadAndActivateDataSet`. -/
structure LoadOutcome where
  objectTracker : Bool
  createDataSet : Option DataSet
  load : Bool
  activate : Bool
  deriving DecidableEq, Repr

/-- Results of the calls made by `initAR`: the values returned by successive calls of
`Vuforia::init()`, whether each tracker could be created, and the dataset calls. -/
structure InitOutcome where
  progress : List Int
  deviceTracker : Bool
  objectTracker : Bool
  load : LoadOutcome
  deriving DecidableEq, Repr

/-- Results of the calls made by `startAR`. -/
structure StartOutcome where
  cameraInit : Bool
  selectVideoMode : Bool
  recommendedFps : Int
  trackers : TrackersOutcome
  cameraStart : Bool
  setFocusMode : Bool
  deriving DecidableEq, Repr

/-- Results of the calls made by `pauseAR` and `stopAR`. -/
structure PauseOutcome where
  cameraStop : Bool
  cameraDeinit : Bool
  trackers : TrackersOutcome
  deriving DecidableEq, Repr

/-- Results of the calls made by `resumeAR`. -/
structure ResumeOutcome where
  trackers : TrackersOutcome
  cameraInit : Bool
  cameraStart : Bool
  primitives : RenderingPrimitives
  deriving DecidableEq, Repr

/-- Results of the calls made by `unloadTrackerData`. -/
structure UnloadOutcome where
  objectTracker : Bool
  deactivate : Bool
  destroy : Bool
  deriving DecidableEq, Repr

/-- Results of the calls made by `configureRendering`. -/
structure RenderOutcome where
  videoMode : VideoMode
  primitives : RenderingPrimitives
  deriving DecidableEq, Repr

/-! ## Private methods -/

/-- The polling loop `while (progress >= 0 && progress < 100) progress = Vuforia::init();`
started at `progress` and fed with the values the successive calls return. It yields the
terminal value and the calls made, and `none` when the supplied values run out before a
terminal value is seen. -/
def initPoll : Int → List Int → Option (Int × List Event)
  | progress, [] =>
    if 0 ≤ progress ∧ progress < 100 then none else some (progress, [])
  | progress, v :: vs =>
    if 0 ≤ progress ∧ progress < 100 then
      (initPoll v vs).map (fun r => (r.1, Event.vuforiaInit :: r.2))
    else some (progress, [])

/-- The `switch` of `initVuforiaInternal` from a terminal code to the error message. -/
def initErrorMessage (codes : InitCodes) (progress : Int) : String :=
  if progress = codes.INIT_NO_CAMERA_ACCESS then
    "Vuforia cannot initialize because access to the camera was denied."
  else if progress = codes.INIT_LICENSE_ERROR_NO_NETWORK_TRANSIENT then
    "Vuforia failed to initialize because the license check encountered a temporary network error."
  else if progress = codes.INIT_LICENSE_ERROR_NO_NETWORK_PERMANENT then
    "Vuforia failed to initialize because the license check encountered a permanent network error."
  else if progress = codes.INIT_LICENSE_ERROR_INVALID_KEY then
    "Vuforia failed to initialize because the license key is invalid."
  else if progress = codes.INIT_LICENSE_ERROR_CANCELED_KEY then
    "Vuforia failed to initialize because the license key was cancelled."
  else if progress = codes.INIT_LICENSE_ERROR_MISSING_KEY then
    "Vuforia failed to initialize because the license key was missing."
  else if progress = codes.INIT_LICENSE_ERROR_PRODUCT_TYPE_MISMATCH then
    "Vuforia failed to initialize because the license key is for the wrong product type."
  else if progress = codes.INIT_DEVICE_NOT_SUPPORTED then
    "Vuforia failed to initialize because the device is not supported."
  else
    "Vuforia initialization failed."

/-- The platform-specific `Vuforia::setInitParameters` call. -/
def setInitParametersEvent (platform : Platform) (s : Session) (appData : Nat) : Event :=
  match platform with
  | .android => Event.setInitParameters (some appData) (some s.mVuforiaInitFlags)
  | .uwp => Event.setInitParameters none none
  | .ios => Event.setInitParameters none (some s.mVuforiaInitFlags)

/-- `AppController::initVuforiaInternal`: the returned flag (or the throw of the error
callback's invocation) and the calls made; `none` when the polling loop does not reach a
terminal value on the supplied progress values. -/
def initVuforiaInternal (env : Env) (s : Session) (appData : Nat) (progress : List Int) :
    Option (Except Fault Bool × List Event) :=
  match initPoll 0 progress with
  | none => none
  | some (code, calls) =>
    if code = 100 then
      some (.ok true, setInitParametersEvent env.platform s appData :: calls)
    else
      some (invokeThenReturn s.mShowErrorCallback false,
        setInitParametersEvent env.platform s appData :: calls ++
        [Event.showError s.mShowErrorCallback (initErrorMessage env.codes code)])

/-- `AppController::setVuforiaOrientation`. -/
def setVuforiaOrientation (platform : Platform) (orientation : Int) : List Event :=
  match platform with
  | .android => []
  | .uwp =>
    if orientation = 0 then [Event.setCurrentOrientation DisplayOrientation.PORTRAIT]
    else if orientation = 1 then
      [Event.setCurrentOrientation DisplayOrientation.PORTRAIT_FLIPPED]
    else if orientation = 2 then [Event.setCurrentOrientation DisplayOrientation.LANDSCAPE]
    else if orientation = 3 then
      [Event.setCurrentOrientation DisplayOrientation.LANDSCAPE_FLIPPED]
    else []
  | .ios =>
    if orientation = 0 then [Event.setRotation Rotation.ROTATE_IOS_90]
    else if orientation = 1 then [Event.setRotation Rotation.ROTATE_IOS_270]
    else if orientation = 2 then [Event.setRotation Rotation.ROTATE_IOS_180]
    else if orientation = 3 then [Event.setRotation Rotation.ROTATE_IOS_0]
    else []

/-- `AppController::initTrackers`, given whether each `initTracker` call returns a
tracker. -/
def initTrackers (s : Session) (deviceTracker objectTracker : Bool) :
    Except Fault Bool × List Event :=
  if !deviceTracker then
    (invokeThenReturn s.mShowErrorCallback false,
     [Event.initTracker TrackerType.positionalDevice,
      Event.log "Error: Failed to initialise the Device tracker (it may have been initialised already)",
      Event.showError s.mShowErrorCallback "Error initializing the device tracker"])
  else if !objectTracker then
    (invokeThenReturn s.mShowErrorCallback false,
     [Event.initTracker TrackerType.positionalDevice,
      Event.initTracker TrackerType.object,
      Event.log "Error: Failed to initialize ObjectTracker.",
      Event.showError s.mShowErrorCallback "Error initializing the object tracker"])
  else
    (.ok true, [Event.initTracker TrackerType.positionalDevice,
      Event.initTracker TrackerType.object])

/-- `AppController::deinitTrackers`. -/
def deinitTrackers : List Event :=
  [Event.deinitTracker TrackerType.object, Event.deinitTracker TrackerType.positionalDevice]

/-- `AppController::loadAndActivateDataSet`: the returned dataset pointer (`none` is
null) and the calls made. -/
def loadAndActivateDataSet (path : String) (o : LoadOutcome) : Option DataSet × List Event :=
  if !o.objectTracker then
    (none, [Event.log ("Loading data set from " ++ path),
      Event.getTracker TrackerType.object,
      Event.log "Error: Failed to get the ObjectTracker from the TrackerManager"])
  else
    match o.createDataSet with
    | none =>
      (none, [Event.log ("Loading data set from " ++ path),
        Event.getTracker TrackerType.object,
        Event.createDataSet,
        Event.log "Error: Failed to create data set"])
    | some dataSet =>
      if !o.load then
        (none, [Event.log ("Loading data set from " ++ path),
          Event.getTracker TrackerType.object,
          Event.createDataSet,
          Event.dataSetLoad dataSet path,
          Event.log "Error: Failed to load data set",
          Event.destroyDataSet (some dataSet)])
      else if !o.activate then
        (none, [Event.log ("Loading data set from " ++ path),
          Event.getTracker TrackerType.object,
          Event.createDataSet,
          Event.dataSetLoad dataSet path,
          Event.activateDataSet dataSet,
          Event.log "Error: Failed to activate data set",
          Event.destroyDataSet (some dataSet)])
      else
        (some dataSet, [Event.log ("Loading data set from " ++ path),
          Event.getTracker TrackerType.object,
          Event.createDataSet,
          Event.dataSetLoad dataSet path,
          Event.activateDataSet dataSet])

/-- `AppController::loadTrackerData`. -/
def loadTrackerData (s : Session) (o : LoadOutcome) :
    Except Fault Bool × Session × List Event :=
  if s.mCurrentDataSet ≠ none then
    (invokeThenReturn s.mShowErrorCallback false, s, [Event.showError s.mShowErrorCallback
      "Attempt to load a dataset when one is already loaded"])
  else if s.mTarget = IMAGE_TARGET_ID then
    let r := loadAndActivateDataSet "StonesAndChips.xml" o
    let s1 := { s with mCurrentDataSet := r.1 }
    if r.1 = none then
      (invokeThenReturn s.mShowErrorCallback false, s1,
        r.2 ++ [Event.showError s.mShowErrorCallback
        "Error loading dataset for Image Target"])
    else (.ok true, s1, r.2)
  else
    let r := loadAndActivateDataSet "VuforiaMars_ModelTarget.xml" o
    let s1 := { s with mCurrentDataSet := r.1 }
    if r.1 = none then
      (invokeThenReturn s.mShowErrorCallback false, s1,
        r.2 ++ [Event.showError s.mShowErrorCallback
        "Error loading dataset for Model Target"])
    else (.ok true, s1, r.2)

/-- `AppController::unloadTrackerData`. -/
def unloadTrackerData (s : Session) (o : UnloadOutcome) : Bool × Session × List Event :=
  if !o.objectTracker then
    (false, s, [Event.getTracker TrackerType.object])
  else
    (true, { s with mCurrentDataSet := none },
      [Event.getTracker TrackerType.object, Event.deactivateDataSet s.mCurrentDataSet] ++
      (if !o.deactivate then [Event.log "Warning: Failed to deactivate the data set."]
       else []) ++
      [Event.destroyDataSet s.mCurrentDataSet] ++
      (if !o.destroy then [Event.log "Warning: Failed to destory the data set."] else []))

/-- `AppController::startTrackers`: the value each `start()` returns is ignored. -/
def startTrackers (o : TrackersOutcome) : Bool × List Event :=
  let deviceCalls : List Event :=
    match o.deviceTracker with
    | some _ => [Event.getTracker TrackerType.positionalDevice,
        Event.trackerStart TrackerType.positionalDevice]
    | none => [Event.getTracker TrackerType.positionalDevice]
  match o.objectTracker with
  | none => (false, deviceCalls ++ [Event.getTracker TrackerType.object])
  | some _ => (true, deviceCalls ++ [Event.getTracker TrackerType.object,
      Event.trackerStart TrackerType.object])

/-- `AppController::stopTrackers`. -/
def stopTrackers (o : TrackersOutcome) : List Event :=
  (match o.objectTracker with
   | some _ => [Event.getTracker TrackerType.object, Event.trackerStop TrackerType.object,
       Event.log "Successfully stopped the ObjectTracker"]
   | none => [Event.getTracker TrackerType.object,
       Event.log "Error: Failed to get the ObjectTracker from the tracker manager"]) ++
  (match o.deviceTracker with
   | some _ => [Event.getTracker TrackerType.positionalDevice,
       Event.trackerStop TrackerType.positionalDevice,
       Event.log "Successfully stopped the PositionalDeviceTracker"]
   | none => [Event.getTracker TrackerType.positionalDevice,
       Event.log "Error: Failed to get the PositionalDeviceTracker from the tracker manager"])

/-- `AppController::updateRenderingPrimitives`, given the set the device hands out. -/
def updateRenderingPrimitives (s : Session) (primitives : RenderingPrimitives) :
    Session × List Event :=
  ({ s with mCurrentRenderingPrimitives := some primitives }, [Event.getRenderingPrimitives])

/-- `AppController::configureVideoBackground`, with the rounding of its `float`
arithmetic. -/
def configureVideoBackground (round : ℚ → ℚ) (s : Session) (viewWidth viewHeight : ℚ)
    (o : RenderOutcome) : Session × List Event :=
  let size := videoBackgroundSize round (isScreenPortrait s) o.videoMode viewWidth viewHeight
  let r := updateRenderingPrimitives s o.primitives
  (r.1, [Event.cameraGetCurrentVideoMode, Event.setVideoBackgroundConfig size.1 size.2] ++ r.2)

/-! ## Public lifecycle methods -/

/-- The assignments at the head of `initAR` (AppController.cpp lines 69-78). -/
def initARReset (s : Session) (initConfig : InitConfig) (target : Int) : Session :=
  { s with
    mVuforiaInitFlags := initConfig.vuforiaInitFlags
    mShowErrorCallback := initConfig.showErrorCallback
    mInitDoneCallback := initConfig.initDoneCallback
    mTarget := target
    mDoneOneTimeRenderingConfiguration := false
    mCameraIsActive := false
    mCameraIsStarted := false
    mGuideViewModelTarget := none }

/-- `AppController::initAR`: how the call ends (it returns, or a callback invocation
throws), the session afterwards and the calls made, in order; `none` when the engine's
polling loop does not reach a terminal value on the supplied progress values. -/
def initAR (env : Env) (s : Session) (initConfig : InitConfig) (target : Int)
    (o : InitOutcome) : Option (Except Fault Unit × Session × List Event) :=
  let s1 := initARReset s initConfig target
  match initVuforiaInternal env s1 initConfig.appData o.progress with
  | none => none
  | some (.error f, engineCalls) => some (.error f, s1, engineCalls)
  | some (.ok false, engineCalls) => some (.ok (), s1, engineCalls)
  | some (.ok true, engineCalls) =>
    let t := initTrackers s1 o.deviceTracker o.objectTracker
    match t.1 with
    | .error f => some (.error f, s1, engineCalls ++ t.2)
    | .ok false => some (.ok (), s1, engineCalls ++ t.2)
    | .ok true =>
      let l := loadTrackerData s1 o.load
      match l.1 with
      | .error f => some (.error f, l.2.1, engineCalls ++ t.2 ++ l.2.2)
      | .ok false => some (.ok (), l.2.1, engineCalls ++ t.2 ++ l.2.2)
      | .ok true =>
        some (invokeThenReturn s1.mInitDoneCallback (), l.2.1,
          engineCalls ++ t.2 ++ l.2.2 ++ [Event.initDone s1.mInitDoneCallback])

/-- `AppController::startAR`: the returned flag (or the throw of the error callback's
invocation), the session afterwards and the calls made. -/
def startAR (s : Session) (o : StartOutcome) : Except Fault Bool × Session × List Event :=
  if s.mCameraIsStarted || s.mCameraIsActive then
    (.ok false, s,
      [Event.log "Application logic error, attempt to startAR when already started"])
  else if !o.cameraInit then
    (invokeThenReturn s.mShowErrorCallback false, s, [Event.cameraInit,
      Event.showError s.mShowErrorCallback "Failed to initialize the camera"])
  else if !o.selectVideoMode then
    (invokeThenReturn s.mShowErrorCallback false, s,
      [Event.cameraInit, Event.cameraSelectVideoMode s.mCameraMode,
      Event.showError s.mShowErrorCallback "Failed to set the camera mode"])
  else
    let t := startTrackers o.trackers
    if !t.1 then
      (invokeThenReturn s.mShowErrorCallback false, s,
        [Event.cameraInit, Event.cameraSelectVideoMode s.mCameraMode,
        Event.getRecommendedFps, Event.setTargetFps o.recommendedFps] ++ t.2 ++
        [Event.showError s.mShowErrorCallback "Failed to start trackers"])
    else if !o.cameraStart then
      (invokeThenReturn s.mShowErrorCallback false, s,
        [Event.cameraInit, Event.cameraSelectVideoMode s.mCameraMode,
        Event.getRecommendedFps, Event.setTargetFps o.recommendedFps] ++ t.2 ++
        [Event.cameraStart,
         Event.showError s.mShowErrorCallback "Failed to start the camera"])
    else
      (.ok true, { s with mCameraIsActive := true, mCameraIsStarted := true },
        [Event.cameraInit, Event.cameraSelectVideoMode s.mCameraMode,
        Event.getRecommendedFps, Event.setTargetFps o.recommendedFps] ++ t.2 ++
        [Event.cameraStart, Event.cameraSetFocusMode FocusMode.FOCUS_MODE_CONTINUOUSAUTO] ++
        (if !o.setFocusMode then
          [Event.log "Failed to set camera to continuous autofocus, camera may not support this"]
         else []))

/-- `AppController::pauseAR`. -/
def pauseAR (s : Session) (o : PauseOutcome) : Session × List Event :=
  if s.mCameraIsActive then
    let cameraErrorMessage : String :=
      if !o.cameraDeinit then "Error de-initializing the camera"
      else if !o.cameraStop then "Error stopping the camera"
      else ""
    let successfullyPaused : Bool := o.cameraStop && o.cameraDeinit
    ({ s with mCameraIsActive := false },
      [Event.cameraStop, Event.cameraDeinit] ++ stopTrackers o.trackers ++ [Event.onPause] ++
      (if !successfullyPaused then [Event.log ("Error pausing AR: " ++ cameraErrorMessage)]
       else []))
  else
    (s, stopTrackers o.trackers ++ [Event.onPause])

/-- `AppController::resumeAR`. -/
def resumeAR (s : Session) (o : ResumeOutcome) : Session × List Event :=
  let head : List Event := [Event.onResume] ++ (startTrackers o.trackers).2
  let r : Session × List Event :=
    if s.mCameraIsStarted && !s.mCameraIsActive then
      if !o.cameraInit then
        (s, [Event.cameraInit,
          Event.log ("Error resuming AR: " ++ "Failed to initialize the camera.")])
      else if !o.cameraStart then
        (s, [Event.cameraInit, Event.cameraStart,
          Event.log ("Error resuming AR: " ++ "Failed to start the camera.")])
      else
        ({ s with mCameraIsActive := true }, [Event.cameraInit, Event.cameraStart])
    else (s, [])
  if r.1.mCameraIsStarted then
    let u := updateRenderingPrimitives r.1 o.primitives
    (u.1, head ++ r.2 ++ u.2)
  else
    (r.1, head ++ r.2)

/-- `AppController::stopAR`: the values the camera calls return are ignored. -/
def stopAR (s : Session) (o : PauseOutcome) : Session × List Event :=
  if s.mCameraIsActive then
    ({ s with mCameraIsActive := false, mCameraIsStarted := false },
      [Event.cameraStop, Event.cameraDeinit] ++ stopTrackers o.trackers)
  else
    ({ s with mCameraIsStarted := false }, stopTrackers o.trackers)

/-- `AppController::deinitAR`. -/
def deinitAR (s : Session) (o : UnloadOutcome) : Session × List Event :=
  let u := unloadTrackerData s o
  (u.2.1, [Event.onPause] ++ u.2.2 ++
    (if !u.1 then [Event.log "Error unloading tracker data."] else []) ++
    deinitTrackers ++ [Event.vuforiaDeinit])

/-- `AppController::cameraPerformAutoFocus`. -/
def cameraPerformAutoFocus : List Event :=
  [Event.cameraSetFocusMode FocusMode.FOCUS_MODE_TRIGGERAUTO]

/-- `AppController::cameraRestoreAutoFocus`. -/
def cameraRestoreAutoFocus : List Event :=
  [Event.cameraSetFocusMode FocusMode.FOCUS_MODE_CONTINUOUSAUTO]

/-- `AppController::configureRendering`. -/
def configureRendering (env : Env) (s : Session) (width height orientation : Int)
    (o : RenderOutcome) : Bool × Session × List Event :=
  if !s.mCameraIsStarted then (false, s, [])
  else
    let s1 : Session :=
      { s with mOrientation := orientation
               mDisplayAspectRatio := (width : ℚ) / (height : ℚ) }
    let once : List Event :=
      if !s1.mDoneOneTimeRenderingConfiguration then [Event.onSurfaceCreated] else []
    let s2 : Session := { s1 with mDoneOneTimeRenderingConfiguration := true }
    let smallerSize : Int := min width height
    let largerSize : Int := max width height
    let changed : Event :=
      if isScreenPortrait s2 then Event.onSurfaceChanged smallerSize largerSize
      else Event.onSurfaceChanged largerSize smallerSize
    let v := configureVideoBackground roundFloat32 s2 (width : ℚ) (height : ℚ) o
    (true, v.1, setVuforiaOrientation env.platform orientation ++ once ++ [changed] ++ v.2)

/-- `AppController::prepareToRender`: the snapshot pulled from the engine replaces the
held one, the primitives are rebuilt when absent, and the viewport is filled in. -/
def prepareToRender (s : Session) (snapshot : State) (primitives : RenderingPrimitives)
    (viewportInfo : RenderingPrimitives → Int × Int × Int × Int)
    (videoBackgroundTexture : Bool) (textureUpdated : Bool) :
    Bool × Session × List ℚ × List Event :=
  let s1 : Session := { s with mVuforiaState := snapshot }
  let u : Session × List Event :=
    match s1.mCurrentRenderingPrimitives with
    | none => updateRenderingPrimitives s1 primitives
    | some _ => (s1, [])
  let current : RenderingPrimitives :=
    match s1.mCurrentRenderingPrimitives with
    | none => primitives
    | some p => p
  let info := viewportInfo current
  (textureUpdated, u.1,
    [(info.1 : ℚ), (info.2.1 : ℚ), (info.2.2.1 : ℚ), (info.2.2.2 : ℚ), 0, 1],
    [Event.updateState, Event.rendererBegin] ++ u.2 ++
    (if videoBackgroundTexture then [Event.setVideoBackgroundTexture] else []) ++
    [Event.updateVideoBackgroundTexture])

/-- `AppController::finishRender`. -/
def finishRender : List Event :=
  [Event.rendererEnd]

/-! ## Per-frame render transforms -/

/-- The matrix helpers the transform accessors call, over a type `M` of 4x4 matrices:
the `MathUtils` functions, the conversions of `Vuforia::Tool`, the projection query of
the rendering primitives, and `std::tanf`. -/
structure MathOps (M : Type) where
  convertPose2GLMatrix : Matrix34F → M
  getProjectionMatrix : RenderingPrimitives → Option CameraCalibration → Matrix34F
  convertPerspectiveProjection2GLMatrix : Matrix34F → ℚ → ℚ → M
  Matrix44FIdentity : M
  Matrix44FTranspose : M → M
  Matrix44FInverse : M → M
  Matrix44FScale : Vec3F → M → M
  multiplyMatrix : M → M → M
  makeScalingMatrix : Vec3F → M
  makeTranslationMatrix : Vec3F → M
  tanf : ℚ → ℚ

/-- The three matrix out-parameters of the target accessors. -/
structure TargetMatrices (M : Type) where
  projectionMatrix : M
  modelViewMatrix : M
  scaledModelViewMatrix : M

/-- The projection computed by the accessors from the cached primitives and the
snapshot's calibration. -/
def projectionOf {M : Type} (ops : MathOps M) (primitives : RenderingPrimitives)
    (snapshot : State) : M :=
  ops.convertPerspectiveProjection2GLMatrix
    (ops.getProjectionMatrix primitives snapshot.cameraCalibration) NEAR_PLANE FAR_PLANE

/-- The view matrix `transpose(inverse(convertPose2GLMatrix(devicePose)))`. -/
def viewMatrixOf {M : Type} (ops : MathOps M) (devicePose : Matrix34F) : M :=
  ops.Matrix44FTranspose (ops.Matrix44FInverse (ops.convertPose2GLMatrix devicePose))

/-- `AppController::getOrigin`, on the current values of its two out-parameters. -/
def getOrigin {M : Type} (ops : MathOps M) (s : Session) (projectionMatrix modelViewMatrix : M) :
    Except Fault (Bool × M × M) :=
  match s.mVuforiaState.deviceTrackableResult with
  | none => .ok (false, projectionMatrix, modelViewMatrix)
  | some origin =>
    if origin.status = Status.TRACKED ∧ origin.statusInfo = StatusInfo.NORMAL then
      match s.mCurrentRenderingPrimitives with
      | none => .error Fault.nullDereference
      | some primitives =>
        .ok (true, projectionOf ops primitives s.mVuforiaState, viewMatrixOf ops origin.pose)
    else .ok (false, projectionMatrix, modelViewMatrix)

/-- The body of the `if` of `getImageTargetResult` (lines 385-409) for one image-target
result. -/
def imageTargetTransforms {M : Type} (ops : MathOps M) (s : Session)
    (result : TrackableResult) (target : ImageTarget) : Except Fault (TargetMatrices M) :=
  match s.mVuforiaState.deviceTrackableResult with
  | none => .error Fault.nullDereference
  | some device =>
    match s.mCurrentRenderingPrimitives with
    | none => .error Fault.nullDereference
    | some primitives =>
      let viewMatrix := viewMatrixOf ops device.pose
      let modelViewMatrix :=
        ops.multiplyMatrix viewMatrix (ops.convertPose2GLMatrix result.pose)
      let targetSize : Vec3F :=
        { x := target.size.x, y := target.size.y, z := max target.size.x target.size.y }
      .ok { projectionMatrix := projectionOf ops primitives s.mVuforiaState
            modelViewMatrix := modelViewMatrix
            scaledModelViewMatrix := ops.Matrix44FScale targetSize modelViewMatrix }

/-- The loop of `getImageTargetResult` over the remaining results. -/
def getImageTargetResultLoop {M : Type} (ops : MathOps M) (s : Session) :
    List TrackableResult → TargetMatrices M → Except Fault (Bool × TargetMatrices M)
  | [], out => .ok (false, out)
  | result :: rest, out =>
    match result.trackable with
    | .imageTarget target =>
      if s.mTarget = IMAGE_TARGET_ID then
        match imageTargetTransforms ops s result target with
        | .error f => .error f
        | .ok m => .ok (true, m)
      else getImageTargetResultLoop ops s rest out
    | _ => getImageTargetResultLoop ops s rest out

/-- `AppController::getImageTargetResult`, on the current values of its out-parameters.
-/
def getImageTargetResult {M : Type} (ops : MathOps M) (s : Session) (out : TargetMatrices M) :
    Except Fault (Bool × TargetMatrices M) :=
  getImageTargetResultLoop ops s s.mVuforiaState.trackableResults out

/-- The `else` branch of `getModelTargetResult` (lines 442-467) for one model-target
result that has a pose. -/
def modelTargetTransforms {M : Type} (ops : MathOps M) (s : Session)
    (result : TrackableResult) (target : ModelTarget) : Except Fault (TargetMatrices M) :=
  match s.mVuforiaState.deviceTrackableResult with
  | none => .error Fault.nullDereference
  | some device =>
    match s.mCurrentRenderingPrimitives with
    | none => .error Fault.nullDereference
    | some primitives =>
      let viewMatrix := viewMatrixOf ops device.pose
      let modelViewMatrix :=
        ops.multiplyMatrix viewMatrix (ops.convertPose2GLMatrix result.pose)
      let translateCenter : Vec3F :=
        { x := target.boundingBoxCenter.x, y := target.boundingBoxCenter.y,
          z := target.boundingBoxCenter.z }
      let scaleMatrix := ops.makeScalingMatrix target.size
      let translateMatrix := ops.makeTranslationMatrix translateCenter
      .ok { projectionMatrix := projectionOf ops primitives s.mVuforiaState
            modelViewMatrix := modelViewMatrix
            scaledModelViewMatrix :=
              ops.multiplyMatrix modelViewMatrix
                (ops.multiplyMatrix translateMatrix scaleMatrix) }

/-- The loop of `getModelTargetResult` over the remaining results; the session carries
the guide-view candidate `mGuideViewModelTarget`, which the loop updates. -/
def getModelTargetResultLoop {M : Type} (ops : MathOps M) :
    List TrackableResult → Session → TargetMatrices M →
      Except Fault (Bool × Session × TargetMatrices M)
  | [], s, out => .ok (false, s, out)
  | result :: rest, s, out =>
    match result.trackable with
    | .modelTarget target =>
      if s.mTarget = MODEL_TARGET_ID then
        if result.status = Status.NO_POSE then
          if result.statusInfo = StatusInfo.NO_DETECTION_RECOMMENDING_GUIDANCE then
            getModelTargetResultLoop ops rest (s.withGuide (some target)) out
          else getModelTargetResultLoop ops rest s out
        else
          let s1 : Session := s.withGuide none
          match modelTargetTransforms ops s1 result target with
          | .error f => .error f
          | .ok m => .ok (true, s1, m)
      else getModelTargetResultLoop ops rest s out
    | _ => getModelTargetResultLoop ops rest s out

/-- `AppController::getModelTargetResult`, on the current values of its out-parameters.
-/
def getModelTargetResult {M : Type} (ops : MathOps M) (s : Session) (out : TargetMatrices M) :
    Except Fault (Bool × Session × TargetMatrices M) :=
  getModelTargetResultLoop ops s.mVuforiaState.trackableResults s out

/-- The plane size chosen by the four-way split of `getModelTargetGuideView` (lines
512-540): `(planeWidth, planeHeight)`. -/
def guideViewPlane (guideViewAspectRatio displayAspectRatio nearPlaneWidth nearPlaneHeight : ℚ) :
    ℚ × ℚ :=
  if guideViewAspectRatio ≥ 1 ∧ displayAspectRatio ≥ 1 then
    (nearPlaneWidth, nearPlaneWidth / guideViewAspectRatio)
  else if guideViewAspectRatio < 1 ∧ displayAspectRatio < 1 then
    (nearPlaneHeight * guideViewAspectRatio, nearPlaneHeight)
  else if displayAspectRatio < 1 then
    (nearPlaneHeight, nearPlaneHeight / guideViewAspectRatio)
  else
    (nearPlaneWidth * guideViewAspectRatio, nearPlaneWidth)

/-- The normalised scale `(2 * planeWidth / nearPlaneWidth, 2 * planeHeight /
nearPlaneHeight)` of `getModelTargetGuideView` (line 543). -/
def guideViewScale (guideViewAspectRatio displayAspectRatio nearPlaneHeight : ℚ) : ℚ × ℚ :=
  let nearPlaneWidth := nearPlaneHeight * displayAspectRatio
  let plane := guideViewPlane guideViewAspectRatio displayAspectRatio nearPlaneWidth
    nearPlaneHeight
  (2 * plane.1 / nearPlaneWidth, 2 * plane.2 / nearPlaneHeight)

/-- `AppController::getModelTargetGuideView`, on the current values of its
out-parameters: the returned flag, the projection, the model-view matrix and the guide
image. -/
def getModelTargetGuideView {M : Type} (ops : MathOps M) (s : Session)
    (projectionMatrix modelViewMatrix : M) (guideViewImage : Option Image) :
    Bool × M × M × Option Image :=
  match s.mGuideViewModelTarget with
  | none => (false, projectionMatrix, modelViewMatrix, guideViewImage)
  | some target =>
    match target.guideViews with
    | [] => (false, projectionMatrix, modelViewMatrix, guideViewImage)
    | guideViewTarget :: _ =>
      let guideImage := guideViewTarget.image
      match s.mVuforiaState.cameraCalibration with
      | none => (false, projectionMatrix, modelViewMatrix, guideViewImage)
      | some cameraCalibration =>
        let guideViewAspectRatio : ℚ := (guideImage.width : ℚ) / (guideImage.height : ℚ)
        let planeDistance : ℚ := 1 / 100
        let fieldOfView : ℚ := cameraCalibration.fieldOfViewRads.2
        let nearPlaneHeight : ℚ := 1 * planeDistance * ops.tanf (fieldOfView * (1 / 2))
        let scale := guideViewScale guideViewAspectRatio s.mDisplayAspectRatio nearPlaneHeight
        (true, ops.Matrix44FIdentity,
          ops.Matrix44FScale { x := scale.1, y := scale.2, z := 1 } ops.Matrix44FIdentity,
          some guideImage)

/-- A model-target result that has a pose (its status is not `NO_POSE`). -/
def isPosedModelResult (r : TrackableResult) : Bool :=
  match r.trackable with
  | .modelTarget _ => decide (r.status ≠ Status.NO_POSE)
  | _ => false

/-- A model-target result in "no pose, recommending guidance". -/
def isGuidanceModelResult (r : TrackableResult) : Bool :=
  match r.trackable with
  | .modelTarget _ =>
    decide (r.status = Status.NO_POSE ∧
      r.statusInfo = StatusInfo.NO_DETECTION_RECOMMENDING_GUIDANCE)
  | _ => false

/-- Both trackers were obtained and their `start()` calls reported success. -/
def bothTrackersStarted (o : TrackersOutcome) : Bool :=
  o.deviceTracker == some true && o.objectTracker == some true

/-- A progress value that ends the engine's polling loop: negative or at least 100. -/
def isTerminalProgress (v : Int) : Bool :=
  !(decide (0 ≤ v) && decide (v < 100))

/-! ## Reachable sessions -/

/-- The sessions a host can bring a freshly constructed controller into by calling the
public methods, with arbitrary collaborator outcomes; a call that ends by a throw leaves
the session it had reached. -/
inductive Reachable (env : Env) : Session → Prop where
  | fresh : Reachable env Session.fresh
  | initAR {s s1 : Session} {completion : Except Fault Unit} {calls : List Event}
      (initConfig : InitConfig) (target : Int) (o : InitOutcome) :
      Reachable env s → initAR env s initConfig target o = some (completion, s1, calls) →
      Reachable env s1
  | startAR {s : Session} (o : StartOutcome) :
      Reachable env s → Reachable env (startAR s o).2.1
  | pauseAR {s : Session} (o : PauseOutcome) :
      Reachable env s → Reachable env (pauseAR s o).1
  | resumeAR {s : Session} (o : ResumeOutcome) :
      Reachable env s → Reachable env (resumeAR s o).1
  | stopAR {s : Session} (o : PauseOutcome) :
      Reachable env s → Reachable env (stopAR s o).1
  | deinitAR {s : Session} (o : UnloadOutcome) :
      Reachable env s → Reachable env (deinitAR s o).1
  | configureRendering {s : Session} (width height orientation : Int) (o : RenderOutcome) :
      Reachable env s → Reachable env (configureRendering env s width height orientation o).2.1
  | updateRenderingPrimitives {s : Session} (primitives : RenderingPrimitives) :
      Reachable env s → Reachable env (updateRenderingPrimitives s primitives).1
  | prepareToRender {s : Session} (snapshot : State) (primitives : RenderingPrimitives)
      (viewportInfo : RenderingPrimitives → Int × Int × Int × Int)
      (videoBackgroundTexture textureUpdated : Bool) :
      Reachable env s →
      Reachable env (prepareToRender s snapshot primitives viewportInfo
        videoBackgroundTexture textureUpdated).2.1
  | getModelTargetResult {M : Type} {s s1 : Session} {found : Bool}
      {out out1 : TargetMatrices M} (ops : MathOps M) :
      Reachable env s → getModelTargetResult ops s out = .ok (found, s1, out1) →
      Reachable env s1

/-! ## Symbolic matrices

An instance of `MathOps` whose matrices are the expressions that were computed; it is
used to evaluate the accessors on concrete snapshots. -/

/-- A 4x4 matrix given by the computation that produced it. -/
inductive MatExpr where
  | ofPose (pose : Matrix34F)
  | perspective (projection : Matrix34F) (nearPlane farPlane : ℚ)
  | identity
  | transpose (m : MatExpr)
  | inverse (m : MatExpr)
  | scale (v : Vec3F) (m : MatExpr)
  | mul (a b : MatExpr)
  | scaling (v : Vec3F)
  | translation (v : Vec3F)

/-- The pose all of whose twelve entries are `q`. -/
def constPose (q : ℚ) : Matrix34F :=
  { data := fun _ => q }

/-- The matrix helpers over symbolic matrices. -/
def symbolicOps : MathOps MatExpr :=
  { convertPose2GLMatrix := MatExpr.ofPose
    getProjectionMatrix := fun primitives _ => constPose (primitives : ℚ)
    convertPerspectiveProjection2GLMatrix := MatExpr.perspective
    Matrix44FIdentity := MatExpr.identity
    Matrix44FTranspose := MatExpr.transpose
    Matrix44FInverse := MatExpr.inverse
    Matrix44FScale := MatExpr.scale
    multiplyMatrix := MatExpr.mul
    makeScalingMatrix := MatExpr.scaling
    makeTranslationMatrix := MatExpr.translation
    tanf := fun x => x }

/-! ## Concrete snapshots, outcomes and sessions -/

/-- A model target of size `(q, q, q)` centred at the origin, without guide views. -/
def cubeTarget (id : Nat) (q : ℚ) : ModelTarget :=
  { id := id, size := { x := q, y := q, z := q },
    boundingBoxCenter := { x := 0, y := 0, z := 0 }, guideViews := [] }

/-- A tracked model-target result. -/
def trackedModelResult (id : Nat) (q : ℚ) : TrackableResult :=
  { status := Status.TRACKED, statusInfo := StatusInfo.NORMAL, pose := constPose q,
    trackable := Trackable.modelTarget (cubeTarget id q) }

/-- A model-target result in "no pose, recommending guidance". -/
def guidanceModelResult (id : Nat) (q : ℚ) : TrackableResult :=
  { status := Status.NO_POSE, statusInfo := StatusInfo.NO_DETECTION_RECOMMENDING_GUIDANCE,
    pose := constPose q, trackable := Trackable.modelTarget (cubeTarget id q) }

/-- A device/origin result that is tracked normally. -/
def trackedDevice : DeviceTrackableResult :=
  { status := Status.TRACKED, statusInfo := StatusInfo.NORMAL, pose := constPose 0 }

/-- The session of a frame begun on a fresh model-target controller with the given
snapshot. -/
def modelFrame (snapshot : State) : Session :=
  (prepareToRender { Session.fresh with mTarget := MODEL_TARGET_ID } snapshot 0
    (fun _ => (0, 0, 0, 0)) false true).2.1

/-- Initial values of the matrix out-parameters. -/
def identityMatrices : TargetMatrices MatExpr :=
  { projectionMatrix := MatExpr.identity, modelViewMatrix := MatExpr.identity,
    scaledModelViewMatrix := MatExpr.identity }

/-- A snapshot whose first result is a tracked model target, followed by a model target
recommending guidance and a second tracked model target. -/
def posedFirstSnapshot : State :=
  { trackableResults :=
      [trackedModelResult 0 1, guidanceModelResult 1 2, trackedModelResult 2 3]
    deviceTrackableResult := some trackedDevice
    cameraCalibration := none }

/-- A snapshot without device/origin result: a model target recommending guidance
followed by a tracked model target. -/
def noDeviceSnapshot : State :=
  { trackableResults := [guidanceModelResult 1 2, trackedModelResult 2 3]
    deviceTrackableResult := none
    cameraCalibration := none }

/-- The snapshot of the claim's scenario: a model target recommending guidance followed
by a tracked model target, with a device/origin result. -/
def guidanceThenPosedSnapshot : State :=
  { trackableResults := [guidanceModelResult 1 2, trackedModelResult 2 3]
    deviceTrackableResult := some trackedDevice
    cameraCalibration := none }

/-- The values of the engine's terminal codes in its headers. -/
def vuforiaCodes : InitCodes :=
  { INIT_NO_CAMERA_ACCESS := -3
    INIT_LICENSE_ERROR_NO_NETWORK_TRANSIENT := -7
    INIT_LICENSE_ERROR_NO_NETWORK_PERMANENT := -6
    INIT_LICENSE_ERROR_INVALID_KEY := -5
    INIT_LICENSE_ERROR_CANCELED_KEY := -8
    INIT_LICENSE_ERROR_MISSING_KEY := -4
    INIT_LICENSE_ERROR_PRODUCT_TYPE_MISMATCH := -9
    INIT_DEVICE_NOT_SUPPORTED := -2 }

/-- The Android build. -/
def androidEnv : Env :=
  { platform := Platform.android, codes := vuforiaCodes }

/-- An initialisation request with error callback 1 and completion callback 2. -/
def firstConfig : InitConfig :=
  { vuforiaInitFlags := 0, appData := 0, showErrorCallback := some 1,
    initDoneCallback := some 2 }

/-- An initialisation request with error callback 3 and completion callback 4. -/
def secondConfig : InitConfig :=
  { vuforiaInitFlags := 0, appData := 0, showErrorCallback := some 3,
    initDoneCallback := some 4 }

/-- An initialisation request whose two callbacks are empty function objects. -/
def emptyCallbackConfig : InitConfig :=
  { vuforiaInitFlags := 0, appData := 0, showErrorCallback := none,
    initDoneCallback := none }

/-- An initialisation request whose error callback is an empty function object. -/
def noErrorCallbackConfig : InitConfig :=
  { vuforiaInitFlags := 0, appData := 0, showErrorCallback := none,
    initDoneCallback := some 2 }

/-- Dataset calls that all succeed and hand out dataset 5. -/
def okLoad : LoadOutcome :=
  { objectTracker := true, createDataSet := some 5, load := true, activate := true }

/-- An initialisation in which the engine reports 50 then 100, and both trackers and the
dataset are set up. -/
def okInit : InitOutcome :=
  { progress := [50, 100], deviceTracker := true, objectTracker := true, load := okLoad }

/-- An initialisation in which the engine reports the failure code -1 at once. -/
def failedEngineInit : InitOutcome :=
  { progress := [-1], deviceTracker := true, objectTracker := true, load := okLoad }

/-- Both trackers exist and start or stop successfully. -/
def okTrackers : TrackersOutcome :=
  { deviceTracker := some true, objectTracker := some true }

/-- A start in which every collaborator call succeeds. -/
def okStart : StartOutcome :=
  { cameraInit := true, selectVideoMode := true, recommendedFps := 30,
    trackers := okTrackers, cameraStart := true, setFocusMode := true }

/-- The session after a first, successful `initAR` for the image target. -/
def firstInitSession : Session :=
  match initAR androidEnv Session.fresh firstConfig IMAGE_TARGET_ID okInit with
  | some r => r.2.1
  | none => Session.fresh

/-- The session after a successful `initAR` whose request has no error callback. -/
def noErrorCallbackSession : Session :=
  match initAR androidEnv Session.fresh noErrorCallbackConfig IMAGE_TARGET_ID okInit with
  | some r => r.2.1
  | none => Session.fresh

/-- The session after a successful `initAR` followed by a successful `startAR`. -/
def startedSession : Session :=
  (startAR firstInitSession okStart).2.1

/-- A start in which the device tracker is missing and the object tracker's `start()`
reports failure, while every camera call succeeds. -/
def trackersNotStarted : StartOutcome :=
  { cameraInit := true, selectVideoMode := true, recommendedFps := 30,
    trackers := { deviceTracker := none, objectTracker := some false },
    cameraStart := true, setFocusMode := true }

/-- A start in which the camera cannot be initialised. -/
def cameraInitFails : StartOutcome :=
  { cameraInit := false, selectVideoMode := true, recommendedFps := 30,
    trackers := okTrackers, cameraStart := true, setFocusMode := true }

/-- Unload calls that all succeed. -/
def okUnload : UnloadOutcome :=
  { objectTracker := true, deactivate := true, destroy := true }

/-- Unload calls in which the object tracker cannot be obtained. -/
def noTrackerUnload : UnloadOutcome :=
  { objectTracker := false, deactivate := true, destroy := true }

/-- The log line of a rejected `startAR`. -/
def alreadyStartedLog : Event :=
  Event.log "Application logic error, attempt to startAR when already started"

/-- A tracked image-target result for a target of size `(q, q, 0)`. -/
def trackedImageResult (id : Nat) (q : ℚ) : TrackableResult :=
  { status := Status.TRACKED, statusInfo := StatusInfo.NORMAL, pose := constPose q,
    trackable := Trackable.imageTarget { id := id, size := { x := q, y := q, z := 0 } } }

/-- A snapshot that holds a tracked image target but no device/origin result. -/
def noDeviceImageSnapshot : State :=
  { trackableResults := [trackedImageResult 0 1]
    deviceTrackableResult := none
    cameraCalibration := none }

/-- The session of a frame begun on a fresh image-target controller with the given
snapshot. -/
def imageFrame (snapshot : State) : Session :=
  (prepareToRender { Session.fresh with mTarget := IMAGE_TARGET_ID } snapshot 0
    (fun _ => (0, 0, 0, 0)) false true).2.1

/-- A pause on a controller whose tracker manager has no tracker. -/
def noTrackersPause : PauseOutcome :=
  { cameraStop := true, cameraDeinit := true,
    trackers := { deviceTracker := none, objectTracker := none } }

/-! ## Sequences of lifecycle calls -/

/-- A lifecycle or `configureRendering` call other than `initAR`, with the outcomes of
the collaborator calls it makes. -/
inductive LifecycleCall where
  | startAR (o : StartOutcome)
  | pauseAR (o : PauseOutcome)
  | resumeAR (o : ResumeOutcome)
  | stopAR (o : PauseOutcome)
  | deinitAR (o : UnloadOutcome)
  | configureRendering (width height orientation : Int) (o : RenderOutcome)

/-- The session after one call and the calls it made to its collaborators. -/
def applyCall (env : Env) (s : Session) : LifecycleCall → Session × List Event
  | .startAR o => (AppController.startAR s o).2
  | .pauseAR o => AppController.pauseAR s o
  | .resumeAR o => AppController.resumeAR s o
  | .stopAR o => AppController.stopAR s o
  | .deinitAR o => AppController.deinitAR s o
  | .configureRendering width height orientation o =>
    (AppController.configureRendering env s width height orientation o).2

/-- The session after a sequence of calls and everything they did, in order. -/
def runCalls (env : Env) : Session → List LifecycleCall → Session × List Event
  | s, [] => (s, [])
  | s, c :: cs =>
    ((runCalls env (applyCall env s c).1 cs).1,
     (applyCall env s c).2 ++ (runCalls env (applyCall env s c).1 cs).2)

/-- A `configureRendering` call that returns true in session `s`. -/
def isSuccessfulConfigure (env : Env) (s : Session) : LifecycleCall → Bool
  | .configureRendering width height orientation o =>
    (AppController.configureRendering env s width height orientation o).1
  | _ => false

/-- Some `configureRendering` call of the sequence, run from `s`, returns true. -/
def anyConfigureSucceeds (env : Env) : Session → List LifecycleCall → Bool
  | _, [] => false
  | s, c :: cs =>
    isSuccessfulConfigure env s c || anyConfigureSucceeds env (applyCall env s c).1 cs

/-- A pause or stop in which every call succeeds. -/
def okPause : PauseOutcome :=
  { cameraStop := true, cameraDeinit := true, trackers := okTrackers }

/-- A rendering configuration with a 640x480 camera. -/
def okRender : RenderOutcome :=
  { videoMode := { mWidth := 640, mHeight := 480 }, primitives := 0 }

/-- The calls of the first, successful `initAR` on a fresh controller. -/
def firstInitCalls : List Event :=
  [Event.setInitParameters (some 0) (some 0), Event.vuforiaInit, Event.vuforiaInit,
   Event.initTracker TrackerType.positionalDevice, Event.initTracker TrackerType.object,
   Event.log "Loading data set from StonesAndChips.xml",
   Event.getTracker TrackerType.object, Event.createDataSet,
   Event.dataSetLoad 5 "StonesAndChips.xml", Event.activateDataSet 5,
   Event.initDone (some 2)]

/-- Start, configure rendering, stop, start again, configure rendering again. -/
def restartCalls : List LifecycleCall :=
  [LifecycleCall.startAR okStart,
   LifecycleCall.configureRendering 1080 1920 0 okRender,
   LifecycleCall.stopAR okPause,
   LifecycleCall.startAR okStart,
   LifecycleCall.configureRendering 1920 1080 2 okRender]

/-- The eight failure codes `initVuforiaInternal` names, in the order of its `switch`.
-/
def namedCodes (codes : InitCodes) : List Int :=
  [codes.INIT_NO_CAMERA_ACCESS,
   codes.INIT_LICENSE_ERROR_NO_NETWORK_TRANSIENT,
   codes.INIT_LICENSE_ERROR_NO_NETWORK_PERMANENT,
   codes.INIT_LICENSE_ERROR_INVALID_KEY,
   codes.INIT_LICENSE_ERROR_CANCELED_KEY,
   codes.INIT_LICENSE_ERROR_MISSING_KEY,
   codes.INIT_LICENSE_ERROR_PRODUCT_TYPE_MISMATCH,
   codes.INIT_DEVICE_NOT_SUPPORTED]

/-- The message of the `default` case of the `switch`. -/
def unknownInitMessage : String :=
  "Vuforia initialization failed."

/-! ## Matrix helpers modelled from the spec -/

/-- A 4x4 matrix stored row by row in sixteen entries, `Vuforia::Matrix44F`. -/
structure Matrix44F where
  data : Fin 16 → ℚ

/-- Modelled from the spec: `MathUtils::Matrix44FTranspose`, whose body (MathUtils.cpp)
is not among the sources; the header says "Transpose a 4x4 matrix and return the result
(result = transpose(m))" over row storage. Entry `(i, j)` of the result, stored at
`4 * i + j`, is entry `(j, i)` of `m`, stored at `4 * j + i`. -/
def MathUtils.Matrix44FTranspose (m : Matrix44F) : Matrix44F :=
  { data := fun k =>
      m.data ⟨4 * (k.val % 4) + k.val / 4, by
        have h1 : k.val % 4 < 4 := Nat.mod_lt _ (by decide)
        have h2 : k.val / 4 < 4 := Nat.div_lt_of_lt_mul (by have := k.isLt; omega)
        omega⟩ }

/-- An image-target result, whatever its status. -/
def isImageResult (r : TrackableResult) : Bool :=
  match r.trackable with
  | .imageTarget _ => true
  | _ => false

/-- A snapshot with a tracked model target followed by a tracked image target, and a
device/origin result. -/
def imageSecondSnapshot : State :=
  { trackableResults := [trackedModelResult 0 1, trackedImageResult 1 2]
    deviceTrackableResult := some trackedDevice
    cameraCalibration := none }

/-- A model target with one guide view, whose image is 300x200. -/
def guidedTarget : ModelTarget :=
  { id := 7, size := { x := 1, y := 1, z := 1 },
    boundingBoxCenter := { x := 0, y := 0, z := 0 },
    guideViews := [{ image := { id := 1, width := 300, height := 200 } }] }

/-- An empty snapshot that still has a camera calibration. -/
def emptyCalibratedSnapshot : State :=
  { trackableResults := []
    deviceTrackableResult := none
    cameraCalibration := some { fieldOfViewRads := (1, 1) } }

/-- A frame on an empty snapshot, begun while the guide-view candidate of an earlier
frame is still recorded. -/
def staleGuideFrame : Session :=
  (prepareToRender
    { Session.fresh with mTarget := MODEL_TARGET_ID, mGuideViewModelTarget := some guidedTarget }
    emptyCalibratedSnapshot 0 (fun _ => (0, 0, 0, 0)) false true).2.1

/-! # Theorems -/

/-! ## Float rounding -/

/-- A rational within one half of an integer rounds to that integer. -/
theorem roundHalfEven_of_near (q : ℚ) (m : Int) (h : |q - (m : ℚ)| < 1 / 2) :
    roundHalfEven q = m := by
  rw [abs_lt] at h
  obtain ⟨h1, h2⟩ := h
  unfold roundHalfEven
  by_cases hm : (m : ℚ) ≤ q
  · have hf : Int.floor q = m := by
      rw [Int.floor_eq_iff]; constructor <;> linarith
    rw [hf, if_pos (by linarith)]
  · push_neg at hm
    have hf : Int.floor q = m - 1 := by
      rw [Int.floor_eq_iff]; push_cast; constructor <;> linarith
    rw [hf]
    push_cast
    rw [if_neg (by linarith), if_pos (by linarith)]
    ring

/-- The `float` nearest to `x`, from the binary exponent `e` of `x` and the 24-bit
significand `m` nearest to `x / 2 ^ (e - 23)`. -/
theorem roundFloat32_of_near (x : ℚ) (e m : Int) (hlo : (2 : ℚ) ^ e ≤ |x|)
    (hhi : |x| < (2 : ℚ) ^ (e + 1))
    (hm : |x / (2 : ℚ) ^ (e - 23) - (m : ℚ)| < 1 / 2) :
    roundFloat32 x = (m : ℚ) * (2 : ℚ) ^ (e - 23) := by
  have hpos : 0 < |x| := lt_of_lt_of_le (zpow_pos (by norm_num) e) hlo
  have hx : x ≠ 0 := abs_pos.mp hpos
  have hlog : Int.log 2 |x| = e := by
    apply le_antisymm
    · have := (Int.lt_zpow_iff_log_lt (by norm_num : 1 < 2) hpos).mp (by exact_mod_cast hhi)
      omega
    · exact (Int.zpow_le_iff_le_log (by norm_num : 1 < 2) hpos).mp (by exact_mod_cast hlo)
  unfold roundFloat32
  rw [if_neg hx, hlog, roundHalfEven_of_near _ m hm]

/-- The `float` nearest to 4/3. -/
theorem roundFloat32_four_thirds : roundFloat32 (4 / 3) = 11184811 / 8388608 := by
  rw [roundFloat32_of_near (4 / 3) 0 11184811 (by norm_num [abs_of_pos])
    (by norm_num [abs_of_pos]) (by norm_num [abs_lt])]
  norm_num

/-- The `float` nearest to 16/9. -/
theorem roundFloat32_sixteen_ninths : roundFloat32 (16 / 9) = 14913081 / 8388608 := by
  rw [roundFloat32_of_near (16 / 9) 0 14913081 (by norm_num [abs_of_pos])
    (by norm_num [abs_of_pos]) (by norm_num [abs_lt])]
  norm_num

/-- A `float` is its own nearest `float`: 3 and 1440. -/
theorem roundFloat32_three : roundFloat32 3 = 3 := by
  rw [roundFloat32_of_near 3 1 12582912 (by norm_num [abs_of_pos])
    (by norm_num [abs_of_pos]) (by norm_num [abs_lt])]
  norm_num

/-- The value 1440 is a `float`. -/
theorem roundFloat32_1440 : roundFloat32 1440 = 1440 := by
  rw [roundFloat32_of_near 1440 10 11796480 (by norm_num [abs_of_pos])
    (by norm_num [abs_of_pos]) (by norm_num [abs_lt])]
  norm_num

/-- Truncation of a non-negative value is its floor. -/
theorem truncToInt_of_nonneg (x : ℚ) (h : 0 ≤ x) : truncToInt x = Int.floor x := by
  unfold truncToInt; rw [if_pos h]

/-- Truncation gives back an integer. -/
theorem truncToInt_intCast (n : Int) : truncToInt (n : ℚ) = n := by
  unfold truncToInt
  split <;> simp

/-- What `configureVideoBackground` hands to the renderer. -/
theorem configureVideoBackground_calls (round : ℚ → ℚ) (s : Session) (viewWidth viewHeight : ℚ)
    (o : RenderOutcome) :
    (configureVideoBackground round s viewWidth viewHeight o).2 =
      [Event.cameraGetCurrentVideoMode,
       Event.setVideoBackgroundConfig
         (videoBackgroundSize round (isScreenPortrait s) o.videoMode viewWidth viewHeight).1
         (videoBackgroundSize round (isScreenPortrait s) o.videoMode viewWidth viewHeight).2,
       Event.getRenderingPrimitives] := rfl

/-- The size stored, branch by branch of `configureVideoBackground`. -/
theorem videoBackgroundSize_branches (round : ℚ → ℚ) (videoMode : VideoMode)
    (viewWidth viewHeight : ℚ) :
    (round ((videoMode.mWidth : ℚ) / (videoMode.mHeight : ℚ)) < round (viewHeight / viewWidth) →
      videoBackgroundSize round true videoMode viewWidth viewHeight =
        (truncToInt (round ((videoMode.mHeight : ℚ) *
          round (viewHeight / (videoMode.mWidth : ℚ)))), truncToInt viewHeight)) ∧
    (¬ round ((videoMode.mWidth : ℚ) / (videoMode.mHeight : ℚ)) < round (viewHeight / viewWidth) →
      videoBackgroundSize round true videoMode viewWidth viewHeight =
        (truncToInt viewWidth, truncToInt (round ((videoMode.mWidth : ℚ) *
          round (viewWidth / (videoMode.mHeight : ℚ)))))) ∧
    (round ((videoMode.mWidth : ℚ) / (videoMode.mHeight : ℚ)) < round (viewWidth / viewHeight) →
      videoBackgroundSize round false videoMode viewWidth viewHeight =
        (truncToInt viewWidth, truncToInt (round ((videoMode.mHeight : ℚ) *
          round (viewWidth / (videoMode.mWidth : ℚ)))))) ∧
    (¬ round ((videoMode.mWidth : ℚ) / (videoMode.mHeight : ℚ)) < round (viewWidth / viewHeight) →
      videoBackgroundSize round false videoMode viewWidth viewHeight =
        (truncToInt (round ((videoMode.mWidth : ℚ) *
          round (viewHeight / (videoMode.mHeight : ℚ)))), truncToInt viewHeight)) := by
  unfold videoBackgroundSize videoBackgroundExtent
  refine ⟨?_, ?_, ?_, ?_⟩ <;> intro h
  · simp only [if_true]; rw [if_pos h]
  · simp only [if_true]; rw [if_neg h]
  · simp only [Bool.false_eq_true, if_false]; rw [if_pos h]
  · simp only [Bool.false_eq_true, if_false]; rw [if_neg h]

/-- The size computed in `float` arithmetic for a portrait view of 1080x1920 and a
640x480 camera. -/
theorem videoBackgroundSize_portrait_1080x1920_640x480 :
    videoBackgroundSize roundFloat32 true { mWidth := 640, mHeight := 480 } 1080 1920
      = (1440, 1920) := by
  have h1 : (((640 : Int) : ℚ) / ((480 : Int) : ℚ)) = 4 / 3 := by norm_num
  have h2 : ((1920 : ℚ) / 1080) = 16 / 9 := by norm_num
  have h3 : (1920 : ℚ) / ((640 : Int) : ℚ) = 3 := by norm_num
  have h4 : ((480 : Int) : ℚ) * 3 = 1440 := by norm_num
  rw [(videoBackgroundSize_branches roundFloat32 { mWidth := 640, mHeight := 480 } 1080
    1920).1 (by
      simp only [h1, h2, roundFloat32_four_thirds, roundFloat32_sixteen_ninths]
      norm_num)]
  simp only [h3, roundFloat32_three, h4, roundFloat32_1440]
  norm_num [truncToInt]

/-- C1, as stated, fails: for a portrait view of 1080x1920 and a camera video mode of
640x480, `configureVideoBackground` hands the renderer the size (1440, 1920), not
(1080, 810). -/
theorem C1_counterexample :
    (configureVideoBackground roundFloat32 { Session.fresh with mOrientation := 0 } 1080 1920
        { videoMode := { mWidth := 640, mHeight := 480 }, primitives := 0 }).2
      = [Event.cameraGetCurrentVideoMode, Event.setVideoBackgroundConfig 1440 1920,
          Event.getRenderingPrimitives]
    ∧ videoBackgroundSize roundFloat32 true { mWidth := 640, mHeight := 480 } 1080 1920
      ≠ (1080, 810) := by
  constructor
  · simp [configureVideoBackground, updateRenderingPrimitives, isScreenPortrait,
      isPortraitOrientation, Session.fresh,
      videoBackgroundSize_portrait_1080x1920_640x480]
  · rw [videoBackgroundSize_portrait_1080x1920_640x480]; decide

/-- C1, amended: for a portrait view of 1080x1920 pixels and a camera video mode of
640x480, `configureVideoBackground` computes the video-background size (1440, 1920): the
height is fitted to the view and the width is 480*(1920/640). -/
theorem C1_portrait_fit (s : Session) (o : RenderOutcome)
    (hp : isScreenPortrait s = true) (hv : o.videoMode = { mWidth := 640, mHeight := 480 }) :
    (configureVideoBackground roundFloat32 s 1080 1920 o).2
      = [Event.cameraGetCurrentVideoMode, Event.setVideoBackgroundConfig 1440 1920,
          Event.getRenderingPrimitives]
    ∧ (1440 : Int) = truncToInt (480 * (1920 / 640))
    ∧ (1920 : Int) = truncToInt 1920 := by
  refine ⟨?_, ?_, ?_⟩
  · simp [configureVideoBackground, updateRenderingPrimitives, hp, hv,
      videoBackgroundSize_portrait_1080x1920_640x480]
  · norm_num [truncToInt]
  · norm_num [truncToInt]

/-- The amended C1 at a session in orientation 1 (portrait, upside down). -/
theorem C1_portrait_fit_witness :
    (configureVideoBackground roundFloat32 { Session.fresh with mOrientation := 1 } 1080 1920
        { videoMode := { mWidth := 640, mHeight := 480 }, primitives := 7 }).2
      = [Event.cameraGetCurrentVideoMode, Event.setVideoBackgroundConfig 1440 1920,
          Event.getRenderingPrimitives]
    ∧ (1440 : Int) = truncToInt (480 * (1920 / 640))
    ∧ (1920 : Int) = truncToInt 1920 :=
  C1_portrait_fit { Session.fresh with mOrientation := 1 }
    { videoMode := { mWidth := 640, mHeight := 480 }, primitives := 7 } (by decide) rfl

/-! ## Video-background fit: branches and coverage -/

/-- The extent over exact arithmetic for positive dimensions: both dimensions cover the
view, one of them is the view's, and the ratio is the camera's aspect ratio (landscape)
or its reciprocal (portrait). -/
theorem videoBackgroundExtent_covers (portrait : Bool) (videoMode : VideoMode)
    (viewWidth viewHeight : ℚ) (hw : 0 < viewWidth) (hh : 0 < viewHeight)
    (hcw : 0 < videoMode.mWidth) (hch : 0 < videoMode.mHeight) :
    viewWidth ≤ (videoBackgroundExtent id portrait videoMode viewWidth viewHeight).1 ∧
    viewHeight ≤ (videoBackgroundExtent id portrait videoMode viewWidth viewHeight).2 ∧
    ((videoBackgroundExtent id portrait videoMode viewWidth viewHeight).1 = viewWidth ∨
      (videoBackgroundExtent id portrait videoMode viewWidth viewHeight).2 = viewHeight) ∧
    (videoBackgroundExtent id portrait videoMode viewWidth viewHeight).1 /
      (videoBackgroundExtent id portrait videoMode viewWidth viewHeight).2 =
      (if portrait then (videoMode.mHeight : ℚ) / (videoMode.mWidth : ℚ)
       else (videoMode.mWidth : ℚ) / (videoMode.mHeight : ℚ)) := by
  have hcw1 : (0 : ℚ) < (videoMode.mWidth : ℚ) := by exact_mod_cast hcw
  have hch1 : (0 : ℚ) < (videoMode.mHeight : ℚ) := by exact_mod_cast hch
  unfold videoBackgroundExtent
  simp only [id]
  cases portrait
  · simp only [Bool.false_eq_true, if_false]
    split
    · rename_i h
      rw [div_lt_div_iff₀ hch1 hh] at h
      refine ⟨le_refl _, ?_, Or.inl rfl, ?_⟩
      · rw [← mul_div_assoc, le_div_iff₀ hcw1]
        nlinarith
      · field_simp; ring
    · rename_i h
      rw [not_lt, div_le_div_iff₀ hh hch1] at h
      refine ⟨?_, le_refl _, Or.inr rfl, ?_⟩
      · rw [← mul_div_assoc, le_div_iff₀ hch1]
        nlinarith
      · field_simp; ring
  · simp only [if_true]
    split
    · rename_i h
      rw [div_lt_div_iff₀ hch1 hw] at h
      refine ⟨?_, le_refl _, Or.inr rfl, ?_⟩
      · rw [← mul_div_assoc, le_div_iff₀ hcw1]
        nlinarith
      · field_simp; ring
    · rename_i h
      rw [not_lt, div_le_div_iff₀ hw hch1] at h
      refine ⟨le_refl _, ?_, Or.inl rfl, ?_⟩
      · rw [← mul_div_assoc, le_div_iff₀ hch1]
        nlinarith
      · field_simp; ring

/-- C13: for both orientations and all positive view and camera dimensions, over exact
rational arithmetic with truncation to integer at the end, the video-background size
produced by `configureVideoBackground` is never smaller than the view in either
dimension and equals the view in at least one dimension (no letterboxing), and before
truncation its width:height ratio equals the camera's aspect ratio in landscape and the
reciprocal of it in portrait. -/
theorem C13_video_background_covers_view (s : Session) (o : RenderOutcome)
    (width height : Int) (hw : 0 < width) (hh : 0 < height)
    (hcw : 0 < o.videoMode.mWidth) (hch : 0 < o.videoMode.mHeight) :
    ∃ (outWidth outHeight : Int),
      (configureVideoBackground id s (width : ℚ) (height : ℚ) o).2 =
        [Event.cameraGetCurrentVideoMode, Event.setVideoBackgroundConfig outWidth outHeight,
         Event.getRenderingPrimitives] ∧
      outWidth = truncToInt
        (videoBackgroundExtent id (isScreenPortrait s) o.videoMode (width : ℚ) (height : ℚ)).1 ∧
      outHeight = truncToInt
        (videoBackgroundExtent id (isScreenPortrait s) o.videoMode (width : ℚ) (height : ℚ)).2 ∧
      width ≤ outWidth ∧ height ≤ outHeight ∧
      (outWidth = width ∨ outHeight = height) ∧
      (videoBackgroundExtent id (isScreenPortrait s) o.videoMode (width : ℚ) (height : ℚ)).1 /
        (videoBackgroundExtent id (isScreenPortrait s) o.videoMode (width : ℚ) (height : ℚ)).2 =
        (if isScreenPortrait s then
          ((o.videoMode.mWidth : ℚ) / (o.videoMode.mHeight : ℚ))⁻¹
         else (o.videoMode.mWidth : ℚ) / (o.videoMode.mHeight : ℚ)) := by
  have hw1 : (0 : ℚ) < (width : ℚ) := by exact_mod_cast hw
  have hh1 : (0 : ℚ) < (height : ℚ) := by exact_mod_cast hh
  obtain ⟨h1, h2, h3, h4⟩ :=
    videoBackgroundExtent_covers (isScreenPortrait s) o.videoMode (width : ℚ) (height : ℚ)
      hw1 hh1 hcw hch
  refine ⟨_, _, ?_, rfl, rfl, ?_, ?_, ?_, ?_⟩
  · rw [configureVideoBackground_calls]; rfl
  · rw [truncToInt_of_nonneg _ (le_trans (le_of_lt hw1) h1)]
    exact Int.le_floor.mpr h1
  · rw [truncToInt_of_nonneg _ (le_trans (le_of_lt hh1) h2)]
    exact Int.le_floor.mpr h2
  · rcases h3 with h | h
    · left; rw [h, truncToInt_intCast]
    · right; rw [h, truncToInt_intCast]
  · rw [h4]
    split
    · rw [inv_div]
    · rfl

/-- C13 on a portrait view of 1080x1920 with a 640x480 camera. -/
theorem C13_video_background_covers_view_witness :
    ∃ (outWidth outHeight : Int),
      (configureVideoBackground id { Session.fresh with mOrientation := 0 } ((1080 : Int) : ℚ)
          ((1920 : Int) : ℚ)
          { videoMode := { mWidth := 640, mHeight := 480 }, primitives := 0 }).2 =
        [Event.cameraGetCurrentVideoMode, Event.setVideoBackgroundConfig outWidth outHeight,
         Event.getRenderingPrimitives] ∧
      outWidth = truncToInt
        (videoBackgroundExtent id (isScreenPortrait { Session.fresh with mOrientation := 0 })
          { mWidth := 640, mHeight := 480 } ((1080 : Int) : ℚ) ((1920 : Int) : ℚ)).1 ∧
      outHeight = truncToInt
        (videoBackgroundExtent id (isScreenPortrait { Session.fresh with mOrientation := 0 })
          { mWidth := 640, mHeight := 480 } ((1080 : Int) : ℚ) ((1920 : Int) : ℚ)).2 ∧
      1080 ≤ outWidth ∧ 1920 ≤ outHeight ∧
      (outWidth = 1080 ∨ outHeight = 1920) ∧
      (videoBackgroundExtent id (isScreenPortrait { Session.fresh with mOrientation := 0 })
          { mWidth := 640, mHeight := 480 } ((1080 : Int) : ℚ) ((1920 : Int) : ℚ)).1 /
        (videoBackgroundExtent id (isScreenPortrait { Session.fresh with mOrientation := 0 })
          { mWidth := 640, mHeight := 480 } ((1080 : Int) : ℚ) ((1920 : Int) : ℚ)).2 =
        (if isScreenPortrait { Session.fresh with mOrientation := 0 } then
          (((640 : Int) : ℚ) / ((480 : Int) : ℚ))⁻¹
         else ((640 : Int) : ℚ) / ((480 : Int) : ℚ)) :=
  C13_video_background_covers_view { Session.fresh with mOrientation := 0 }
    { videoMode := { mWidth := 640, mHeight := 480 }, primitives := 0 } 1080 1920
    (by decide) (by decide) (by decide) (by decide)

/-! ## Model-target selection -/

/-- The transforms of a result do not depend on the guide-view candidate. -/
theorem modelTargetTransforms_withGuide {M : Type} (ops : MathOps M) (s : Session)
    (g : Option ModelTarget) (r : TrackableResult) (t : ModelTarget) :
    modelTargetTransforms ops (s.withGuide g) r t = modelTargetTransforms ops s r t := rfl

/-- Assigning the guide-view candidate twice keeps the last assignment. -/
theorem withGuide_withGuide (s : Session) (g g1 : Option ModelTarget) :
    (s.withGuide g).withGuide g1 = s.withGuide g1 := rfl

/-- Assigning the guide-view candidate leaves the selected target type alone. -/
theorem withGuide_mTarget (s : Session) (g : Option ModelTarget) :
    (s.withGuide g).mTarget = s.mTarget := rfl

/-- With the model target type selected, the scan stops at the first model-target result
that has a pose: it clears the guide-view candidate and computes the transforms from
that result. -/
theorem getModelTargetResultLoop_posed {M : Type} (ops : MathOps M) :
    ∀ (results : List TrackableResult) (s : Session) (out : TargetMatrices M)
      (r : TrackableResult),
      s.mTarget = MODEL_TARGET_ID → results.find? isPosedModelResult = some r →
      ∃ t, r.trackable = Trackable.modelTarget t ∧
        getModelTargetResultLoop ops results s out =
          match modelTargetTransforms ops s r t with
          | .error f => .error f
          | .ok m => .ok (true, s.withGuide none, m) := by
  intro results
  induction results with
  | nil => intro s out r _ h; simp at h
  | cons a rest ih =>
    intro s out r hs h
    rw [List.find?_cons] at h
    cases hp : isPosedModelResult a with
    | true =>
      rw [hp] at h
      simp only [Option.some.injEq] at h
      subst h
      unfold isPosedModelResult at hp
      cases ht : a.trackable with
      | modelTarget t =>
        rw [ht] at hp
        simp only [decide_eq_true_eq] at hp
        refine ⟨t, rfl, ?_⟩
        rw [getModelTargetResultLoop]
        simp only [ht]
        rw [if_pos hs, if_neg hp, modelTargetTransforms_withGuide]
      | imageTarget t => rw [ht] at hp; simp at hp
      | other => rw [ht] at hp; simp at hp
    | false =>
      rw [hp] at h
      simp only at h
      unfold isPosedModelResult at hp
      cases ht : a.trackable with
      | modelTarget t =>
        rw [ht] at hp
        simp only [decide_eq_false_iff_not, not_not] at hp
        rw [getModelTargetResultLoop]
        simp only [ht]
        rw [if_pos hs, if_pos hp]
        by_cases hi : a.statusInfo = StatusInfo.NO_DETECTION_RECOMMENDING_GUIDANCE
        · rw [if_pos hi]
          obtain ⟨t1, ht1, hl⟩ := ih (s.withGuide (some t)) out r hs h
          exact ⟨t1, ht1, hl⟩
        · rw [if_neg hi]
          exact ih s out r hs h
      | imageTarget t =>
        rw [getModelTargetResultLoop]
        simp only [ht]
        exact ih s out r hs h
      | other =>
        rw [getModelTargetResultLoop]
        simp only [ht]
        exact ih s out r hs h

/-- What `prepareToRender` leaves in the session: the new snapshot, a non-null primitive
set, and the selected target type and guide-view candidate as they were. -/
theorem prepareToRender_fields (s : Session) (snapshot : State) (primitives : RenderingPrimitives)
    (viewportInfo : RenderingPrimitives → Int × Int × Int × Int) (tex upd : Bool) :
    let s1 := (prepareToRender s snapshot primitives viewportInfo tex upd).2.1
    s1.mVuforiaState = snapshot ∧ s1.mTarget = s.mTarget ∧
      s1.mCurrentRenderingPrimitives ≠ none ∧
      s1.mGuideViewModelTarget = s.mGuideViewModelTarget := by
  unfold prepareToRender updateRenderingPrimitives
  cases h : s.mCurrentRenderingPrimitives <;> simp [h]

/-- With a device/origin result and a primitive set, the transforms are computed. -/
theorem modelTargetTransforms_ok {M : Type} (ops : MathOps M) (s : Session)
    (r : TrackableResult) (t : ModelTarget) (device : DeviceTrackableResult)
    (hd : s.mVuforiaState.deviceTrackableResult = some device)
    (hp : s.mCurrentRenderingPrimitives ≠ none) :
    ∃ m, modelTargetTransforms ops s r t = .ok m := by
  unfold modelTargetTransforms
  cases h : s.mCurrentRenderingPrimitives with
  | none => exact absurd h hp
  | some p => simp [hd]

/-- C2, amended: with the model target type selected, in a frame begun by
`prepareToRender` on a snapshot that has a device/origin result and whose result list
holds a model-target result with status NO_POSE and detail "no detection, recommending
guidance" followed later by a model-target result whose status is not NO_POSE,
`getModelTargetResult` returns true with transforms computed from the first model-target
result of the list whose status is not NO_POSE (the later result itself when no
model-target result before it has a pose), the guide-view candidate is null afterwards,
and a `getModelTargetGuideView` call in the same frame returns false. -/
theorem C2_first_posed_result_wins {M : Type} (ops : MathOps M) (s0 : Session)
    (snapshot : State) (primitives : RenderingPrimitives)
    (viewportInfo : RenderingPrimitives → Int × Int × Int × Int)
    (videoBackgroundTexture textureUpdated : Bool) (out : TargetMatrices M)
    (projectionMatrix modelViewMatrix : M) (guideViewImage : Option Image)
    (pre mid post : List TrackableResult) (r1 r2 : TrackableResult)
    (device : DeviceTrackableResult)
    (hTarget : s0.mTarget = MODEL_TARGET_ID)
    (hDevice : snapshot.deviceTrackableResult = some device)
    (hList : snapshot.trackableResults = pre ++ r1 :: (mid ++ r2 :: post))
    (_h1 : isGuidanceModelResult r1 = true) (h2 : isPosedModelResult r2 = true) :
    ∃ (r : TrackableResult) (t : ModelTarget) (m : TargetMatrices M) (s1 : Session),
      snapshot.trackableResults.find? isPosedModelResult = some r ∧
      r.trackable = Trackable.modelTarget t ∧
      modelTargetTransforms ops
        (prepareToRender s0 snapshot primitives viewportInfo videoBackgroundTexture
          textureUpdated).2.1 r t = .ok m ∧
      getModelTargetResult ops
        (prepareToRender s0 snapshot primitives viewportInfo videoBackgroundTexture
          textureUpdated).2.1 out = .ok (true, s1, m) ∧
      s1.mGuideViewModelTarget = none ∧
      (getModelTargetGuideView ops s1 projectionMatrix modelViewMatrix guideViewImage).1
        = false ∧
      ((∀ x ∈ pre ++ r1 :: mid, isPosedModelResult x = false) → r = r2) := by
  obtain ⟨hState, hT, hPrim, _⟩ :=
    prepareToRender_fields s0 snapshot primitives viewportInfo videoBackgroundTexture
      textureUpdated
  generalize (prepareToRender s0 snapshot primitives viewportInfo videoBackgroundTexture
      textureUpdated).2.1 = s at hState hT hPrim
  have hmem : r2 ∈ snapshot.trackableResults := by rw [hList]; simp
  have hsome : (snapshot.trackableResults.find? isPosedModelResult).isSome = true := by
    rw [List.find?_isSome]; exact ⟨r2, hmem, h2⟩
  obtain ⟨r, hr⟩ := Option.isSome_iff_exists.mp hsome
  obtain ⟨t, ht, hloop⟩ :=
    getModelTargetResultLoop_posed ops snapshot.trackableResults s out r (hT.trans hTarget) hr
  obtain ⟨m, hm⟩ := modelTargetTransforms_ok ops s r t device (by rw [hState]; exact hDevice) hPrim
  refine ⟨r, t, m, s.withGuide none, hr, ht, hm, ?_, rfl, ?_, ?_⟩
  · unfold getModelTargetResult
    rw [hState, hloop, hm]
  · simp [getModelTargetGuideView, Session.withGuide]
  · intro hno
    have hfind : (pre ++ r1 :: (mid ++ r2 :: post)).find? isPosedModelResult = some r2 := by
      have : pre ++ r1 :: (mid ++ r2 :: post) = (pre ++ r1 :: mid) ++ r2 :: post := by simp
      rw [this, List.find?_append]
      have hnone : (pre ++ r1 :: mid).find? isPosedModelResult = none := by
        rw [List.find?_eq_none]; intro x hx; simp [hno x hx]
      rw [hnone]; simp [List.find?_cons, h2]
    rw [hList, hfind] at hr
    exact (Option.some.inj hr).symm

/-- C2, as stated, fails. On a snapshot that holds a tracked model target before the
pair of the claim, the transforms are computed from that first result and differ from
those of the later one; and on a snapshot without device/origin result the call
dereferences a null pointer instead of returning true. -/
theorem C2_counterexample :
    (∃ (m0 m2 : TargetMatrices MatExpr) (s1 : Session),
      getModelTargetResult symbolicOps (modelFrame posedFirstSnapshot) identityMatrices
        = .ok (true, s1, m0) ∧
      modelTargetTransforms symbolicOps (modelFrame posedFirstSnapshot)
        (trackedModelResult 0 1) (cubeTarget 0 1) = .ok m0 ∧
      modelTargetTransforms symbolicOps (modelFrame posedFirstSnapshot)
        (trackedModelResult 2 3) (cubeTarget 2 3) = .ok m2 ∧
      m0.scaledModelViewMatrix ≠ m2.scaledModelViewMatrix) ∧
    getModelTargetResult symbolicOps (modelFrame noDeviceSnapshot) identityMatrices
      = .error Fault.nullDereference := by
  constructor
  · refine ⟨_, _, _, rfl, rfl, rfl, ?_⟩
    simp [symbolicOps, cubeTarget]
  · rfl

/-- The amended C2 on the snapshot "guidance, then tracked" of a fresh model-target
session. -/
theorem C2_first_posed_result_wins_witness :
    ∃ (r : TrackableResult) (t : ModelTarget) (m : TargetMatrices MatExpr) (s1 : Session),
      guidanceThenPosedSnapshot.trackableResults.find? isPosedModelResult = some r ∧
      r.trackable = Trackable.modelTarget t ∧
      modelTargetTransforms symbolicOps
        (prepareToRender { Session.fresh with mTarget := MODEL_TARGET_ID }
          guidanceThenPosedSnapshot 0 (fun _ => (0, 0, 0, 0)) false true).2.1 r t = .ok m ∧
      getModelTargetResult symbolicOps
        (prepareToRender { Session.fresh with mTarget := MODEL_TARGET_ID }
          guidanceThenPosedSnapshot 0 (fun _ => (0, 0, 0, 0)) false true).2.1
          identityMatrices = .ok (true, s1, m) ∧
      s1.mGuideViewModelTarget = none ∧
      (getModelTargetGuideView symbolicOps s1 MatExpr.identity MatExpr.identity none).1
        = false ∧
      ((∀ x ∈ [] ++ guidanceModelResult 1 2 :: [], isPosedModelResult x = false) →
        r = trackedModelResult 2 3) :=
  C2_first_posed_result_wins symbolicOps { Session.fresh with mTarget := MODEL_TARGET_ID }
    guidanceThenPosedSnapshot 0 (fun _ => (0, 0, 0, 0)) false true identityMatrices
    MatExpr.identity MatExpr.identity none [] [] [] (guidanceModelResult 1 2)
    (trackedModelResult 2 3) trackedDevice rfl rfl rfl rfl rfl


/-! ## Stages of `initAR` -/

/-- A terminal progress value is one outside 0..99. -/
theorem isTerminalProgress_iff (v : Int) :
    isTerminalProgress v = true ↔ ¬ (0 ≤ v ∧ v < 100) := by
  unfold isTerminalProgress
  by_cases h1 : 0 ≤ v <;> by_cases h2 : v < 100 <;> simp [h1, h2]

/-- Started from a value in 0..99 and fed values in 0..99 followed by a terminal value,
the polling loop makes one call per value up to and including the terminal one. -/
theorem initPoll_front (t : Int) (post : List Int) (ht : ¬ (0 ≤ t ∧ t < 100)) :
    ∀ (before : List Int) (progress : Int),
      (0 ≤ progress ∧ progress < 100) → (∀ v ∈ before, 0 ≤ v ∧ v < 100) →
      initPoll progress (before ++ t :: post) =
        some (t, List.replicate (before.length + 1) Event.vuforiaInit) := by
  intro before
  induction before with
  | nil =>
    intro p hp _
    rw [List.nil_append, initPoll, if_pos hp]
    have h : initPoll t post = some (t, []) := by
      cases post with
      | nil => rw [initPoll, if_neg ht]
      | cons w ws => rw [initPoll, if_neg ht]
    rw [h]; rfl
  | cons v vs ih =>
    intro p hp hall
    rw [List.cons_append, initPoll, if_pos hp,
      ih v (hall v (List.mem_cons_self _ _)) (fun w hw => hall w (List.mem_cons_of_mem _ hw))]
    rfl

/-- Fed only values in 0..99, the polling loop asks for more after each of them. -/
theorem initPoll_no_terminal :
    ∀ (vals : List Int) (progress : Int),
      (0 ≤ progress ∧ progress < 100) → (∀ v ∈ vals, 0 ≤ v ∧ v < 100) →
      initPoll progress vals = none := by
  intro vals
  induction vals with
  | nil => intro p hp _; rw [initPoll, if_pos hp]
  | cons v vs ih =>
    intro p hp hall
    rw [initPoll, if_pos hp,
      ih v (hall v (List.mem_cons_self _ _)) (fun w hw => hall w (List.mem_cons_of_mem _ hw))]
    rfl

/-- A list that holds a terminal value splits at its first terminal value. -/
theorem exists_first_terminal :
    ∀ (vals : List Int), (∃ v ∈ vals, isTerminalProgress v = true) →
      ∃ (before after : List Int) (terminal : Int),
        vals = before ++ terminal :: after ∧ (∀ v ∈ before, 0 ≤ v ∧ v < 100) ∧
        isTerminalProgress terminal = true := by
  intro vals
  induction vals with
  | nil => intro h; simp at h
  | cons a rest ih =>
    intro h
    by_cases ha : isTerminalProgress a = true
    · exact ⟨[], rest, a, rfl, by simp, ha⟩
    · obtain ⟨v, hv, hvt⟩ := h
      rcases List.mem_cons.mp hv with rfl | hv1
      · exact absurd hvt ha
      · obtain ⟨before, after, t, hsplit, hb, ht⟩ := ih ⟨v, hv1, hvt⟩
        refine ⟨a :: before, after, t, by rw [hsplit]; rfl, ?_, ht⟩
        intro w hw
        rcases List.mem_cons.mp hw with rfl | hw1
        · by_contra hc
          exact ha ((isTerminalProgress_iff w).mpr hc)
        · exact hb w hw1

/-- The polling loop only calls `Vuforia::init()`. -/
theorem initPoll_calls :
    ∀ (vals : List Int) (progress code : Int) (calls : List Event),
      initPoll progress vals = some (code, calls) → ∀ e ∈ calls, e = Event.vuforiaInit := by
  intro vals
  induction vals with
  | nil =>
    intro p c calls h
    rw [initPoll] at h
    by_cases hp : 0 ≤ p ∧ p < 100
    · rw [if_pos hp] at h; exact absurd h (by simp)
    · rw [if_neg hp] at h
      simp only [Option.some.injEq, Prod.mk.injEq] at h
      obtain ⟨_, rfl⟩ := h
      simp
  | cons v vs ih =>
    intro p c calls h
    rw [initPoll] at h
    by_cases hp : 0 ≤ p ∧ p < 100
    · rw [if_pos hp] at h
      cases hr : initPoll v vs with
      | none => rw [hr] at h; exact absurd h (by simp)
      | some r =>
        rw [hr] at h
        simp only [Option.map_some', Option.some.injEq, Prod.mk.injEq] at h
        obtain ⟨_, rfl⟩ := h
        intro e he
        rcases List.mem_cons.mp he with rfl | he1
        · rfl
        · exact ih v r.1 r.2 hr e he1
    · rw [if_neg hp] at h
      simp only [Option.some.injEq, Prod.mk.injEq] at h
      obtain ⟨_, rfl⟩ := h
      simp

/-- The engine stage on progress values that reach a terminal value: it makes one
`Vuforia::init()` call per value up to the first terminal one, and succeeds when that
value is 100; otherwise it invokes the error callback with the message of the value. -/
theorem initVuforiaInternal_front (env : Env) (s : Session) (appData : Nat)
    (before after : List Int) (terminal : Int)
    (hBefore : ∀ v ∈ before, 0 ≤ v ∧ v < 100)
    (hTerminal : isTerminalProgress terminal = true) :
    initVuforiaInternal env s appData (before ++ terminal :: after) =
      some (if terminal = 100 then
          (.ok true, setInitParametersEvent env.platform s appData ::
            List.replicate (before.length + 1) Event.vuforiaInit)
        else
          (invokeThenReturn s.mShowErrorCallback false,
            setInitParametersEvent env.platform s appData ::
              List.replicate (before.length + 1) Event.vuforiaInit ++
            [Event.showError s.mShowErrorCallback (initErrorMessage env.codes terminal)])) := by
  have ht : ¬ (0 ≤ terminal ∧ terminal < 100) := (isTerminalProgress_iff terminal).mp hTerminal
  unfold initVuforiaInternal
  rw [initPoll_front terminal after ht before 0 (by decide) hBefore]
  dsimp only
  split <;> rfl

/-- The dataset calls when every one of them succeeds. -/
theorem loadAndActivateDataSet_ok (path : String) (o : LoadOutcome) (dataSet : DataSet)
    (h1 : o.objectTracker = true) (h2 : o.createDataSet = some dataSet) (h3 : o.load = true)
    (h4 : o.activate = true) :
    loadAndActivateDataSet path o =
      (some dataSet, [Event.log ("Loading data set from " ++ path),
        Event.getTracker TrackerType.object, Event.createDataSet,
        Event.dataSetLoad dataSet path, Event.activateDataSet dataSet]) := by
  unfold loadAndActivateDataSet
  simp [h1, h2, h3, h4]

/-- The dataset calls when one of them fails: no dataset is handed out, and the calls
stop at the failing one (a dataset that was created is destroyed again). -/
theorem loadAndActivateDataSet_fails (path : String) (o : LoadOutcome) :
    (o.objectTracker = false →
      loadAndActivateDataSet path o =
        (none, [Event.log ("Loading data set from " ++ path),
          Event.getTracker TrackerType.object,
          Event.log "Error: Failed to get the ObjectTracker from the TrackerManager"])) ∧
    (o.objectTracker = true → o.createDataSet = none →
      loadAndActivateDataSet path o =
        (none, [Event.log ("Loading data set from " ++ path),
          Event.getTracker TrackerType.object, Event.createDataSet,
          Event.log "Error: Failed to create data set"])) ∧
    (∀ dataSet, o.objectTracker = true → o.createDataSet = some dataSet → o.load = false →
      loadAndActivateDataSet path o =
        (none, [Event.log ("Loading data set from " ++ path),
          Event.getTracker TrackerType.object, Event.createDataSet,
          Event.dataSetLoad dataSet path, Event.log "Error: Failed to load data set",
          Event.destroyDataSet (some dataSet)])) ∧
    (∀ dataSet, o.objectTracker = true → o.createDataSet = some dataSet → o.load = true →
      o.activate = false →
      loadAndActivateDataSet path o =
        (none, [Event.log ("Loading data set from " ++ path),
          Event.getTracker TrackerType.object, Event.createDataSet,
          Event.dataSetLoad dataSet path, Event.activateDataSet dataSet,
          Event.log "Error: Failed to activate data set",
          Event.destroyDataSet (some dataSet)])) := by
  unfold loadAndActivateDataSet
  refine ⟨?_, ?_, ?_, ?_⟩
  · intro h1; simp [h1]
  · intro h1 h2; simp [h1, h2]
  · intro d h1 h2 h3; simp [h1, h2, h3]
  · intro d h1 h2 h3 h4; simp [h1, h2, h3, h4]

/-- A dataset is handed out exactly when every one of the dataset calls succeeds, and it
is the one that was created. -/
theorem loadAndActivateDataSet_some_iff (path : String) (o : LoadOutcome) (dataSet : DataSet) :
    (loadAndActivateDataSet path o).1 = some dataSet ↔
      (o.objectTracker = true ∧ o.createDataSet = some dataSet ∧ o.load = true ∧
        o.activate = true) := by
  unfold loadAndActivateDataSet
  cases h1 : o.objectTracker <;> cases h2 : o.createDataSet <;> cases h3 : o.load <;>
    cases h4 : o.activate <;> simp

/-- The dataset calls invoke no callback, poll no engine initialisation and create no
tracker; they start with the log line that names the dataset and the request for the
object tracker. -/
theorem loadAndActivateDataSet_calls (path : String) (o : LoadOutcome) :
    (∀ e ∈ (loadAndActivateDataSet path o).2,
      e.isCallback = false ∧ e ≠ Event.vuforiaInit ∧ ∀ t, e ≠ Event.initTracker t) ∧
    (∃ rest, (loadAndActivateDataSet path o).2 =
      Event.log ("Loading data set from " ++ path) :: Event.getTracker TrackerType.object ::
        rest) ∧
    (∀ d p, Event.dataSetLoad d p ∈ (loadAndActivateDataSet path o).2 → p = path) := by
  unfold loadAndActivateDataSet
  cases h1 : o.objectTracker <;> cases h2 : o.createDataSet <;> cases h3 : o.load <;>
    cases h4 : o.activate <;> simp [Event.isCallback, Event.isShowError, Event.isInitDone]

/-! ## `initAR` -/

/-- The outcome of `initAR` when the engine stage fails: the first terminal progress
value is not 100. -/
theorem initAR_engine_fails (env : Env) (s : Session) (initConfig : InitConfig) (target : Int)
    (o : InitOutcome) (before after : List Int) (terminal : Int)
    (hProgress : o.progress = before ++ terminal :: after)
    (hBefore : ∀ v ∈ before, 0 ≤ v ∧ v < 100)
    (hTerminal : isTerminalProgress terminal = true) (hne : terminal ≠ 100) :
    initAR env s initConfig target o =
      some (invokeThenReturn initConfig.showErrorCallback (),
        initARReset s initConfig target,
        setInitParametersEvent env.platform (initARReset s initConfig target)
            initConfig.appData ::
          List.replicate (before.length + 1) Event.vuforiaInit ++
        [Event.showError initConfig.showErrorCallback
          (initErrorMessage env.codes terminal)]) := by
  unfold initAR
  simp only [hProgress, initVuforiaInternal_front env _ _ before after terminal hBefore
    hTerminal, if_neg hne]
  cases hcb : initConfig.showErrorCallback <;> simp [invokeThenReturn, initARReset, hcb]

/-- The outcome of `initAR` when the engine stage succeeds and the device tracker cannot
be created. -/
theorem initAR_device_fails (env : Env) (s : Session) (initConfig : InitConfig) (target : Int)
    (o : InitOutcome) (before after : List Int) (terminal : Int)
    (hProgress : o.progress = before ++ terminal :: after)
    (hBefore : ∀ v ∈ before, 0 ≤ v ∧ v < 100)
    (hTerminal : isTerminalProgress terminal = true) (h100 : terminal = 100)
    (hDevice : o.deviceTracker = false) :
    initAR env s initConfig target o =
      some (invokeThenReturn initConfig.showErrorCallback (),
        initARReset s initConfig target,
        setInitParametersEvent env.platform (initARReset s initConfig target)
            initConfig.appData ::
          List.replicate (before.length + 1) Event.vuforiaInit ++
        [Event.initTracker TrackerType.positionalDevice,
         Event.log "Error: Failed to initialise the Device tracker (it may have been initialised already)",
         Event.showError initConfig.showErrorCallback
           "Error initializing the device tracker"]) := by
  unfold initAR
  simp only [hProgress, initVuforiaInternal_front env _ _ before after terminal hBefore
    hTerminal, if_pos h100]
  cases hcb : initConfig.showErrorCallback <;>
    simp [invokeThenReturn, initARReset, initTrackers, hDevice, hcb]

/-- The outcome of `initAR` when the engine stage succeeds, the device tracker is created
and the object tracker cannot be created. -/
theorem initAR_object_fails (env : Env) (s : Session) (initConfig : InitConfig) (target : Int)
    (o : InitOutcome) (before after : List Int) (terminal : Int)
    (hProgress : o.progress = before ++ terminal :: after)
    (hBefore : ∀ v ∈ before, 0 ≤ v ∧ v < 100)
    (hTerminal : isTerminalProgress terminal = true) (h100 : terminal = 100)
    (hDevice : o.deviceTracker = true) (hObject : o.objectTracker = false) :
    initAR env s initConfig target o =
      some (invokeThenReturn initConfig.showErrorCallback (),
        initARReset s initConfig target,
        setInitParametersEvent env.platform (initARReset s initConfig target)
            initConfig.appData ::
          List.replicate (before.length + 1) Event.vuforiaInit ++
        [Event.initTracker TrackerType.positionalDevice,
         Event.initTracker TrackerType.object,
         Event.log "Error: Failed to initialize ObjectTracker.",
         Event.showError initConfig.showErrorCallback
           "Error initializing the object tracker"]) := by
  unfold initAR
  simp only [hProgress, initVuforiaInternal_front env _ _ before after terminal hBefore
    hTerminal, if_pos h100]
  cases hcb : initConfig.showErrorCallback <;>
    simp [invokeThenReturn, initARReset, initTrackers, hDevice, hObject, hcb]

/-- The outcome of `initAR` when the engine and tracker stages succeed while a dataset is
already recorded. -/
theorem initAR_dataset_recorded (env : Env) (s : Session) (initConfig : InitConfig)
    (target : Int) (o : InitOutcome) (before after : List Int) (terminal : Int)
    (hProgress : o.progress = before ++ terminal :: after)
    (hBefore : ∀ v ∈ before, 0 ≤ v ∧ v < 100)
    (hTerminal : isTerminalProgress terminal = true) (h100 : terminal = 100)
    (hDevice : o.deviceTracker = true) (hObject : o.objectTracker = true)
    (hLoaded : s.mCurrentDataSet ≠ none) :
    initAR env s initConfig target o =
      some (invokeThenReturn initConfig.showErrorCallback (),
        initARReset s initConfig target,
        setInitParametersEvent env.platform (initARReset s initConfig target)
            initConfig.appData ::
          List.replicate (before.length + 1) Event.vuforiaInit ++
        [Event.initTracker TrackerType.positionalDevice,
         Event.initTracker TrackerType.object,
         Event.showError initConfig.showErrorCallback
           "Attempt to load a dataset when one is already loaded"]) := by
  unfold initAR
  simp only [hProgress, initVuforiaInternal_front env _ _ before after terminal hBefore
    hTerminal, if_pos h100]
  cases hcb : initConfig.showErrorCallback <;>
    simp [invokeThenReturn, initARReset, initTrackers, loadTrackerData, hDevice, hObject, hcb,
      hLoaded]

/-- The outcome of `initAR` when the engine and tracker stages succeed, no dataset is
recorded and one of the dataset calls fails. -/
theorem initAR_load_fails (env : Env) (s : Session) (initConfig : InitConfig)
    (target : Int) (o : InitOutcome) (before after : List Int) (terminal : Int)
    (hProgress : o.progress = before ++ terminal :: after)
    (hBefore : ∀ v ∈ before, 0 ≤ v ∧ v < 100)
    (hTerminal : isTerminalProgress terminal = true) (h100 : terminal = 100)
    (hDevice : o.deviceTracker = true) (hObject : o.objectTracker = true)
    (hNone : s.mCurrentDataSet = none)
    (hFail : (loadAndActivateDataSet
      (if target = IMAGE_TARGET_ID then "StonesAndChips.xml"
       else "VuforiaMars_ModelTarget.xml") o.load).1 = none) :
    initAR env s initConfig target o =
      some (invokeThenReturn initConfig.showErrorCallback (),
        initARReset s initConfig target,
        setInitParametersEvent env.platform (initARReset s initConfig target)
            initConfig.appData ::
          List.replicate (before.length + 1) Event.vuforiaInit ++
        [Event.initTracker TrackerType.positionalDevice,
         Event.initTracker TrackerType.object] ++
        (loadAndActivateDataSet
          (if target = IMAGE_TARGET_ID then "StonesAndChips.xml"
           else "VuforiaMars_ModelTarget.xml") o.load).2 ++
        [Event.showError initConfig.showErrorCallback
          (if target = IMAGE_TARGET_ID then "Error loading dataset for Image Target"
           else "Error loading dataset for Model Target")]) := by
  unfold initAR
  simp only [hProgress, initVuforiaInternal_front env _ _ before after terminal hBefore
    hTerminal, if_pos h100]
  by_cases ht : target = IMAGE_TARGET_ID
  · rw [if_pos ht] at hFail
    cases hcb : initConfig.showErrorCallback <;>
      simp [invokeThenReturn, initARReset, initTrackers, loadTrackerData, hDevice, hObject,
        hcb, hNone, ht, hFail]
  · rw [if_neg ht] at hFail
    cases hcb : initConfig.showErrorCallback <;>
      simp [invokeThenReturn, initARReset, initTrackers, loadTrackerData, hDevice, hObject,
        hcb, hNone, ht, hFail]

/-- The outcome of `initAR` when all three stages succeed: the dataset of the selected
target type is created, loaded and activated, and the completion callback is invoked. -/
theorem initAR_succeeds (env : Env) (s : Session) (initConfig : InitConfig)
    (target : Int) (o : InitOutcome) (before after : List Int) (terminal : Int)
    (dataSet : DataSet)
    (hProgress : o.progress = before ++ terminal :: after)
    (hBefore : ∀ v ∈ before, 0 ≤ v ∧ v < 100)
    (hTerminal : isTerminalProgress terminal = true) (h100 : terminal = 100)
    (hDevice : o.deviceTracker = true) (hObject : o.objectTracker = true)
    (hNone : s.mCurrentDataSet = none)
    (h1 : o.load.objectTracker = true) (h2 : o.load.createDataSet = some dataSet)
    (h3 : o.load.load = true) (h4 : o.load.activate = true) :
    initAR env s initConfig target o =
      some (invokeThenReturn initConfig.initDoneCallback (),
        { initARReset s initConfig target with mCurrentDataSet := some dataSet },
        setInitParametersEvent env.platform (initARReset s initConfig target)
            initConfig.appData ::
          List.replicate (before.length + 1) Event.vuforiaInit ++
        [Event.initTracker TrackerType.positionalDevice,
         Event.initTracker TrackerType.object,
         Event.log ("Loading data set from " ++
           (if target = IMAGE_TARGET_ID then "StonesAndChips.xml"
            else "VuforiaMars_ModelTarget.xml")),
         Event.getTracker TrackerType.object,
         Event.createDataSet,
         Event.dataSetLoad dataSet
           (if target = IMAGE_TARGET_ID then "StonesAndChips.xml"
            else "VuforiaMars_ModelTarget.xml"),
         Event.activateDataSet dataSet,
         Event.initDone initConfig.initDoneCallback]) := by
  unfold initAR
  simp only [hProgress, initVuforiaInternal_front env _ _ before after terminal hBefore
    hTerminal, if_pos h100]
  by_cases ht : target = IMAGE_TARGET_ID
  · simp [initARReset, initTrackers, loadTrackerData, hDevice, hObject, hNone, ht,
      loadAndActivateDataSet_ok _ o.load dataSet h1 h2 h3 h4]
  · simp [initARReset, initTrackers, loadTrackerData, hDevice, hObject, hNone, ht,
      loadAndActivateDataSet_ok _ o.load dataSet h1 h2 h3 h4]

/-- What the head of `initAR` leaves in the session. -/
theorem initARReset_fields (s : Session) (initConfig : InitConfig) (target : Int) :
    (initARReset s initConfig target).mCurrentDataSet = s.mCurrentDataSet ∧
    (initARReset s initConfig target).mShowErrorCallback = initConfig.showErrorCallback ∧
    (initARReset s initConfig target).mInitDoneCallback = initConfig.initDoneCallback :=
  ⟨rfl, rfl, rfl⟩

/-- `loadTrackerData` changes at most the recorded dataset, and sends no "surface
created" notification. -/
theorem loadTrackerData_session (s : Session) (o : LoadOutcome) :
    (loadTrackerData s o).2.1 =
      { s with mCurrentDataSet := (loadTrackerData s o).2.1.mCurrentDataSet } ∧
    Event.onSurfaceCreated ∉ (loadTrackerData s o).2.2 := by
  have hl : ∀ path, Event.onSurfaceCreated ∉ (loadAndActivateDataSet path o).2 := by
    intro path
    unfold loadAndActivateDataSet
    cases o.objectTracker <;> cases o.createDataSet <;> cases o.load <;>
      cases o.activate <;> simp
  unfold loadTrackerData
  split_ifs
  · simp
  · dsimp only
    split_ifs <;> simp [hl]
  · dsimp only
    split_ifs <;> simp [hl]

/-- With a dataset already recorded, `loadTrackerData` keeps the session and only invokes
the error callback: it returns false, or the invocation of an empty callback throws. -/
theorem loadTrackerData_loaded (s : Session) (o : LoadOutcome) (h : s.mCurrentDataSet ≠ none) :
    loadTrackerData s o = (invokeThenReturn s.mShowErrorCallback false, s,
      [Event.showError s.mShowErrorCallback
        "Attempt to load a dataset when one is already loaded"]) := by
  unfold loadTrackerData
  rw [if_pos h]

/-- Whenever it ends, `initAR` leaves the reset session, up to the recorded dataset, and
has sent no "surface created" notification. -/
theorem initAR_session (env : Env) (s s1 : Session) (initConfig : InitConfig) (target : Int)
    (o : InitOutcome) (completion : Except Fault Unit) (calls : List Event)
    (h : initAR env s initConfig target o = some (completion, s1, calls)) :
    (∃ dataSet, s1 = { initARReset s initConfig target with mCurrentDataSet := dataSet }) ∧
    Event.onSurfaceCreated ∉ calls := by
  have hself : initARReset s initConfig target =
      { initARReset s initConfig target with
        mCurrentDataSet := (initARReset s initConfig target).mCurrentDataSet } := rfl
  have hload := loadTrackerData_session (initARReset s initConfig target) o.load
  have htr : Event.onSurfaceCreated ∉
      (initTrackers (initARReset s initConfig target) o.deviceTracker o.objectTracker).2 := by
    unfold initTrackers
    cases o.deviceTracker <;> cases o.objectTracker <;> simp
  have heng : ∀ r ecalls, initVuforiaInternal env (initARReset s initConfig target)
      initConfig.appData o.progress = some (r, ecalls) → Event.onSurfaceCreated ∉ ecalls := by
    intro r ecalls he
    unfold initVuforiaInternal at he
    cases hp : initPoll 0 o.progress with
    | none => rw [hp] at he; exact absurd he (by simp)
    | some q =>
      obtain ⟨code, pcalls⟩ := q
      have hall := initPoll_calls o.progress 0 code pcalls hp
      have hnp : Event.onSurfaceCreated ∉ pcalls := by
        intro hmem
        exact absurd (hall _ hmem) (by simp)
      have hset : Event.onSurfaceCreated ≠
          setInitParametersEvent env.platform (initARReset s initConfig target)
            initConfig.appData := by
        unfold setInitParametersEvent
        cases env.platform <;> simp
      rw [hp] at he
      dsimp only at he
      split at he
      · simp only [Option.some.injEq, Prod.mk.injEq] at he
        rw [← he.2]
        simp [hnp, hset]
      · simp only [Option.some.injEq, Prod.mk.injEq] at he
        rw [← he.2]
        simp [hnp, hset]
  unfold initAR at h
  dsimp only at h
  split at h
  · exact absurd h (by simp)
  · rename_i f ecalls he
    simp only [Option.some.injEq, Prod.mk.injEq] at h
    obtain ⟨_, rfl, rfl⟩ := h
    exact ⟨⟨_, hself⟩, heng _ _ he⟩
  · rename_i ecalls he
    simp only [Option.some.injEq, Prod.mk.injEq] at h
    obtain ⟨_, rfl, rfl⟩ := h
    exact ⟨⟨_, hself⟩, heng _ _ he⟩
  · rename_i ecalls he
    have h1 := heng _ _ he
    split at h
    · simp only [Option.some.injEq, Prod.mk.injEq] at h
      obtain ⟨_, rfl, rfl⟩ := h
      exact ⟨⟨_, hself⟩, by simp [h1, htr]⟩
    · simp only [Option.some.injEq, Prod.mk.injEq] at h
      obtain ⟨_, rfl, rfl⟩ := h
      exact ⟨⟨_, hself⟩, by simp [h1, htr]⟩
    · split at h
      · simp only [Option.some.injEq, Prod.mk.injEq] at h
        obtain ⟨_, rfl, rfl⟩ := h
        exact ⟨⟨_, hload.1⟩, by simp [h1, htr, hload.2]⟩
      · simp only [Option.some.injEq, Prod.mk.injEq] at h
        obtain ⟨_, rfl, rfl⟩ := h
        exact ⟨⟨_, hload.1⟩, by simp [h1, htr, hload.2]⟩
      · simp only [Option.some.injEq, Prod.mk.injEq] at h
        obtain ⟨_, rfl, rfl⟩ := h
        exact ⟨⟨_, hload.1⟩, by simp [h1, htr, hload.2]⟩

/-- `initAR` leaves both camera flags false. -/
theorem initAR_flags (env : Env) (s s1 : Session) (initConfig : InitConfig) (target : Int)
    (o : InitOutcome) (completion : Except Fault Unit) (calls : List Event)
    (h : initAR env s initConfig target o = some (completion, s1, calls)) :
    s1.mCameraIsActive = false ∧ s1.mCameraIsStarted = false := by
  obtain ⟨⟨d, rfl⟩, _⟩ := initAR_session env s s1 initConfig target o completion calls h
  exact ⟨rfl, rfl⟩

/-- A callback invocation is an invocation of the error or of the completion callback.
-/
theorem countP_isCallback (l : List Event) :
    l.countP Event.isCallback = l.countP Event.isShowError + l.countP Event.isInitDone := by
  induction l with
  | nil => rfl
  | cons a t ih =>
    rw [List.countP_cons, List.countP_cons, List.countP_cons, ih]
    cases a <;> simp [Event.isCallback, Event.isShowError, Event.isInitDone] <;> omega

/-- The calls of the engine stage before its callback hold no callback invocation. -/
theorem engineCalls_countP (env : Env) (s : Session) (appData : Nat) (n : Nat)
    (p : Event → Bool) (hp : p Event.vuforiaInit = false)
    (hs : ∀ a f, p (Event.setInitParameters a f) = false) :
    (setInitParametersEvent env.platform s appData ::
      List.replicate n Event.vuforiaInit).countP p = 0 := by
  rw [List.countP_eq_zero]
  intro e he
  rcases List.mem_cons.mp he with rfl | he1
  · unfold setInitParametersEvent
    cases env.platform <;> simp [hs]
  · rw [List.eq_of_mem_replicate he1, hp]; simp

/-- An invocation that runs a callback is a callback invocation. -/
theorem runsCallback_imp_isCallback (e : Event) (h : e.runsCallback = true) :
    e.isCallback = true := by
  cases e <;> simp_all [Event.runsCallback, Event.isCallback, Event.isShowError,
    Event.isInitDone]

/-- Calls that end in the only callback invocation among them: one invocation is made,
and a callback runs exactly when the invoked function object is not empty. -/
theorem countP_one_callback (front : List Event) (last : Event)
    (hFront : ∀ e ∈ front, e.isCallback = false) (hLast : last.isCallback = true) :
    (front ++ [last]).countP Event.isCallback = 1 ∧
    (front ++ [last]).countP Event.runsCallback = (if last.runsCallback then 1 else 0) := by
  have h1 : front.countP Event.isCallback = 0 := by
    rw [List.countP_eq_zero]
    intro e he
    rw [hFront e he]; simp
  have h2 : front.countP Event.runsCallback = 0 := by
    rw [List.countP_eq_zero]
    intro e he hr
    have := runsCallback_imp_isCallback e hr
    rw [hFront e he] at this
    exact absurd this (by simp)
  rw [List.countP_append, List.countP_append, h1, h2]
  constructor
  · simp [hLast]
  · cases hr : last.runsCallback <;> simp [hr]

/-- The calls of the engine stage before its callback are no callback invocations. -/
theorem engineCalls_no_callback (env : Env) (s : Session) (appData : Nat) (n : Nat) :
    ∀ e ∈ setInitParametersEvent env.platform s appData :: List.replicate n Event.vuforiaInit,
      e.isCallback = false := by
  intro e he
  rcases List.mem_cons.mp he with rfl | he1
  · unfold setInitParametersEvent
    cases env.platform <;> rfl
  · rw [List.eq_of_mem_replicate he1]; rfl

/-- The outcome of an invocation in terms of whether a callback runs. -/
theorem invokeThenReturn_showError (callback : Callback) (msg : String) :
    (invokeThenReturn callback () = .ok () ↔
      (Event.showError callback msg).runsCallback = true) ∧
    (invokeThenReturn callback () = .error Fault.badFunctionCall ↔
      (Event.showError callback msg).runsCallback = false) := by
  cases callback <;> simp [invokeThenReturn, Event.runsCallback]

/-- The outcome of the completion callback's invocation in terms of whether it runs. -/
theorem invokeThenReturn_initDone (callback : Callback) :
    (invokeThenReturn callback () = .ok () ↔
      (Event.initDone callback).runsCallback = true) ∧
    (invokeThenReturn callback () = .error Fault.badFunctionCall ↔
      (Event.initDone callback).runsCallback = false) := by
  cases callback <;> simp [invokeThenReturn, Event.runsCallback]

/-- C8, amended: for every combination of outcomes of engine bring-up (progress values
that reach a terminal value), tracker creation and dataset loading, one `initAR` call
makes exactly one callback invocation, as the last thing it does: of the completion
callback when all three stages succeed (the first terminal progress value is 100, both
trackers are created, no dataset is recorded yet, and the dataset is created, loaded and
activated), and otherwise of the error callback; the invoked callback runs and `initAR`
returns when that function object is not empty, and when it is empty the invocation
throws `std::bad_function_call` and no callback runs. The stages run in the order
engine, trackers, dataset, and no stage runs after the first one that fails. -/
theorem C8_initAR_one_callback (env : Env) (s : Session) (initConfig : InitConfig)
    (target : Int) (o : InitOutcome) (before after : List Int) (terminal : Int)
    (hProgress : o.progress = before ++ terminal :: after)
    (hBefore : ∀ v ∈ before, 0 ≤ v ∧ v < 100)
    (hTerminal : isTerminalProgress terminal = true) :
    ∃ (completion : Except Fault Unit) (s1 : Session)
      (trackerCalls datasetCalls : List Event) (last : Event),
      initAR env s initConfig target o =
        some (completion, s1,
          (setInitParametersEvent env.platform (initARReset s initConfig target)
              initConfig.appData ::
            List.replicate (before.length + 1) Event.vuforiaInit) ++
          trackerCalls ++ datasetCalls ++ [last]) ∧
      ((setInitParametersEvent env.platform (initARReset s initConfig target)
              initConfig.appData ::
            List.replicate (before.length + 1) Event.vuforiaInit) ++
          trackerCalls ++ datasetCalls ++ [last]).countP Event.isCallback = 1 ∧
      last.isCallback = true ∧
      ((terminal = 100 ∧ o.deviceTracker = true ∧ o.objectTracker = true ∧
          s.mCurrentDataSet = none ∧ o.load.objectTracker = true ∧
          o.load.createDataSet ≠ none ∧ o.load.load = true ∧ o.load.activate = true) →
        last = Event.initDone initConfig.initDoneCallback) ∧
      (¬ (terminal = 100 ∧ o.deviceTracker = true ∧ o.objectTracker = true ∧
          s.mCurrentDataSet = none ∧ o.load.objectTracker = true ∧
          o.load.createDataSet ≠ none ∧ o.load.load = true ∧ o.load.activate = true) →
        ∃ msg, last = Event.showError initConfig.showErrorCallback msg) ∧
      (completion = .ok () ↔ last.runsCallback = true) ∧
      (completion = .error Fault.badFunctionCall ↔ last.runsCallback = false) ∧
      ((setInitParametersEvent env.platform (initARReset s initConfig target)
              initConfig.appData ::
            List.replicate (before.length + 1) Event.vuforiaInit) ++
          trackerCalls ++ datasetCalls ++ [last]).countP Event.runsCallback =
        (if last.runsCallback then 1 else 0) ∧
      (∀ e ∈ trackerCalls, (∃ t, e = Event.initTracker t) ∨ ∃ msg, e = Event.log msg) ∧
      (∀ e ∈ datasetCalls,
        e.isCallback = false ∧ e ≠ Event.vuforiaInit ∧ ∀ t, e ≠ Event.initTracker t) ∧
      (Event.initTracker TrackerType.positionalDevice ∈ trackerCalls ↔ terminal = 100) ∧
      (Event.initTracker TrackerType.object ∈ trackerCalls ↔
        (terminal = 100 ∧ o.deviceTracker = true)) ∧
      (Event.getTracker TrackerType.object ∈ datasetCalls ↔
        (terminal = 100 ∧ o.deviceTracker = true ∧ o.objectTracker = true ∧
          s.mCurrentDataSet = none)) ∧
      (terminal ≠ 100 → trackerCalls = [] ∧ datasetCalls = []) ∧
      (¬ (o.deviceTracker = true ∧ o.objectTracker = true) → datasetCalls = []) ∧
      (∀ dataSet : DataSet,
        terminal = 100 → o.deviceTracker = true → o.objectTracker = true →
        s.mCurrentDataSet = none → o.load.objectTracker = true →
        o.load.createDataSet = some dataSet → o.load.load = true → o.load.activate = true →
        trackerCalls = [Event.initTracker TrackerType.positionalDevice,
          Event.initTracker TrackerType.object] ∧
        datasetCalls =
          [Event.log ("Loading data set from " ++
             (if target = IMAGE_TARGET_ID then "StonesAndChips.xml"
              else "VuforiaMars_ModelTarget.xml")),
           Event.getTracker TrackerType.object, Event.createDataSet,
           Event.dataSetLoad dataSet
             (if target = IMAGE_TARGET_ID then "StonesAndChips.xml"
              else "VuforiaMars_ModelTarget.xml"),
           Event.activateDataSet dataSet] ∧
        s1.mCurrentDataSet = some dataSet) := by
  have hE := engineCalls_no_callback env (initARReset s initConfig target) initConfig.appData
    (before.length + 1)
  have hcount : ∀ (T D : List Event) (last : Event),
      (∀ e ∈ T, e.isCallback = false) → (∀ e ∈ D, e.isCallback = false) →
      last.isCallback = true →
      ((setInitParametersEvent env.platform (initARReset s initConfig target)
              initConfig.appData ::
            List.replicate (before.length + 1) Event.vuforiaInit) ++
          T ++ D ++ [last]).countP Event.isCallback = 1 ∧
      ((setInitParametersEvent env.platform (initARReset s initConfig target)
              initConfig.appData ::
            List.replicate (before.length + 1) Event.vuforiaInit) ++
          T ++ D ++ [last]).countP Event.runsCallback =
        (if last.runsCallback then 1 else 0) := by
    intro T D last hT hD hl
    apply countP_one_callback _ last _ hl
    intro e he
    rcases List.mem_append.mp he with h1 | h1
    · rcases List.mem_append.mp h1 with h2 | h2
      · exact hE e h2
      · exact hT e h2
    · exact hD e h1
  by_cases h100 : terminal = 100
  · by_cases hd : o.deviceTracker = true
    · by_cases ho : o.objectTracker = true
      · by_cases hn : s.mCurrentDataSet = none
        · cases hr : (loadAndActivateDataSet
            (if target = IMAGE_TARGET_ID then "StonesAndChips.xml"
             else "VuforiaMars_ModelTarget.xml") o.load).1 with
          | none =>
            have hrow := initAR_load_fails env s initConfig target o before after terminal
              hProgress hBefore hTerminal h100 hd ho hn hr
            obtain ⟨hc1, ⟨rest, hc2⟩, _⟩ := loadAndActivateDataSet_calls
              (if target = IMAGE_TARGET_ID then "StonesAndChips.xml"
               else "VuforiaMars_ModelTarget.xml") o.load
            have hnot : ¬ (o.load.objectTracker = true ∧ o.load.createDataSet ≠ none ∧
                o.load.load = true ∧ o.load.activate = true) := by
              intro hall
              obtain ⟨d, hd1⟩ := Option.ne_none_iff_exists'.mp hall.2.1
              have := (loadAndActivateDataSet_some_iff
                (if target = IMAGE_TARGET_ID then "StonesAndChips.xml"
                 else "VuforiaMars_ModelTarget.xml") o.load d).mpr
                ⟨hall.1, hd1, hall.2.2.1, hall.2.2.2⟩
              rw [hr] at this
              exact absurd this (by simp)
            obtain ⟨k1, k2⟩ := hcount
              [Event.initTracker TrackerType.positionalDevice,
                Event.initTracker TrackerType.object]
              (loadAndActivateDataSet
                (if target = IMAGE_TARGET_ID then "StonesAndChips.xml"
                 else "VuforiaMars_ModelTarget.xml") o.load).2
              (Event.showError initConfig.showErrorCallback
                (if target = IMAGE_TARGET_ID then "Error loading dataset for Image Target"
                 else "Error loading dataset for Model Target"))
              (by intro e he; simp at he; rcases he with rfl | rfl <;> rfl)
              (fun e he => (hc1 e he).1) rfl
            refine ⟨invokeThenReturn initConfig.showErrorCallback (),
              initARReset s initConfig target, [Event.initTracker TrackerType.positionalDevice,
                Event.initTracker TrackerType.object],
              (loadAndActivateDataSet
                (if target = IMAGE_TARGET_ID then "StonesAndChips.xml"
                 else "VuforiaMars_ModelTarget.xml") o.load).2,
              Event.showError initConfig.showErrorCallback
                (if target = IMAGE_TARGET_ID then "Error loading dataset for Image Target"
                 else "Error loading dataset for Model Target"),
              hrow.trans (by simp), k1, rfl, ?_, ?_,
              (invokeThenReturn_showError _ _).1, (invokeThenReturn_showError _ _).2, k2,
              ?_, hc1, ?_, ?_, ?_, ?_, ?_, ?_⟩
            · intro hall; exact absurd hall.2.2.2.2 hnot
            · intro _; exact ⟨_, rfl⟩
            · intro e he; simp at he; rcases he with rfl | rfl <;> exact Or.inl ⟨_, rfl⟩
            · simp [h100]
            · simp [h100, hd]
            · rw [hc2]; simp [h100, hd, ho, hn]
            · intro hne; exact absurd h100 hne
            · intro hne; exact absurd ⟨hd, ho⟩ hne
            · intro d _ _ _ _ h1 h2 h3 h4
              have := (loadAndActivateDataSet_some_iff
                (if target = IMAGE_TARGET_ID then "StonesAndChips.xml"
                 else "VuforiaMars_ModelTarget.xml") o.load d).mpr ⟨h1, h2, h3, h4⟩
              rw [hr] at this
              exact absurd this (by simp)
          | some d =>
            obtain ⟨h1, h2, h3, h4⟩ := (loadAndActivateDataSet_some_iff
              (if target = IMAGE_TARGET_ID then "StonesAndChips.xml"
               else "VuforiaMars_ModelTarget.xml") o.load d).mp hr
            have hrow := initAR_succeeds env s initConfig target o before after terminal d
              hProgress hBefore hTerminal h100 hd ho hn h1 h2 h3 h4
            obtain ⟨k1, k2⟩ := hcount
              [Event.initTracker TrackerType.positionalDevice,
                Event.initTracker TrackerType.object]
              [Event.log ("Loading data set from " ++
                 (if target = IMAGE_TARGET_ID then "StonesAndChips.xml"
                  else "VuforiaMars_ModelTarget.xml")),
               Event.getTracker TrackerType.object, Event.createDataSet,
               Event.dataSetLoad d
                 (if target = IMAGE_TARGET_ID then "StonesAndChips.xml"
                  else "VuforiaMars_ModelTarget.xml"),
               Event.activateDataSet d]
              (Event.initDone initConfig.initDoneCallback)
              (by intro e he; simp at he; rcases he with rfl | rfl <;> rfl)
              (by intro e he; simp at he; rcases he with rfl | rfl | rfl | rfl | rfl <;> rfl)
              rfl
            refine ⟨invokeThenReturn initConfig.initDoneCallback (),
              { initARReset s initConfig target with mCurrentDataSet := some d }, [Event.initTracker TrackerType.positionalDevice,
                Event.initTracker TrackerType.object],
              [Event.log ("Loading data set from " ++
                 (if target = IMAGE_TARGET_ID then "StonesAndChips.xml"
                  else "VuforiaMars_ModelTarget.xml")),
               Event.getTracker TrackerType.object, Event.createDataSet,
               Event.dataSetLoad d
                 (if target = IMAGE_TARGET_ID then "StonesAndChips.xml"
                  else "VuforiaMars_ModelTarget.xml"),
               Event.activateDataSet d],
              Event.initDone initConfig.initDoneCallback,
              hrow.trans (by simp), k1, rfl, ?_, ?_,
              (invokeThenReturn_initDone _).1, (invokeThenReturn_initDone _).2, k2,
              ?_, ?_, ?_, ?_, ?_, ?_, ?_, ?_⟩
            · intro _; rfl
            · intro hnot
              exact absurd ⟨h100, hd, ho, hn, h1, by rw [h2]; simp, h3, h4⟩ hnot
            · intro e he; simp at he; rcases he with rfl | rfl <;> exact Or.inl ⟨_, rfl⟩
            · intro e he
              simp at he
              rcases he with rfl | rfl | rfl | rfl | rfl <;>
                simp [Event.isCallback, Event.isShowError, Event.isInitDone]
            · simp [h100]
            · simp [h100, hd]
            · simp [h100, hd, ho, hn]
            · intro hne; exact absurd h100 hne
            · intro hne; exact absurd ⟨hd, ho⟩ hne
            · intro d1 _ _ _ _ _ h2' _ _
              rw [h2] at h2'
              simp only [Option.some.injEq] at h2'
              subst h2'
              exact ⟨rfl, rfl, rfl⟩
        · have hrow := initAR_dataset_recorded env s initConfig target o before after terminal
            hProgress hBefore hTerminal h100 hd ho hn
          obtain ⟨k1, k2⟩ := hcount
            [Event.initTracker TrackerType.positionalDevice,
              Event.initTracker TrackerType.object] []
            (Event.showError initConfig.showErrorCallback
              "Attempt to load a dataset when one is already loaded")
            (by intro e he; simp at he; rcases he with rfl | rfl <;> rfl)
            (by simp) rfl
          refine ⟨invokeThenReturn initConfig.showErrorCallback (),
              initARReset s initConfig target, [Event.initTracker TrackerType.positionalDevice,
              Event.initTracker TrackerType.object], [],
            Event.showError initConfig.showErrorCallback
              "Attempt to load a dataset when one is already loaded",
            hrow.trans (by simp), k1, rfl, ?_, ?_,
            (invokeThenReturn_showError _ _).1, (invokeThenReturn_showError _ _).2, k2,
            ?_, by simp, ?_, ?_, ?_, ?_, ?_, ?_⟩
          · intro hall; exact absurd hall.2.2.2.1 hn
          · intro _; exact ⟨_, rfl⟩
          · intro e he; simp at he; rcases he with rfl | rfl <;> exact Or.inl ⟨_, rfl⟩
          · simp [h100]
          · simp [h100, hd]
          · simp [hn]
          · intro hne; exact absurd h100 hne
          · intro _; rfl
          · intro d _ _ _ hn1; exact absurd hn1 hn
      · have ho1 : o.objectTracker = false := by simpa using ho
        have hrow := initAR_object_fails env s initConfig target o before after terminal
          hProgress hBefore hTerminal h100 hd ho1
        obtain ⟨k1, k2⟩ := hcount
          [Event.initTracker TrackerType.positionalDevice,
            Event.initTracker TrackerType.object,
            Event.log "Error: Failed to initialize ObjectTracker."] []
          (Event.showError initConfig.showErrorCallback
            "Error initializing the object tracker")
          (by intro e he; simp at he; rcases he with rfl | rfl | rfl <;> rfl)
          (by simp) rfl
        refine ⟨invokeThenReturn initConfig.showErrorCallback (),
              initARReset s initConfig target, [Event.initTracker TrackerType.positionalDevice,
            Event.initTracker TrackerType.object,
            Event.log "Error: Failed to initialize ObjectTracker."], [],
          Event.showError initConfig.showErrorCallback "Error initializing the object tracker",
          hrow.trans (by simp), k1, rfl, ?_, ?_,
          (invokeThenReturn_showError _ _).1, (invokeThenReturn_showError _ _).2, k2,
          ?_, by simp, ?_, ?_, ?_, ?_, ?_, ?_⟩
        · intro hall; exact absurd hall.2.2.1 ho
        · intro _; exact ⟨_, rfl⟩
        · intro e he
          simp at he
          rcases he with rfl | rfl | rfl
          · exact Or.inl ⟨_, rfl⟩
          · exact Or.inl ⟨_, rfl⟩
          · exact Or.inr ⟨_, rfl⟩
        · simp [h100]
        · simp [h100, hd]
        · simp [ho1]
        · intro hne; exact absurd h100 hne
        · intro _; rfl
        · intro d _ _ ho2; exact absurd ho2 ho
    · have hd1 : o.deviceTracker = false := by simpa using hd
      have hrow := initAR_device_fails env s initConfig target o before after terminal
        hProgress hBefore hTerminal h100 hd1
      obtain ⟨k1, k2⟩ := hcount
        [Event.initTracker TrackerType.positionalDevice,
          Event.log "Error: Failed to initialise the Device tracker (it may have been initialised already)"]
        []
        (Event.showError initConfig.showErrorCallback
          "Error initializing the device tracker")
        (by intro e he; simp at he; rcases he with rfl | rfl <;> rfl)
        (by simp) rfl
      refine ⟨invokeThenReturn initConfig.showErrorCallback (),
              initARReset s initConfig target, [Event.initTracker TrackerType.positionalDevice,
          Event.log "Error: Failed to initialise the Device tracker (it may have been initialised already)"],
        [],
        Event.showError initConfig.showErrorCallback "Error initializing the device tracker",
        hrow.trans (by simp), k1, rfl, ?_, ?_,
        (invokeThenReturn_showError _ _).1, (invokeThenReturn_showError _ _).2, k2,
        ?_, by simp, ?_, ?_, ?_, ?_, ?_, ?_⟩
      · intro hall; exact absurd hall.2.1 hd
      · intro _; exact ⟨_, rfl⟩
      · intro e he
        simp at he
        rcases he with rfl | rfl
        · exact Or.inl ⟨_, rfl⟩
        · exact Or.inr ⟨_, rfl⟩
      · simp [h100]
      · simp [hd1]
      · simp [hd1]
      · intro hne; exact absurd h100 hne
      · intro _; rfl
      · intro d _ hd2; exact absurd hd2 hd
  · have hrow := initAR_engine_fails env s initConfig target o before after terminal
      hProgress hBefore hTerminal h100
    obtain ⟨k1, k2⟩ := hcount [] []
      (Event.showError initConfig.showErrorCallback (initErrorMessage env.codes terminal))
      (by simp) (by simp) rfl
    refine ⟨invokeThenReturn initConfig.showErrorCallback (),
              initARReset s initConfig target, [], [],
      Event.showError initConfig.showErrorCallback (initErrorMessage env.codes terminal),
      hrow.trans (by simp), k1, rfl, ?_, ?_,
      (invokeThenReturn_showError _ _).1, (invokeThenReturn_showError _ _).2, k2,
      by simp, by simp, ?_, ?_, ?_, ?_, ?_, ?_⟩
    · intro hall; exact absurd hall.1 h100
    · intro _; exact ⟨_, rfl⟩
    · simp [h100]
    · simp [h100]
    · simp [h100]
    · intro _; exact ⟨rfl, rfl⟩
    · intro _; rfl
    · intro d h; exact absurd h h100

/-- C8 on a fresh controller with an engine that reports 50 then 100 and non-empty
callbacks: the one invocation is that of the completion callback, which runs. -/
theorem C8_initAR_one_callback_witness :
    okInit.progress = [50] ++ 100 :: [] ∧ (∀ v ∈ [(50 : Int)], 0 ≤ v ∧ v < 100) ∧
    isTerminalProgress 100 = true ∧
    ∃ (completion : Except Fault Unit) (s1 : Session)
      (trackerCalls datasetCalls : List Event) (last : Event),
      initAR androidEnv Session.fresh firstConfig IMAGE_TARGET_ID okInit =
        some (completion, s1,
          (setInitParametersEvent androidEnv.platform
              (initARReset Session.fresh firstConfig IMAGE_TARGET_ID) firstConfig.appData ::
            List.replicate ([(50 : Int)].length + 1) Event.vuforiaInit) ++
          trackerCalls ++ datasetCalls ++ [last]) ∧
      ((setInitParametersEvent androidEnv.platform
              (initARReset Session.fresh firstConfig IMAGE_TARGET_ID) firstConfig.appData ::
            List.replicate ([(50 : Int)].length + 1) Event.vuforiaInit) ++
          trackerCalls ++ datasetCalls ++ [last]).countP Event.isCallback = 1 ∧
      last = Event.initDone (some 2) ∧ completion = .ok () := by
  obtain ⟨completion, s1, T, D, last, h1, h2, _, h4, _, h6, _⟩ :=
    C8_initAR_one_callback androidEnv Session.fresh firstConfig IMAGE_TARGET_ID okInit
      [50] [] 100 rfl (by intro v hv; simp at hv; subst hv; decide) (by decide)
  have hl : last = Event.initDone (some 2) :=
    h4 ⟨rfl, rfl, rfl, rfl, rfl, by decide, rfl, rfl⟩
  refine ⟨rfl, by intro v hv; simp at hv; subst hv; decide, by decide,
    completion, s1, T, D, last, h1, h2, hl, h6.mpr (by rw [hl]; rfl)⟩

/-- C8, as stated, fails for a request whose callbacks are empty function objects: when
the engine fails, the one invocation made is that of the empty error callback, which
throws `std::bad_function_call`, so that no callback runs and `initAR` does not return;
and when all three stages succeed the same happens at the empty completion callback. -/
theorem C8_counterexample :
    initAR androidEnv Session.fresh emptyCallbackConfig IMAGE_TARGET_ID failedEngineInit =
      some (.error Fault.badFunctionCall,
        initARReset Session.fresh emptyCallbackConfig IMAGE_TARGET_ID,
        [Event.setInitParameters (some 0) (some 0), Event.vuforiaInit,
         Event.showError none "Vuforia initialization failed."]) ∧
    [Event.setInitParameters (some 0) (some 0), Event.vuforiaInit,
      Event.showError none "Vuforia initialization failed."].countP Event.runsCallback = 0 ∧
    (∃ (s1 : Session) (calls : List Event),
      initAR androidEnv Session.fresh emptyCallbackConfig IMAGE_TARGET_ID okInit =
        some (.error Fault.badFunctionCall, s1, calls) ∧
      s1.mCurrentDataSet = some 5 ∧
      calls.getLast? = some (Event.initDone none) ∧
      calls.countP Event.runsCallback = 0) := by
  refine ⟨rfl, by decide, _, _, rfl, rfl, by decide, by decide⟩

/-- `initAR` while a dataset is recorded: whichever stage fails (the dataset stage fails
at the latest), the session is the reset one and the calls end in the only callback
invocation, that of the error callback. -/
theorem initAR_loaded (env : Env) (s : Session) (initConfig : InitConfig) (target : Int)
    (o : InitOutcome) (hLoaded : s.mCurrentDataSet ≠ none)
    (hTerminal : ∃ v ∈ o.progress, isTerminalProgress v = true) :
    ∃ (front : List Event) (msg : String),
      initAR env s initConfig target o =
        some (invokeThenReturn initConfig.showErrorCallback (),
          initARReset s initConfig target,
          front ++ [Event.showError initConfig.showErrorCallback msg]) ∧
      (∀ e ∈ front, e.isCallback = false) ∧ Event.vuforiaInit ∈ front := by
  obtain ⟨before, after, terminal, hP, hB, hT⟩ := exists_first_terminal o.progress hTerminal
  have hE := engineCalls_no_callback env (initARReset s initConfig target) initConfig.appData
    (before.length + 1)
  have hmem : Event.vuforiaInit ∈
      setInitParametersEvent env.platform (initARReset s initConfig target)
        initConfig.appData :: List.replicate (before.length + 1) Event.vuforiaInit := by
    simp [List.replicate_succ]
  have hfront : ∀ (mid : List Event) (msg : String), (∀ e ∈ mid, e.isCallback = false) →
      initAR env s initConfig target o =
        some (invokeThenReturn initConfig.showErrorCallback (),
          initARReset s initConfig target,
          ((setInitParametersEvent env.platform (initARReset s initConfig target)
            initConfig.appData :: List.replicate (before.length + 1) Event.vuforiaInit) ++ mid)
            ++ [Event.showError initConfig.showErrorCallback msg]) →
      ∃ (front : List Event) (msg : String),
        initAR env s initConfig target o =
          some (invokeThenReturn initConfig.showErrorCallback (),
            initARReset s initConfig target,
            front ++ [Event.showError initConfig.showErrorCallback msg]) ∧
        (∀ e ∈ front, e.isCallback = false) ∧ Event.vuforiaInit ∈ front := by
    intro mid msg hmid hrow
    refine ⟨_, msg, hrow, ?_, List.mem_append_left _ hmem⟩
    intro e he
    rcases List.mem_append.mp he with h1 | h1
    · exact hE e h1
    · exact hmid e h1
  by_cases h100 : terminal = 100
  · by_cases hd : o.deviceTracker = true
    · by_cases ho : o.objectTracker = true
      · exact hfront [Event.initTracker TrackerType.positionalDevice,
          Event.initTracker TrackerType.object]
          "Attempt to load a dataset when one is already loaded"
          (by intro e he; simp at he; rcases he with rfl | rfl <;> rfl)
          ((initAR_dataset_recorded env s initConfig target o before after terminal
            hP hB hT h100 hd ho hLoaded).trans (by simp))
      · exact hfront [Event.initTracker TrackerType.positionalDevice,
          Event.initTracker TrackerType.object,
          Event.log "Error: Failed to initialize ObjectTracker."]
          "Error initializing the object tracker"
          (by intro e he; simp at he; rcases he with rfl | rfl | rfl <;> rfl)
          ((initAR_object_fails env s initConfig target o before after terminal
            hP hB hT h100 hd (by simpa using ho)).trans (by simp))
    · exact hfront [Event.initTracker TrackerType.positionalDevice,
        Event.log "Error: Failed to initialise the Device tracker (it may have been initialised already)"]
        "Error initializing the device tracker"
        (by intro e he; simp at he; rcases he with rfl | rfl <;> rfl)
        ((initAR_device_fails env s initConfig target o before after terminal
          hP hB hT h100 (by simpa using hd)).trans (by simp))
  · exact hfront [] (initErrorMessage env.codes terminal) (by simp)
      ((initAR_engine_fails env s initConfig target o before after terminal
        hP hB hT h100).trans (by simp))

/-- C3, amended: when `initAR` is called again while a dataset is recorded as loaded (a
first call succeeded and no `deinitAR` intervened), the recorded dataset is left
untouched and the call makes exactly one invocation of the error callback of the new
request and none of the completion callback: this reports a failure when that callback
is not empty, and when it is an empty function object the invocation throws
`std::bad_function_call` out of `initAR`; but the selected target type and the callbacks
are overwritten from the new arguments, the camera-started and camera-active flags, the
one-time render-setup flag and the guide-view candidate are reset, and the engine
initialisation is invoked again. -/
theorem C3_second_initAR_overwrites (env : Env) (s : Session) (initConfig : InitConfig)
    (target : Int) (o : InitOutcome) (hLoaded : s.mCurrentDataSet ≠ none)
    (hTerminal : ∃ v ∈ o.progress, isTerminalProgress v = true) :
    ∃ (completion : Except Fault Unit) (s1 : Session) (calls : List Event),
      initAR env s initConfig target o = some (completion, s1, calls) ∧
      s1.mCurrentDataSet = s.mCurrentDataSet ∧
      calls.countP Event.isShowError = 1 ∧
      calls.countP Event.isInitDone = 0 ∧
      (∀ e ∈ calls, e.isShowError = true →
        ∃ msg, e = Event.showError initConfig.showErrorCallback msg) ∧
      (initConfig.showErrorCallback ≠ none →
        completion = .ok () ∧ calls.countP Event.runsCallback = 1) ∧
      (initConfig.showErrorCallback = none →
        completion = .error Fault.badFunctionCall ∧ calls.countP Event.runsCallback = 0) ∧
      s1.mTarget = target ∧
      s1.mShowErrorCallback = initConfig.showErrorCallback ∧
      s1.mInitDoneCallback = initConfig.initDoneCallback ∧
      s1.mCameraIsStarted = false ∧
      s1.mCameraIsActive = false ∧
      s1.mDoneOneTimeRenderingConfiguration = false ∧
      s1.mGuideViewModelTarget = none ∧
      Event.vuforiaInit ∈ calls := by
  obtain ⟨front, msg, hrow, hfront, hinit⟩ :=
    initAR_loaded env s initConfig target o hLoaded hTerminal
  obtain ⟨k1, k2⟩ := countP_one_callback front
    (Event.showError initConfig.showErrorCallback msg) hfront rfl
  have hdone : (front ++ [Event.showError initConfig.showErrorCallback msg]).countP
      Event.isInitDone = 0 := by
    rw [List.countP_eq_zero]
    intro e he hd
    rcases List.mem_append.mp he with h1 | h1
    · have := hfront e h1
      unfold Event.isCallback at this
      rw [hd] at this
      simp at this
    · simp only [List.mem_singleton] at h1
      subst h1
      exact absurd hd (by simp [Event.isInitDone])
  refine ⟨_, _, _, hrow, rfl, ?_, hdone, ?_, ?_, ?_, rfl, rfl, rfl, rfl, rfl, rfl, rfl,
    List.mem_append_left _ hinit⟩
  · have := countP_isCallback (front ++ [Event.showError initConfig.showErrorCallback msg])
    rw [k1, hdone] at this
    omega
  · intro e he hs
    rcases List.mem_append.mp he with h1 | h1
    · have := hfront e h1
      unfold Event.isCallback at this
      rw [hs] at this
      simp at this
    · simp only [List.mem_singleton] at h1
      exact ⟨msg, h1⟩
  · intro hne
    obtain ⟨k, hk⟩ := Option.ne_none_iff_exists'.mp hne
    rw [k2, hk]
    exact ⟨rfl, rfl⟩
  · intro hnone
    rw [k2, hnone]
    exact ⟨rfl, rfl⟩

/-- C3, as stated, fails: after a successful `initAR` and `startAR`, a second `initAR`
changes the selected target type and the error callback, clears the camera-started and
camera-active flags, and calls `Vuforia::init()` twice more. -/
theorem C3_counterexample :
    ∃ (calls1 : List Event) (s2 : Session) (calls2 : List Event),
      initAR androidEnv Session.fresh firstConfig IMAGE_TARGET_ID okInit
        = some (.ok (), firstInitSession, calls1) ∧
      Event.initDone (some 2) ∈ calls1 ∧
      startAR firstInitSession okStart = (.ok true, startedSession, (startAR firstInitSession
        okStart).2.2) ∧
      initAR androidEnv startedSession secondConfig MODEL_TARGET_ID okInit
        = some (.ok (), s2, calls2) ∧
      startedSession.mTarget = 0 ∧ s2.mTarget = 1 ∧
      startedSession.mShowErrorCallback = some 1 ∧ s2.mShowErrorCallback = some 3 ∧
      startedSession.mCameraIsStarted = true ∧ s2.mCameraIsStarted = false ∧
      startedSession.mCameraIsActive = true ∧ s2.mCameraIsActive = false ∧
      calls2.count Event.vuforiaInit = 2 := by
  refine ⟨_, _, _, rfl, ?_, rfl, rfl, rfl, rfl, rfl, rfl, rfl, rfl, rfl, rfl, ?_⟩
  · decide
  · decide

/-- The amended C3 on the started session, with the non-empty callbacks of a second
request. -/
theorem C3_second_initAR_overwrites_witness :
    startedSession.mCurrentDataSet ≠ none ∧
    (∃ v ∈ okInit.progress, isTerminalProgress v = true) ∧
    ∃ (completion : Except Fault Unit) (s1 : Session) (calls : List Event),
      initAR androidEnv startedSession secondConfig MODEL_TARGET_ID okInit
        = some (completion, s1, calls) ∧
      s1.mCurrentDataSet = startedSession.mCurrentDataSet ∧
      calls.countP Event.isShowError = 1 ∧
      calls.countP Event.isInitDone = 0 ∧
      completion = .ok () ∧
      s1.mTarget = MODEL_TARGET_ID ∧
      s1.mShowErrorCallback = secondConfig.showErrorCallback ∧
      s1.mCameraIsStarted = false ∧
      s1.mCameraIsActive = false ∧
      Event.vuforiaInit ∈ calls := by
  obtain ⟨c, s1, calls, h1, h2, h3, h4, _, h6, _, h8, h9, _, h11, h12, _, _, h15⟩ :=
    C3_second_initAR_overwrites androidEnv startedSession secondConfig MODEL_TARGET_ID okInit
      (by decide) ⟨100, by simp [okInit], by decide⟩
  exact ⟨by decide, ⟨100, by simp [okInit], by decide⟩, c, s1, calls, h1, h2, h3, h4,
    (h6 (by decide)).1, h8, h9, h11, h12, h15⟩

/-! ## `startAR`, `pauseAR`, `resumeAR` -/

/-- `pauseAR` never changes the camera-started flag. -/
theorem pauseAR_mCameraIsStarted (s : Session) (o : PauseOutcome) :
    (pauseAR s o).1.mCameraIsStarted = s.mCameraIsStarted := by
  unfold pauseAR
  split <;> rfl

/-- After `pauseAR` the camera is not active. -/
theorem pauseAR_mCameraIsActive (s : Session) (o : PauseOutcome) :
    (pauseAR s o).1.mCameraIsActive = false := by
  unfold pauseAR
  split
  · rfl
  · simp_all

/-- `resumeAR` never changes the camera-started flag. -/
theorem resumeAR_mCameraIsStarted (s : Session) (o : ResumeOutcome) :
    (resumeAR s o).1.mCameraIsStarted = s.mCameraIsStarted := by
  unfold resumeAR updateRenderingPrimitives
  cases hs : s.mCameraIsStarted <;> cases ha : s.mCameraIsActive <;> cases o.cameraInit <;>
    cases o.cameraStart <;> simp [hs, ha]

/-- `resumeAR` sets the camera-active flag only on a started session. -/
theorem resumeAR_active_imp_started (s : Session) (o : ResumeOutcome)
    (h : s.mCameraIsActive = true → s.mCameraIsStarted = true) :
    (resumeAR s o).1.mCameraIsActive = true → (resumeAR s o).1.mCameraIsStarted = true := by
  rw [resumeAR_mCameraIsStarted]
  unfold resumeAR updateRenderingPrimitives
  revert h
  cases hs : s.mCameraIsStarted <;> cases ha : s.mCameraIsActive <;> cases o.cameraInit <;>
    cases o.cameraStart <;> simp [hs, ha]

/-- The scan of `getModelTargetResult` changes at most the guide-view candidate. -/
theorem getModelTargetResultLoop_session {M : Type} (ops : MathOps M) :
    ∀ (results : List TrackableResult) (s s1 : Session) (out out1 : TargetMatrices M)
      (found : Bool),
      getModelTargetResultLoop ops results s out = .ok (found, s1, out1) →
      ∃ g, s1 = s.withGuide g := by
  intro results
  induction results with
  | nil =>
    intro s s1 out out1 found h
    rw [getModelTargetResultLoop] at h
    simp only [Except.ok.injEq, Prod.mk.injEq] at h
    exact ⟨s.mGuideViewModelTarget, h.2.1.symm⟩
  | cons a rest ih =>
    intro s s1 out out1 found h
    rw [getModelTargetResultLoop] at h
    cases ht : a.trackable with
    | modelTarget t =>
      simp only [ht] at h
      split at h
      · split at h
        · split at h
          · obtain ⟨g, hg⟩ := ih _ _ _ _ _ h
            exact ⟨g, hg⟩
          · exact ih _ _ _ _ _ h
        · split at h
          · exact absurd h (by simp)
          · simp only [Except.ok.injEq, Prod.mk.injEq] at h
            exact ⟨none, h.2.1.symm⟩
      · exact ih _ _ _ _ _ h
    | imageTarget t =>
      simp only [ht] at h
      exact ih _ _ _ _ _ h
    | other =>
      simp only [ht] at h
      exact ih _ _ _ _ _ h

/-- In every reachable session the camera-active flag implies the camera-started flag.
-/
theorem reachable_active_imp_started (env : Env) (s : Session) (h : Reachable env s) :
    s.mCameraIsActive = true → s.mCameraIsStarted = true := by
  induction h with
  | fresh => intro h; exact absurd h (by simp [Session.fresh])
  | initAR initConfig target o _ hinit _ =>
    intro h
    rw [(initAR_flags env _ _ initConfig target o _ _ hinit).1] at h
    exact absurd h (by simp)
  | @startAR s o _ ih =>
    unfold AppController.startAR
    revert ih
    cases hs : s.mCameraIsStarted <;> cases ha : s.mCameraIsActive <;> cases o.cameraInit <;>
      cases o.selectVideoMode <;> cases ht : (startTrackers o.trackers).1 <;>
      cases o.cameraStart <;> simp [hs, ha, ht]
  | @pauseAR s o _ _ =>
    intro h
    rw [pauseAR_mCameraIsActive] at h
    exact absurd h (by simp)
  | @resumeAR s o _ ih => exact resumeAR_active_imp_started s o ih
  | @stopAR s o _ _ =>
    unfold AppController.stopAR
    split <;> simp_all
  | @deinitAR s o _ ih =>
    unfold AppController.deinitAR unloadTrackerData
    revert ih
    cases o.objectTracker <;> simp
  | @configureRendering s width height orientation o _ ih =>
    unfold AppController.configureRendering configureVideoBackground
      AppController.updateRenderingPrimitives
    revert ih
    cases hs : s.mCameraIsStarted <;> simp [hs]
  | updateRenderingPrimitives primitives _ ih => exact ih
  | @prepareToRender s snapshot primitives viewportInfo tex upd _ ih =>
    unfold AppController.prepareToRender AppController.updateRenderingPrimitives
    revert ih
    cases hp : s.mCurrentRenderingPrimitives <;> simp [hp]
  | @getModelTargetResult M s s1 found out out1 ops _ hg ih =>
    obtain ⟨g, rfl⟩ := getModelTargetResultLoop_session ops _ _ _ _ _ _ hg
    exact ih

/-- The first `initAR` on a fresh controller returns, with the session and the calls
named. -/
theorem firstInit_eq :
    initAR androidEnv Session.fresh firstConfig IMAGE_TARGET_ID okInit =
      some (.ok (), firstInitSession, firstInitCalls) := rfl

/-- The started session is reachable: `initAR` then `startAR` on a fresh controller. -/
theorem startedSession_reachable : Reachable androidEnv startedSession :=
  Reachable.startAR okStart
    (@Reachable.initAR androidEnv Session.fresh firstInitSession (.ok ()) firstInitCalls
      firstConfig IMAGE_TARGET_ID okInit Reachable.fresh firstInit_eq)

/-- The trackers step of `startAR` succeeds exactly when the object tracker exists, and
it invokes no callback. -/
theorem startTrackers_spec (o : TrackersOutcome) :
    (startTrackers o).1 = o.objectTracker.isSome ∧
    (startTrackers o).2.countP Event.isShowError = 0 ∧
    (startTrackers o).2.countP Event.runsCallback = 0 ∧
    alreadyStartedLog ∉ (startTrackers o).2 := by
  unfold startTrackers
  cases o.deviceTracker <;> cases o.objectTracker <;>
    simp [Event.isShowError, Event.runsCallback, alreadyStartedLog]

/-- `startAR` on a session that is not started: the result, the flags and the
error-callback invocations in terms of the collaborator outcomes. -/
theorem startAR_not_started (s : Session) (o : StartOutcome)
    (hs : s.mCameraIsStarted = false) (ha : s.mCameraIsActive = false) :
    (startAR s o).1 =
      (if (o.cameraInit && o.selectVideoMode && o.trackers.objectTracker.isSome
          && o.cameraStart) = true then .ok true
       else invokeThenReturn s.mShowErrorCallback false) ∧
    (startAR s o).2.1 =
      (if (o.cameraInit && o.selectVideoMode && o.trackers.objectTracker.isSome
          && o.cameraStart) = true then
        { s with mCameraIsActive := true, mCameraIsStarted := true }
       else s) ∧
    (startAR s o).2.2.countP Event.isShowError =
      (if (o.cameraInit && o.selectVideoMode && o.trackers.objectTracker.isSome
          && o.cameraStart) = true then 0 else 1) ∧
    (startAR s o).2.2.countP Event.runsCallback =
      (if (o.cameraInit && o.selectVideoMode && o.trackers.objectTracker.isSome
          && o.cameraStart) = true then 0
       else if s.mShowErrorCallback = none then 0 else 1) ∧
    alreadyStartedLog ∉ (startAR s o).2.2 ∧
    Event.cameraInit ∈ (startAR s o).2.2 := by
  obtain ⟨h1, h2, h3, h4⟩ := startTrackers_spec o.trackers
  unfold alreadyStartedLog at h4
  unfold startAR
  rw [hs, ha]
  cases hcb : s.mShowErrorCallback <;>
  cases o.cameraInit <;> cases o.selectVideoMode <;>
    cases ht : (startTrackers o.trackers).1 <;> cases o.cameraStart <;>
    cases o.setFocusMode <;>
    simp [← h1, ht, h2, h3, h4, List.countP_append, List.countP_cons, Event.isShowError,
      Event.runsCallback, alreadyStartedLog]

/-- C4: in every reachable session whose camera is active before `pauseAR`,
`isCameraStarted()` is true before `pauseAR`, after `pauseAR` and after the immediately
following `resumeAR`, for every outcome of the camera stop, deinit, init and start calls;
and `pauseAR` and `resumeAR` never change the camera-started flag, on any session. -/
theorem C4_pause_resume_keeps_started (env : Env) (s : Session) (hReach : Reachable env s)
    (hActive : s.mCameraIsActive = true) (po : PauseOutcome) (ro : ResumeOutcome) :
    isCameraStarted s = true ∧
    isCameraStarted (pauseAR s po).1 = true ∧
    isCameraStarted (resumeAR (pauseAR s po).1 ro).1 = true ∧
    (∀ (s1 : Session) (o1 : PauseOutcome),
      (pauseAR s1 o1).1.mCameraIsStarted = s1.mCameraIsStarted) ∧
    (∀ (s1 : Session) (o1 : ResumeOutcome),
      (resumeAR s1 o1).1.mCameraIsStarted = s1.mCameraIsStarted) := by
  have h := reachable_active_imp_started env s hReach hActive
  refine ⟨h, ?_, ?_, pauseAR_mCameraIsStarted, resumeAR_mCameraIsStarted⟩
  · unfold isCameraStarted; rw [pauseAR_mCameraIsStarted]; exact h
  · unfold isCameraStarted
    rw [resumeAR_mCameraIsStarted, pauseAR_mCameraIsStarted]; exact h

/-- C4 on the started session, with a failing camera stop and a failing camera init. -/
theorem C4_pause_resume_keeps_started_witness :
    isCameraStarted startedSession = true ∧
    isCameraStarted (pauseAR startedSession
      { cameraStop := false, cameraDeinit := true, trackers := okTrackers }).1 = true ∧
    isCameraStarted (resumeAR (pauseAR startedSession
      { cameraStop := false, cameraDeinit := true, trackers := okTrackers }).1
      { trackers := okTrackers, cameraInit := false, cameraStart := true,
        primitives := 0 }).1 = true ∧
    (∀ (s1 : Session) (o1 : PauseOutcome),
      (pauseAR s1 o1).1.mCameraIsStarted = s1.mCameraIsStarted) ∧
    (∀ (s1 : Session) (o1 : ResumeOutcome),
      (resumeAR s1 o1).1.mCameraIsStarted = s1.mCameraIsStarted) :=
  C4_pause_resume_keeps_started androidEnv startedSession startedSession_reachable
    (by decide) { cameraStop := false, cameraDeinit := true, trackers := okTrackers }
    { trackers := okTrackers, cameraInit := false, cameraStart := true, primitives := 0 }

/-- C5: when `startAR` is called while the camera-started flag or the camera-active flag
is already true, it returns false, changes no session field, and only writes a log line:
it invokes neither the error callback nor any camera, renderer or tracker operation. -/
theorem C5_startAR_already_started (s : Session) (o : StartOutcome)
    (h : s.mCameraIsStarted = true ∨ s.mCameraIsActive = true) :
    startAR s o = (.ok false, s, [alreadyStartedLog]) ∧
    (∀ e ∈ (startAR s o).2.2, e.isShowError = false ∧ e.isEngineCall = false) := by
  have h1 : startAR s o = (.ok false, s, [alreadyStartedLog]) := by
    unfold startAR
    rcases h with h | h <;> simp [h, alreadyStartedLog]
  refine ⟨h1, ?_⟩
  rw [h1]
  intro e he
  simp only [List.mem_singleton] at he
  subst he
  exact ⟨rfl, rfl⟩

/-- C5 on the started session. -/
theorem C5_startAR_already_started_witness :
    (startedSession.mCameraIsStarted = true ∨ startedSession.mCameraIsActive = true) ∧
    startAR startedSession okStart = (.ok false, startedSession, [alreadyStartedLog]) ∧
    (∀ e ∈ (startAR startedSession okStart).2.2,
      e.isShowError = false ∧ e.isEngineCall = false) :=
  ⟨Or.inl (by decide),
   C5_startAR_already_started startedSession okStart (Or.inl (by decide))⟩

/-- C6, amended: when `startAR` is called on a session that is not started, exactly one
of three outcomes holds: it returns true with both the camera-started and camera-active
flags set and the error callback never invoked; or it returns false with both flags still
false and the error callback, a non-empty function object, invoked exactly once; or the
error callback is an empty function object (as on a controller that was never
initialised), its one invocation throws `std::bad_function_call`, nothing is returned and
both flags are still false. The first outcome happens exactly when camera init,
video-mode selection and camera start succeed and the object tracker is available
(`startTrackers` returns true), whatever the device tracker's availability, the trackers'
`start()` results and the continuous-autofocus request return. -/
theorem C6_startAR_outcomes (s : Session) (o : StartOutcome)
    (hs : s.mCameraIsStarted = false) (ha : s.mCameraIsActive = false) :
    (((startAR s o).1 = .ok true ∧ (startAR s o).2.1.mCameraIsStarted = true ∧
        (startAR s o).2.1.mCameraIsActive = true ∧
        (startAR s o).2.2.countP Event.isShowError = 0) ∨
      ((startAR s o).1 = .ok false ∧ (startAR s o).2.1.mCameraIsStarted = false ∧
        (startAR s o).2.1.mCameraIsActive = false ∧
        (startAR s o).2.2.countP Event.isShowError = 1 ∧
        (startAR s o).2.2.countP Event.runsCallback = 1 ∧ s.mShowErrorCallback ≠ none) ∨
      ((startAR s o).1 = .error Fault.badFunctionCall ∧
        (startAR s o).2.1.mCameraIsStarted = false ∧
        (startAR s o).2.1.mCameraIsActive = false ∧
        (startAR s o).2.2.countP Event.isShowError = 1 ∧
        (startAR s o).2.2.countP Event.runsCallback = 0 ∧ s.mShowErrorCallback = none)) ∧
    ¬ ((startAR s o).1 = .ok true ∧ (startAR s o).1 = .ok false) ∧
    ¬ ((startAR s o).1 = .ok true ∧ (startAR s o).1 = .error Fault.badFunctionCall) ∧
    ¬ ((startAR s o).1 = .ok false ∧ (startAR s o).1 = .error Fault.badFunctionCall) ∧
    ((startAR s o).1 = .ok true ↔
      (o.cameraInit = true ∧ o.selectVideoMode = true ∧
        o.trackers.objectTracker.isSome = true ∧ o.cameraStart = true)) ∧
    ((startAR s o).1 = .ok false ↔
      (¬ (o.cameraInit = true ∧ o.selectVideoMode = true ∧
        o.trackers.objectTracker.isSome = true ∧ o.cameraStart = true) ∧
        s.mShowErrorCallback ≠ none)) ∧
    ((startAR s o).1 = .error Fault.badFunctionCall ↔
      (¬ (o.cameraInit = true ∧ o.selectVideoMode = true ∧
        o.trackers.objectTracker.isSome = true ∧ o.cameraStart = true) ∧
        s.mShowErrorCallback = none)) := by
  obtain ⟨h1, h2, h3, h4, _, _⟩ := startAR_not_started s o hs ha
  have hex : ¬ ((startAR s o).1 = .ok true ∧ (startAR s o).1 = .ok false) ∧
      ¬ ((startAR s o).1 = .ok true ∧ (startAR s o).1 = .error Fault.badFunctionCall) ∧
      ¬ ((startAR s o).1 = .ok false ∧ (startAR s o).1 = .error Fault.badFunctionCall) := by
    refine ⟨?_, ?_, ?_⟩ <;> intro h <;> rw [h.1] at h <;> exact absurd h.2 (by simp)
  by_cases hc : (o.cameraInit && o.selectVideoMode && o.trackers.objectTracker.isSome
      && o.cameraStart) = true
  · rw [if_pos hc] at h1 h2 h3
    have hc1 : o.cameraInit = true ∧ o.selectVideoMode = true ∧
        o.trackers.objectTracker.isSome = true ∧ o.cameraStart = true := by
      simpa [Bool.and_eq_true, and_assoc] using hc
    refine ⟨Or.inl ⟨h1, by rw [h2], by rw [h2], h3⟩, hex.1, hex.2.1, hex.2.2, ?_, ?_, ?_⟩
    · exact ⟨fun _ => hc1, fun _ => h1⟩
    · rw [h1]; simp [hc1]
    · rw [h1]; simp [hc1]
  · rw [if_neg hc] at h1 h2 h3 h4
    have hc1 : ¬ (o.cameraInit = true ∧ o.selectVideoMode = true ∧
        o.trackers.objectTracker.isSome = true ∧ o.cameraStart = true) := by
      simpa [Bool.and_eq_true, and_assoc] using hc
    cases hcb : s.mShowErrorCallback with
    | none =>
      rw [hcb] at h1 h4
      have h1' : (startAR s o).1 = .error Fault.badFunctionCall := h1
      refine ⟨Or.inr (Or.inr ⟨h1', by rw [h2]; exact hs, by rw [h2]; exact ha, h3,
        by simpa using h4, rfl⟩), hex.1, hex.2.1, hex.2.2, ?_, ?_, ?_⟩
      · rw [h1']; simp [hc1]
      · rw [h1']; simp
      · rw [h1']; simp [hc1]
    | some k =>
      rw [hcb] at h1 h4
      have h1' : (startAR s o).1 = .ok false := h1
      refine ⟨Or.inr (Or.inl ⟨h1', by rw [h2]; exact hs, by rw [h2]; exact ha, h3,
        by simpa using h4, by simp⟩), hex.1, hex.2.1, hex.2.2, ?_, ?_, ?_⟩
      · rw [h1']; simp [hc1]
      · rw [h1']; simp [hc1]
      · rw [h1']; simp

/-- The amended C6 on the initialised session, with a missing device tracker: `startAR`
returns true. -/
theorem C6_startAR_outcomes_witness :
    firstInitSession.mCameraIsStarted = false ∧ firstInitSession.mCameraIsActive = false ∧
    ((startAR firstInitSession trackersNotStarted).1 = .ok true ↔
      (trackersNotStarted.cameraInit = true ∧ trackersNotStarted.selectVideoMode = true ∧
        trackersNotStarted.trackers.objectTracker.isSome = true ∧
        trackersNotStarted.cameraStart = true)) :=
  ⟨by decide, by decide,
   (C6_startAR_outcomes firstInitSession trackersNotStarted (by decide) (by decide)).2.2.2.2.1⟩

/-- C6, as stated, fails. With the device tracker missing and the object tracker's
`start()` reporting failure, starting both trackers did not succeed, yet `startAR`
returns true; and on a controller that was never initialised, whose error callback is an
empty function object, a failing camera init makes `startAR` throw
`std::bad_function_call`: it returns neither true nor false, and no callback runs. -/
theorem C6_counterexample :
    (startAR firstInitSession trackersNotStarted).1 = .ok true ∧
    bothTrackersStarted trackersNotStarted.trackers = false ∧
    ¬ ((startAR firstInitSession trackersNotStarted).1 = .ok true ↔
      (trackersNotStarted.cameraInit = true ∧ trackersNotStarted.selectVideoMode = true ∧
        bothTrackersStarted trackersNotStarted.trackers = true ∧
        trackersNotStarted.cameraStart = true)) ∧
    Session.fresh.mCameraIsStarted = false ∧ Session.fresh.mCameraIsActive = false ∧
    startAR Session.fresh cameraInitFails =
      (.error Fault.badFunctionCall, Session.fresh,
        [Event.cameraInit, Event.showError none "Failed to initialize the camera"]) ∧
    (startAR Session.fresh cameraInitFails).1 ≠ .ok true ∧
    (startAR Session.fresh cameraInitFails).1 ≠ .ok false ∧
    (startAR Session.fresh cameraInitFails).2.2.countP Event.runsCallback = 0 := by
  have hthrow : (startAR Session.fresh cameraInitFails).1 = .error Fault.badFunctionCall :=
    rfl
  refine ⟨rfl, by decide, ?_, rfl, rfl, rfl, ?_, ?_, by decide⟩
  · intro h
    have h1 := h.mp rfl
    exact absurd h1.2.2.1 (by decide)
  · rw [hthrow]; simp
  · rw [hthrow]; simp

/-! ## `configureRendering`, `deinitAR`, `stopAR` -/

/-- C7: `configureRendering` returns false exactly when the camera-started flag is
false, and in that case it leaves the session (so the recorded orientation, the display
aspect ratio and the one-time render-setup flag) unchanged and makes no call at all;
whenever the flag is true, whether or not the camera is active, it returns true. -/
theorem C7_configureRendering_requires_started (env : Env) (s : Session)
    (width height orientation : Int) (o : RenderOutcome) :
    ((configureRendering env s width height orientation o).1 = false ↔
      s.mCameraIsStarted = false) ∧
    (s.mCameraIsStarted = false →
      configureRendering env s width height orientation o = (false, s, []) ∧
      (configureRendering env s width height orientation o).2.1.mOrientation
        = s.mOrientation ∧
      (configureRendering env s width height orientation o).2.1.mDisplayAspectRatio
        = s.mDisplayAspectRatio ∧
      (configureRendering env s width height orientation o).2.1.mDoneOneTimeRenderingConfiguration
        = s.mDoneOneTimeRenderingConfiguration ∧
      (∀ e ∈ (configureRendering env s width height orientation o).2.2,
        e.isEngineCall = false)) ∧
    (s.mCameraIsStarted = true →
      (configureRendering env s width height orientation o).1 = true) := by
  unfold configureRendering
  cases hs : s.mCameraIsStarted <;> simp

/-- C9, as stated, fails: `deinitAR` on the started session leaves `isCameraStarted()`
true and the camera-active flag set; and when the object tracker cannot be obtained the
recorded dataset stays, so that a following `initAR` cannot load one. -/
theorem C9_counterexample :
    isCameraStarted startedSession = true ∧
    isCameraStarted (deinitAR startedSession okUnload).1 = true ∧
    (deinitAR startedSession okUnload).1.mCameraIsActive = true ∧
    (deinitAR startedSession noTrackerUnload).1.mCurrentDataSet = some 5 ∧
    (loadTrackerData (deinitAR startedSession noTrackerUnload).1 okLoad).1 = .ok false :=
  ⟨by decide, by decide, by decide, by decide, rfl⟩

/-- C9, amended: after `deinitAR`, for every prior session state and every outcome of
the unload steps, the camera-started and camera-active flags are as they were before the
call (a following `initAR` resets them to false), the engine has been told of the pause,
both trackers destroyed and the engine shut down; and, when the object tracker is
available, no current dataset is recorded (`mCurrentDataSet` is null) whatever the
deactivate and destroy calls return, so that a following `initAR` can load a dataset. -/
theorem C9_deinitAR_effect (s : Session) (o : UnloadOutcome) :
    (deinitAR s o).1.mCameraIsStarted = s.mCameraIsStarted ∧
    (deinitAR s o).1.mCameraIsActive = s.mCameraIsActive ∧
    (∀ (env : Env) (initConfig : InitConfig) (target : Int) (io : InitOutcome)
        (completion : Except Fault Unit) (s1 : Session) (calls : List Event),
      initAR env (deinitAR s o).1 initConfig target io = some (completion, s1, calls) →
      s1.mCameraIsActive = false ∧ s1.mCameraIsStarted = false) ∧
    (deinitAR s o).2.head? = some Event.onPause ∧
    (deinitAR s o).2.getLast? = some Event.vuforiaDeinit ∧
    Event.deinitTracker TrackerType.object ∈ (deinitAR s o).2 ∧
    Event.deinitTracker TrackerType.positionalDevice ∈ (deinitAR s o).2 ∧
    (o.objectTracker = true →
      (deinitAR s o).1.mCurrentDataSet = none ∧
      (∀ (lo : LoadOutcome) (dataSet : DataSet),
        lo.objectTracker = true → lo.createDataSet = some dataSet → lo.load = true →
        lo.activate = true →
        (loadTrackerData (deinitAR s o).1 lo).1 = .ok true ∧
        (loadTrackerData (deinitAR s o).1 lo).2.1.mCurrentDataSet = some dataSet)) := by
  refine ⟨?_, ?_, ?_, ?_, ?_, ?_, ?_, ?_⟩
  · unfold deinitAR unloadTrackerData
    cases o.objectTracker <;> rfl
  · unfold deinitAR unloadTrackerData
    cases o.objectTracker <;> rfl
  · intro env initConfig target io completion s1 calls h
    exact initAR_flags env _ s1 initConfig target io completion calls h
  · unfold deinitAR
    simp
  · unfold deinitAR
    exact List.getLast?_concat _
  · unfold deinitAR deinitTrackers
    simp
  · unfold deinitAR deinitTrackers
    simp
  · intro ho
    have hd : (deinitAR s o).1.mCurrentDataSet = none := by
      unfold deinitAR unloadTrackerData
      simp [ho]
    refine ⟨hd, ?_⟩
    intro lo dataSet h1 h2 h3 h4
    unfold loadTrackerData loadAndActivateDataSet
    simp [hd, h1, h2, h3, h4]
    split <;> simp

/-- C10: `stopAR`, from every session state and for every outcome of its calls, leaves
the current dataset unchanged and clears both the camera-started and camera-active
flags, so that a following `startAR` is never rejected as "already started": it goes on
to initialise the camera and returns true whenever its own calls succeed. -/
theorem C10_stopAR_clears_flags (s : Session) (o : PauseOutcome) (so : StartOutcome) :
    (stopAR s o).1.mCurrentDataSet = s.mCurrentDataSet ∧
    (stopAR s o).1.mCameraIsStarted = false ∧
    (stopAR s o).1.mCameraIsActive = false ∧
    alreadyStartedLog ∉ (startAR (stopAR s o).1 so).2.2 ∧
    Event.cameraInit ∈ (startAR (stopAR s o).1 so).2.2 ∧
    ((startAR (stopAR s o).1 so).1 = .ok true ↔
      (so.cameraInit = true ∧ so.selectVideoMode = true ∧
        so.trackers.objectTracker.isSome = true ∧ so.cameraStart = true)) := by
  have h1 : (stopAR s o).1.mCurrentDataSet = s.mCurrentDataSet := by
    unfold stopAR; split <;> rfl
  have h2 : (stopAR s o).1.mCameraIsStarted = false := by
    unfold stopAR; split <;> rfl
  have h3 : (stopAR s o).1.mCameraIsActive = false := by
    unfold stopAR
    split
    · rfl
    · simp_all
  obtain ⟨h4, _, _, _, h5, h6⟩ := startAR_not_started (stopAR s o).1 so h2 h3
  refine ⟨h1, h2, h3, h5, h6, ?_⟩
  rw [h4]
  by_cases hc : (so.cameraInit && so.selectVideoMode && so.trackers.objectTracker.isSome
      && so.cameraStart) = true
  · rw [if_pos hc]
    simpa [Bool.and_eq_true, and_assoc] using hc
  · rw [if_neg hc]
    have hc1 : ¬ (so.cameraInit = true ∧ so.selectVideoMode = true ∧
        so.trackers.objectTracker.isSome = true ∧ so.cameraStart = true) := by
      simpa [Bool.and_eq_true, and_assoc] using hc
    cases (stopAR s o).1.mShowErrorCallback <;> simp [invokeThenReturn, hc1]


/-! ## Guide view, match and missing device result -/

/-- C14: for a guide image of aspect ratio 1.5 and a display aspect ratio of 1.777, and
for every positive near-plane height, `getModelTargetGuideView` takes the branch
`planeWidth = nearPlaneWidth`, `planeHeight = planeWidth / 1.5`, and the x component of
the normalised scale baked into the model-view matrix is exactly 2. -/
theorem C14_guide_view_scale (nearPlaneHeight : ℚ) (hPos : 0 < nearPlaneHeight) :
    guideViewPlane (3 / 2) (1777 / 1000) (nearPlaneHeight * (1777 / 1000)) nearPlaneHeight =
      (nearPlaneHeight * (1777 / 1000), nearPlaneHeight * (1777 / 1000) / (3 / 2)) ∧
    (guideViewScale (3 / 2) (1777 / 1000) nearPlaneHeight).1 = 2 ∧
    (∀ {M : Type} (ops : MathOps M) (s : Session) (target : ModelTarget)
        (guideView : GuideView) (rest : List GuideView) (calibration : CameraCalibration)
        (projectionMatrix modelViewMatrix : M) (guideViewImage : Option Image),
      s.mGuideViewModelTarget = some target →
      target.guideViews = guideView :: rest →
      s.mVuforiaState.cameraCalibration = some calibration →
      (guideView.image.width : ℚ) / (guideView.image.height : ℚ) = 3 / 2 →
      s.mDisplayAspectRatio = 1777 / 1000 →
      1 * (1 / 100) * ops.tanf (calibration.fieldOfViewRads.2 * (1 / 2)) = nearPlaneHeight →
      getModelTargetGuideView ops s projectionMatrix modelViewMatrix guideViewImage =
        (true, ops.Matrix44FIdentity,
          ops.Matrix44FScale
            { x := 2, y := (guideViewScale (3 / 2) (1777 / 1000) nearPlaneHeight).2, z := 1 }
            ops.Matrix44FIdentity,
          some guideView.image)) := by
  have hne : nearPlaneHeight ≠ 0 := ne_of_gt hPos
  have hplane : guideViewPlane (3 / 2) (1777 / 1000) (nearPlaneHeight * (1777 / 1000))
      nearPlaneHeight =
      (nearPlaneHeight * (1777 / 1000), nearPlaneHeight * (1777 / 1000) / (3 / 2)) := by
    unfold guideViewPlane
    rw [if_pos (by norm_num)]
  have hscale : (guideViewScale (3 / 2) (1777 / 1000) nearPlaneHeight).1 = 2 := by
    unfold guideViewScale
    simp only [hplane]
    field_simp
  refine ⟨hplane, hscale, ?_⟩
  intro M ops s target guideView rest calibration pm mv img hg hv hc hi hd hn
  unfold getModelTargetGuideView
  simp only [hg, hv, hc, hi, hd, hn, hscale]

/-- C14 at the near-plane height 1/100. -/
theorem C14_guide_view_scale_witness :
    guideViewPlane (3 / 2) (1777 / 1000) (1 / 100 * (1777 / 1000)) (1 / 100) =
      (1 / 100 * (1777 / 1000), 1 / 100 * (1777 / 1000) / (3 / 2)) ∧
    (guideViewScale (3 / 2) (1777 / 1000) (1 / 100)).1 = 2 :=
  ⟨(C14_guide_view_scale (1 / 100) (by norm_num)).1,
   (C14_guide_view_scale (1 / 100) (by norm_num)).2.1⟩

/-- When the scan of `getModelTargetResult` reports a match, the guide-view candidate is
null. -/
theorem getModelTargetResultLoop_true_guide {M : Type} (ops : MathOps M) :
    ∀ (results : List TrackableResult) (s s1 : Session) (out out1 : TargetMatrices M),
      getModelTargetResultLoop ops results s out = .ok (true, s1, out1) →
      s1.mGuideViewModelTarget = none := by
  intro results
  induction results with
  | nil =>
    intro s s1 out out1 h
    rw [getModelTargetResultLoop] at h
    simp at h
  | cons a rest ih =>
    intro s s1 out out1 h
    rw [getModelTargetResultLoop] at h
    cases ht : a.trackable with
    | modelTarget t =>
      simp only [ht] at h
      split at h
      · split at h
        · split at h
          · exact ih _ _ _ _ h
          · exact ih _ _ _ _ h
        · split at h
          · exact absurd h (by simp)
          · simp only [Except.ok.injEq, Prod.mk.injEq] at h
            rw [← h.2.1]; rfl
      · exact ih _ _ _ _ h
    | imageTarget t =>
      simp only [ht] at h
      exact ih _ _ _ _ h
    | other =>
      simp only [ht] at h
      exact ih _ _ _ _ h

/-- With a null guide-view candidate `getModelTargetGuideView` returns false. -/
theorem getModelTargetGuideView_null {M : Type} (ops : MathOps M) (s : Session)
    (h : s.mGuideViewModelTarget = none) (projectionMatrix modelViewMatrix : M)
    (guideViewImage : Option Image) :
    getModelTargetGuideView ops s projectionMatrix modelViewMatrix guideViewImage =
      (false, projectionMatrix, modelViewMatrix, guideViewImage) := by
  unfold getModelTargetGuideView
  rw [h]

/-- C15: for every session state and every snapshot, whenever `getModelTargetResult`
returns true the guide-view candidate is null on return, so that a
`getModelTargetGuideView` call made after it in the same frame returns false: the two
never both return true. -/
theorem C15_match_excludes_guide_view {M : Type} (ops : MathOps M) (s s1 : Session)
    (out out1 : TargetMatrices M)
    (h : getModelTargetResult ops s out = .ok (true, s1, out1)) :
    s1.mGuideViewModelTarget = none ∧
    (∀ (projectionMatrix modelViewMatrix : M) (guideViewImage : Option Image),
      (getModelTargetGuideView ops s1 projectionMatrix modelViewMatrix guideViewImage).1
        = false) := by
  have hg := getModelTargetResultLoop_true_guide ops _ s s1 out out1 h
  refine ⟨hg, ?_⟩
  intro pm mv img
  rw [getModelTargetGuideView_null ops s1 hg]

/-- C15 on the frame "guidance, then tracked" of a fresh model-target session. -/
theorem C15_match_excludes_guide_view_witness :
    ((modelFrame guidanceThenPosedSnapshot).withGuide none).mGuideViewModelTarget = none ∧
    (getModelTargetGuideView symbolicOps ((modelFrame guidanceThenPosedSnapshot).withGuide none)
      MatExpr.identity MatExpr.identity none).1 = false :=
  ⟨(C15_match_excludes_guide_view symbolicOps (modelFrame guidanceThenPosedSnapshot)
      ((modelFrame guidanceThenPosedSnapshot).withGuide none) identityMatrices _ rfl).1,
   (C15_match_excludes_guide_view symbolicOps (modelFrame guidanceThenPosedSnapshot)
      ((modelFrame guidanceThenPosedSnapshot).withGuide none) identityMatrices _ rfl).2
      MatExpr.identity MatExpr.identity none⟩

/-- C16 fails on the code: on a snapshot that holds a tracked image target (or a tracked
model target) but no device/origin result, `getImageTargetResult` (line 388) and
`getModelTargetResult` (line 442) dereference the null device/origin result, whereas
`getOrigin` tests it for null and returns false. -/
theorem C16_missing_device_result_faults :
    noDeviceImageSnapshot.deviceTrackableResult = none ∧
    getImageTargetResult symbolicOps (imageFrame noDeviceImageSnapshot) identityMatrices
      = .error Fault.nullDereference ∧
    noDeviceSnapshot.deviceTrackableResult = none ∧
    getModelTargetResult symbolicOps (modelFrame noDeviceSnapshot) identityMatrices
      = .error Fault.nullDereference ∧
    getOrigin symbolicOps (imageFrame noDeviceImageSnapshot) MatExpr.identity MatExpr.identity
      = .ok (false, MatExpr.identity, MatExpr.identity) :=
  ⟨rfl, rfl, rfl, rfl, rfl⟩

/-! ## `pauseAR` twice, `resumeAR` -/

/-- What `stopTrackers` does: it stops each tracker the tracker manager returns, and
touches neither the camera nor the engine's pause state. -/
theorem stopTrackers_spec (o : TrackersOutcome) :
    (Event.trackerStop TrackerType.object ∈ stopTrackers o ↔ o.objectTracker.isSome = true) ∧
    (Event.trackerStop TrackerType.positionalDevice ∈ stopTrackers o ↔
      o.deviceTracker.isSome = true) ∧
    Event.cameraStop ∉ stopTrackers o ∧ Event.cameraDeinit ∉ stopTrackers o ∧
    Event.onPause ∉ stopTrackers o := by
  unfold stopTrackers
  cases o.objectTracker <;> cases o.deviceTracker <;> simp

/-- C17, as stated, fails: on a controller whose tracker manager has no tracker (as
before `initAR` or after `deinitAR`), `pauseAR` stops no tracker; it only logs that the
trackers could not be obtained and notifies the engine of the pause. -/
theorem C17_counterexample :
    Event.trackerStop TrackerType.object ∉ (pauseAR Session.fresh noTrackersPause).2 ∧
    Event.trackerStop TrackerType.positionalDevice ∉
      (pauseAR Session.fresh noTrackersPause).2 ∧
    (pauseAR Session.fresh noTrackersPause).2 =
      [Event.getTracker TrackerType.object,
       Event.log "Error: Failed to get the ObjectTracker from the tracker manager",
       Event.getTracker TrackerType.positionalDevice,
       Event.log "Error: Failed to get the PositionalDeviceTracker from the tracker manager",
       Event.onPause] := by
  decide

/-- C17, amended: `pauseAR` is idempotent on the session: for every session state and
every outcome of its calls, the session after `pauseAR` followed by `pauseAR` equals the
one after a single `pauseAR` (camera-active false, camera-started unchanged), the second
call issues no camera stop or deinit, and each call still runs `stopTrackers`, which
stops each tracker that the tracker manager returns, and then notifies the engine of the
pause. -/
theorem C17_pauseAR_idempotent (s : Session) (o1 o2 : PauseOutcome) :
    (pauseAR (pauseAR s o1).1 o2).1 = (pauseAR s o1).1 ∧
    (pauseAR s o1).1.mCameraIsActive = false ∧
    (pauseAR s o1).1.mCameraIsStarted = s.mCameraIsStarted ∧
    Event.cameraStop ∉ (pauseAR (pauseAR s o1).1 o2).2 ∧
    Event.cameraDeinit ∉ (pauseAR (pauseAR s o1).1 o2).2 ∧
    (pauseAR (pauseAR s o1).1 o2).2 = stopTrackers o2.trackers ++ [Event.onPause] ∧
    (∃ (before after : List Event),
      (pauseAR s o1).2 = before ++ (stopTrackers o1.trackers ++ [Event.onPause]) ++ after ∧
      (∀ e ∈ before, e = Event.cameraStop ∨ e = Event.cameraDeinit) ∧
      (∀ e ∈ after, ∃ msg, e = Event.log msg)) ∧
    (∀ (t : TrackersOutcome),
      (Event.trackerStop TrackerType.object ∈ stopTrackers t ↔ t.objectTracker.isSome = true) ∧
      (Event.trackerStop TrackerType.positionalDevice ∈ stopTrackers t ↔
        t.deviceTracker.isSome = true)) := by
  have ha := pauseAR_mCameraIsActive s o1
  have h2 : pauseAR (pauseAR s o1).1 o2 =
      ((pauseAR s o1).1, stopTrackers o2.trackers ++ [Event.onPause]) := by
    generalize (pauseAR s o1).1 = s1 at ha
    unfold pauseAR
    rw [if_neg (by rw [ha]; simp)]
  obtain ⟨_, _, h3, h4, _⟩ := stopTrackers_spec o2.trackers
  refine ⟨by rw [h2], ha, pauseAR_mCameraIsStarted s o1, ?_, ?_, by rw [h2], ?_, ?_⟩
  · rw [h2]; simp [h3]
  · rw [h2]; simp [h4]
  · unfold pauseAR
    split
    · refine ⟨[Event.cameraStop, Event.cameraDeinit],
        (if (!(o1.cameraStop && o1.cameraDeinit)) = true then
          [Event.log ("Error pausing AR: " ++
            (if (!o1.cameraDeinit) = true then "Error de-initializing the camera"
             else if (!o1.cameraStop) = true then "Error stopping the camera" else ""))]
         else []), ?_, ?_, ?_⟩
      · simp
      · intro e he; simpa using he
      · intro e he
        split at he
        · exact ⟨_, by simpa using he⟩
        · simp at he
    · exact ⟨[], [], by simp, by simp, by simp⟩
  · intro t
    exact ⟨(stopTrackers_spec t).1, (stopTrackers_spec t).2.1⟩

/-- Starting the trackers touches neither the camera nor the rendering primitives. -/
theorem startTrackers_calls (o : TrackersOutcome) :
    Event.cameraInit ∉ (startTrackers o).2 ∧ Event.cameraStart ∉ (startTrackers o).2 ∧
    Event.getRenderingPrimitives ∉ (startTrackers o).2 := by
  unfold startTrackers
  cases o.deviceTracker <;> cases o.objectTracker <;> simp

/-- C18: `resumeAR` attempts to re-initialise and restart the camera exactly when the
camera-started flag is true and the camera-active flag is false (the restart following
a successful init); it sets camera-active to true exactly when that attempt's camera
init and camera start both succeed, and leaves it unchanged otherwise; and it refreshes
the cached rendering-primitive set exactly when the camera-started flag is true, whether
or not the camera restart succeeded. -/
theorem C18_resumeAR_restart (s : Session) (o : ResumeOutcome) :
    (Event.cameraInit ∈ (resumeAR s o).2 ↔
      (s.mCameraIsStarted = true ∧ s.mCameraIsActive = false)) ∧
    (Event.cameraStart ∈ (resumeAR s o).2 ↔
      (s.mCameraIsStarted = true ∧ s.mCameraIsActive = false ∧ o.cameraInit = true)) ∧
    (resumeAR s o).1.mCameraIsActive =
      (if s.mCameraIsStarted = true ∧ s.mCameraIsActive = false ∧ o.cameraInit = true ∧
          o.cameraStart = true then true
       else s.mCameraIsActive) ∧
    (Event.getRenderingPrimitives ∈ (resumeAR s o).2 ↔ s.mCameraIsStarted = true) ∧
    (resumeAR s o).1.mCurrentRenderingPrimitives =
      (if s.mCameraIsStarted = true then some o.primitives
       else s.mCurrentRenderingPrimitives) := by
  obtain ⟨h1, h2, h3⟩ := startTrackers_calls o.trackers
  unfold resumeAR updateRenderingPrimitives
  cases hs : s.mCameraIsStarted <;> cases ha : s.mCameraIsActive <;> cases o.cameraInit <;>
    cases o.cameraStart <;> simp [hs, ha, h1, h2, h3]


/-! ## The one-time "surface created" notification -/

/-- The tracker helpers never send the "surface created" notification. -/
theorem trackers_no_surfaceCreated (o : TrackersOutcome) :
    Event.onSurfaceCreated ∉ (startTrackers o).2 ∧ Event.onSurfaceCreated ∉ stopTrackers o := by
  unfold startTrackers stopTrackers
  cases o.deviceTracker <;> cases o.objectTracker <;> simp

/-- `startAR` neither sends the "surface created" notification nor touches the one-time
flag. -/
theorem startAR_surfaceCreated (s : Session) (o : StartOutcome) :
    Event.onSurfaceCreated ∉ (startAR s o).2.2 ∧
    (startAR s o).2.1.mDoneOneTimeRenderingConfiguration
      = s.mDoneOneTimeRenderingConfiguration := by
  have h := (trackers_no_surfaceCreated o.trackers).1
  unfold startAR
  cases hg : (s.mCameraIsStarted || s.mCameraIsActive) <;> cases hci : o.cameraInit <;>
    cases hsv : o.selectVideoMode <;> cases ht : (startTrackers o.trackers).1 <;>
    cases hcs : o.cameraStart <;> cases hsf : o.setFocusMode <;>
    simp [hg, hci, hsv, ht, hcs, hsf, h]

/-- `pauseAR` neither sends the "surface created" notification nor touches the one-time
flag. -/
theorem pauseAR_surfaceCreated (s : Session) (o : PauseOutcome) :
    Event.onSurfaceCreated ∉ (pauseAR s o).2 ∧
    (pauseAR s o).1.mDoneOneTimeRenderingConfiguration
      = s.mDoneOneTimeRenderingConfiguration := by
  have h := (trackers_no_surfaceCreated o.trackers).2
  unfold pauseAR
  split_ifs <;> simp [h]

/-- `resumeAR` neither sends the "surface created" notification nor touches the one-time
flag. -/
theorem resumeAR_surfaceCreated (s : Session) (o : ResumeOutcome) :
    Event.onSurfaceCreated ∉ (resumeAR s o).2 ∧
    (resumeAR s o).1.mDoneOneTimeRenderingConfiguration
      = s.mDoneOneTimeRenderingConfiguration := by
  have h := (trackers_no_surfaceCreated o.trackers).1
  unfold resumeAR updateRenderingPrimitives
  cases hs : s.mCameraIsStarted <;> cases ha : s.mCameraIsActive <;> cases o.cameraInit <;>
    cases o.cameraStart <;> simp [hs, ha, h]

/-- `stopAR` neither sends the "surface created" notification nor touches the one-time
flag. -/
theorem stopAR_surfaceCreated (s : Session) (o : PauseOutcome) :
    Event.onSurfaceCreated ∉ (stopAR s o).2 ∧
    (stopAR s o).1.mDoneOneTimeRenderingConfiguration
      = s.mDoneOneTimeRenderingConfiguration := by
  have h := (trackers_no_surfaceCreated o.trackers).2
  unfold stopAR
  split_ifs <;> simp [h]

/-- `deinitAR` neither sends the "surface created" notification nor touches the one-time
flag. -/
theorem deinitAR_surfaceCreated (s : Session) (o : UnloadOutcome) :
    Event.onSurfaceCreated ∉ (deinitAR s o).2 ∧
    (deinitAR s o).1.mDoneOneTimeRenderingConfiguration
      = s.mDoneOneTimeRenderingConfiguration := by
  unfold deinitAR unloadTrackerData deinitTrackers
  cases o.objectTracker <;> cases o.deactivate <;> cases o.destroy <;> simp

/-- `configureRendering` sends the "surface created" notification exactly when it
returns true while the one-time flag is false, and then sets the flag. -/
theorem configureRendering_surfaceCreated (env : Env) (s : Session)
    (width height orientation : Int) (o : RenderOutcome) :
    (configureRendering env s width height orientation o).2.2.count Event.onSurfaceCreated =
      (if (configureRendering env s width height orientation o).1 = true ∧
          s.mDoneOneTimeRenderingConfiguration = false then 1 else 0) ∧
    (configureRendering env s width height orientation o).2.1.mDoneOneTimeRenderingConfiguration
      = ((configureRendering env s width height orientation o).1 ||
          s.mDoneOneTimeRenderingConfiguration) := by
  have hor : (setVuforiaOrientation env.platform orientation).count Event.onSurfaceCreated
      = 0 := by
    rw [List.count_eq_zero]
    unfold setVuforiaOrientation
    cases env.platform
    · simp
    · simp only []
      split_ifs <;> simp
    · simp only []
      split_ifs <;> simp
  unfold configureRendering configureVideoBackground updateRenderingPrimitives
  cases hs : s.mCameraIsStarted <;> cases hd : s.mDoneOneTimeRenderingConfiguration
  · simp [hd]
  · simp [hd]
  · simp only [Bool.not_true, Bool.false_eq_true, if_false, Bool.not_false, if_true,
      List.count_append, hor]
    split <;> simp
  · simp only [Bool.not_true, Bool.false_eq_true, if_false, Bool.not_false, if_true,
      List.count_append, hor]
    split <;> simp

/-- One call: the "surface created" notification is sent exactly when the call is a
`configureRendering` that returns true while the one-time flag is false; the flag is set
by such a call and otherwise keeps its value. -/
theorem applyCall_surfaceCreated (env : Env) (s : Session) (c : LifecycleCall) :
    (applyCall env s c).2.count Event.onSurfaceCreated =
      (if isSuccessfulConfigure env s c = true ∧
          s.mDoneOneTimeRenderingConfiguration = false then 1 else 0) ∧
    (applyCall env s c).1.mDoneOneTimeRenderingConfiguration =
      (isSuccessfulConfigure env s c || s.mDoneOneTimeRenderingConfiguration) := by
  cases c with
  | startAR o =>
    obtain ⟨h1, h2⟩ := startAR_surfaceCreated s o
    exact ⟨by simpa [applyCall, isSuccessfulConfigure] using List.count_eq_zero.mpr h1,
      by simpa [applyCall, isSuccessfulConfigure] using h2⟩
  | pauseAR o =>
    obtain ⟨h1, h2⟩ := pauseAR_surfaceCreated s o
    exact ⟨by simpa [applyCall, isSuccessfulConfigure] using List.count_eq_zero.mpr h1,
      by simpa [applyCall, isSuccessfulConfigure] using h2⟩
  | resumeAR o =>
    obtain ⟨h1, h2⟩ := resumeAR_surfaceCreated s o
    exact ⟨by simpa [applyCall, isSuccessfulConfigure] using List.count_eq_zero.mpr h1,
      by simpa [applyCall, isSuccessfulConfigure] using h2⟩
  | stopAR o =>
    obtain ⟨h1, h2⟩ := stopAR_surfaceCreated s o
    exact ⟨by simpa [applyCall, isSuccessfulConfigure] using List.count_eq_zero.mpr h1,
      by simpa [applyCall, isSuccessfulConfigure] using h2⟩
  | deinitAR o =>
    obtain ⟨h1, h2⟩ := deinitAR_surfaceCreated s o
    exact ⟨by simpa [applyCall, isSuccessfulConfigure] using List.count_eq_zero.mpr h1,
      by simpa [applyCall, isSuccessfulConfigure] using h2⟩
  | configureRendering width height orientation o =>
    exact configureRendering_surfaceCreated env s width height orientation o

/-- A sequence of calls sends the "surface created" notification once when one of its
`configureRendering` calls returns true while the one-time flag is still false, and not
at all otherwise; the flag is then set. -/
theorem runCalls_surfaceCreated (env : Env) :
    ∀ (calls : List LifecycleCall) (s : Session),
      (runCalls env s calls).2.count Event.onSurfaceCreated =
        (if anyConfigureSucceeds env s calls = true ∧
            s.mDoneOneTimeRenderingConfiguration = false then 1 else 0) ∧
      (runCalls env s calls).1.mDoneOneTimeRenderingConfiguration =
        (anyConfigureSucceeds env s calls || s.mDoneOneTimeRenderingConfiguration) := by
  intro calls
  induction calls with
  | nil => intro s; simp [runCalls, anyConfigureSucceeds]
  | cons c cs ih =>
    intro s
    obtain ⟨h1, h2⟩ := applyCall_surfaceCreated env s c
    obtain ⟨h3, h4⟩ := ih (applyCall env s c).1
    rw [runCalls, anyConfigureSucceeds]
    simp only [List.count_append, h1, h3, h4, h2]
    cases isSuccessfulConfigure env s c <;>
      cases anyConfigureSucceeds env (applyCall env s c).1 cs <;>
      cases s.mDoneOneTimeRenderingConfiguration <;> simp

/-- Running a sequence in two parts. -/
theorem runCalls_append (env : Env) :
    ∀ (before after : List LifecycleCall) (s : Session),
      runCalls env s (before ++ after) =
        ((runCalls env (runCalls env s before).1 after).1,
         (runCalls env s before).2 ++ (runCalls env (runCalls env s before).1 after).2) := by
  intro before
  induction before with
  | nil => intro after s; simp [runCalls]
  | cons c cs ih =>
    intro after s
    rw [List.cons_append, runCalls, ih after (applyCall env s c).1, runCalls]
    simp

/-- C19: in every sequence of lifecycle and `configureRendering` calls that follows one
`initAR` and contains no further `initAR`, the "surface created" notification is sent to
the engine at most once, namely during the first `configureRendering` call that returns
true; the calls before it and all later calls, also successful `configureRendering`
calls after `stopAR` followed by `startAR`, do not send it. -/
theorem C19_surface_created_once (env : Env) (s0 s1 : Session) (initConfig : InitConfig)
    (target : Int) (io : InitOutcome) (completion : Except Fault Unit)
    (initCalls : List Event)
    (hInit : initAR env s0 initConfig target io = some (completion, s1, initCalls))
    (calls : List LifecycleCall) :
    Event.onSurfaceCreated ∉ initCalls ∧
    (runCalls env s1 calls).2.count Event.onSurfaceCreated ≤ 1 ∧
    (runCalls env s1 calls).2.count Event.onSurfaceCreated =
      (if anyConfigureSucceeds env s1 calls = true then 1 else 0) ∧
    (∀ (before after : List LifecycleCall) (c : LifecycleCall),
      calls = before ++ c :: after →
      anyConfigureSucceeds env s1 before = false →
      isSuccessfulConfigure env (runCalls env s1 before).1 c = true →
      (runCalls env s1 before).2.count Event.onSurfaceCreated = 0 ∧
      (applyCall env (runCalls env s1 before).1 c).2.count Event.onSurfaceCreated = 1 ∧
      (runCalls env (applyCall env (runCalls env s1 before).1 c).1 after).2.count
        Event.onSurfaceCreated = 0) := by
  obtain ⟨⟨d, hs1⟩, hnone⟩ :=
    initAR_session env s0 s1 initConfig target io completion initCalls hInit
  have hflag : s1.mDoneOneTimeRenderingConfiguration = false := by rw [hs1]; rfl
  have hcount := (runCalls_surfaceCreated env calls s1).1
  rw [hflag] at hcount
  simp only [and_true] at hcount
  refine ⟨hnone, ?_, hcount, ?_⟩
  · rw [hcount]; split <;> simp
  · intro before after c _ hb hc
    obtain ⟨h1, h2⟩ := runCalls_surfaceCreated env before s1
    rw [hflag, hb] at h1 h2
    obtain ⟨h3, h4⟩ := applyCall_surfaceCreated env (runCalls env s1 before).1 c
    rw [h2, hc] at h3 h4
    obtain ⟨h5, _⟩ :=
      runCalls_surfaceCreated env after (applyCall env (runCalls env s1 before).1 c).1
    rw [h4] at h5
    refine ⟨by simpa using h1, by simpa using h3, by simpa using h5⟩

/-- C19 on "start, configure, stop, start, configure" after a first `initAR`. -/
theorem C19_surface_created_once_witness :
    Event.onSurfaceCreated ∉ firstInitCalls ∧
    (runCalls androidEnv firstInitSession restartCalls).2.count Event.onSurfaceCreated ≤ 1 ∧
    (runCalls androidEnv firstInitSession restartCalls).2.count Event.onSurfaceCreated =
      (if anyConfigureSucceeds androidEnv firstInitSession restartCalls = true then 1
       else 0) ∧
    (∀ (before after : List LifecycleCall) (c : LifecycleCall),
      restartCalls = before ++ c :: after →
      anyConfigureSucceeds androidEnv firstInitSession before = false →
      isSuccessfulConfigure androidEnv (runCalls androidEnv firstInitSession before).1 c
        = true →
      (runCalls androidEnv firstInitSession before).2.count Event.onSurfaceCreated = 0 ∧
      (applyCall androidEnv (runCalls androidEnv firstInitSession before).1 c).2.count
        Event.onSurfaceCreated = 1 ∧
      (runCalls androidEnv
        (applyCall androidEnv (runCalls androidEnv firstInitSession before).1 c).1
        after).2.count Event.onSurfaceCreated = 0) :=
  C19_surface_created_once androidEnv Session.fresh firstInitSession firstConfig
    IMAGE_TARGET_ID okInit (.ok ()) firstInitCalls rfl restartCalls


/-! ## Engine-initialisation error messages -/

/-- With pairwise distinct codes, each named code selects its own case of the `switch`.
-/
theorem initErrorMessage_named (codes : InitCodes) (hDistinct : (namedCodes codes).Nodup) :
    initErrorMessage codes codes.INIT_NO_CAMERA_ACCESS =
      "Vuforia cannot initialize because access to the camera was denied." ∧
    initErrorMessage codes codes.INIT_LICENSE_ERROR_NO_NETWORK_TRANSIENT =
      "Vuforia failed to initialize because the license check encountered a temporary network error." ∧
    initErrorMessage codes codes.INIT_LICENSE_ERROR_NO_NETWORK_PERMANENT =
      "Vuforia failed to initialize because the license check encountered a permanent network error." ∧
    initErrorMessage codes codes.INIT_LICENSE_ERROR_INVALID_KEY =
      "Vuforia failed to initialize because the license key is invalid." ∧
    initErrorMessage codes codes.INIT_LICENSE_ERROR_CANCELED_KEY =
      "Vuforia failed to initialize because the license key was cancelled." ∧
    initErrorMessage codes codes.INIT_LICENSE_ERROR_MISSING_KEY =
      "Vuforia failed to initialize because the license key was missing." ∧
    initErrorMessage codes codes.INIT_LICENSE_ERROR_PRODUCT_TYPE_MISMATCH =
      "Vuforia failed to initialize because the license key is for the wrong product type." ∧
    initErrorMessage codes codes.INIT_DEVICE_NOT_SUPPORTED =
      "Vuforia failed to initialize because the device is not supported." := by
  simp only [namedCodes, List.nodup_cons, List.mem_cons, List.mem_singleton, not_or,
    List.not_mem_nil, not_false_eq_true, List.nodup_nil, and_true] at hDistinct
  obtain ⟨⟨h12, h13, h14, h15, h16, h17, h18⟩, ⟨h23, h24, h25, h26, h27, h28⟩,
    ⟨h34, h35, h36, h37, h38⟩, ⟨h45, h46, h47, h48⟩, ⟨h56, h57, h58⟩, ⟨h67, h68⟩, h78⟩ :=
    hDistinct
  unfold initErrorMessage
  refine ⟨?_, ?_, ?_, ?_, ?_, ?_, ?_, ?_⟩
  · rw [if_pos rfl]
  · rw [if_neg (Ne.symm h12), if_pos rfl]
  · rw [if_neg (Ne.symm h13), if_neg (Ne.symm h23), if_pos rfl]
  · rw [if_neg (Ne.symm h14), if_neg (Ne.symm h24), if_neg (Ne.symm h34), if_pos rfl]
  · rw [if_neg (Ne.symm h15), if_neg (Ne.symm h25), if_neg (Ne.symm h35),
      if_neg (Ne.symm h45), if_pos rfl]
  · rw [if_neg (Ne.symm h16), if_neg (Ne.symm h26), if_neg (Ne.symm h36),
      if_neg (Ne.symm h46), if_neg (Ne.symm h56), if_pos rfl]
  · rw [if_neg (Ne.symm h17), if_neg (Ne.symm h27), if_neg (Ne.symm h37),
      if_neg (Ne.symm h47), if_neg (Ne.symm h57), if_neg (Ne.symm h67), if_pos rfl]
  · rw [if_neg (Ne.symm h18), if_neg (Ne.symm h28), if_neg (Ne.symm h38),
      if_neg (Ne.symm h48), if_neg (Ne.symm h58), if_neg (Ne.symm h68),
      if_neg (Ne.symm h78), if_pos rfl]

/-- A code that is none of the eight named ones falls to the `default` case. -/
theorem initErrorMessage_other (codes : InitCodes) (progress : Int)
    (h : progress ∉ namedCodes codes) :
    initErrorMessage codes progress = unknownInitMessage := by
  simp only [namedCodes, List.mem_cons, List.mem_singleton, not_or, List.not_mem_nil,
    or_false] at h
  obtain ⟨h1, h2, h3, h4, h5, h6, h7, h8⟩ := h
  unfold initErrorMessage unknownInitMessage
  rw [if_neg h1, if_neg h2, if_neg h3, if_neg h4, if_neg h5, if_neg h6, if_neg h7, if_neg h8]

/-- A failed engine bring-up passes the message of its terminal code to the error
callback. -/
theorem initVuforiaInternal_failure (env : Env) (s : Session) (appData : Nat)
    (progress : List Int) (code : Int) (calls : List Event)
    (hp : initPoll 0 progress = some (code, calls)) (hc : code ≠ 100) :
    initVuforiaInternal env s appData progress =
      some (invokeThenReturn s.mShowErrorCallback false,
        setInitParametersEvent env.platform s appData :: calls ++
        [Event.showError s.mShowErrorCallback (initErrorMessage env.codes code)]) := by
  unfold initVuforiaInternal
  rw [hp]
  dsimp only
  rw [if_neg hc]

/-- C20: the eight codes being pairwise distinct (as the case labels of the `switch`
are), the mapping from a terminal engine-initialisation code to the message passed to the
error callback is injective on the eight named failure codes, and every other code
(100 never reaches the `switch`) maps to the one "unknown" message, which differs from
the messages of all eight. -/
theorem C20_init_messages_distinct (codes : InitCodes)
    (hDistinct : (namedCodes codes).Nodup) :
    (∀ a ∈ namedCodes codes, ∀ b ∈ namedCodes codes,
      initErrorMessage codes a = initErrorMessage codes b → a = b) ∧
    (∀ p, p ∉ namedCodes codes → initErrorMessage codes p = unknownInitMessage) ∧
    (∀ a ∈ namedCodes codes, initErrorMessage codes a ≠ unknownInitMessage) ∧
    (∀ (platform : Platform) (s : Session) (appData : Nat) (progress : List Int) (code : Int)
        (calls : List Event),
      initPoll 0 progress = some (code, calls) → code ≠ 100 →
      initVuforiaInternal { platform := platform, codes := codes } s appData progress =
        some (invokeThenReturn s.mShowErrorCallback false,
          setInitParametersEvent platform s appData :: calls ++
          [Event.showError s.mShowErrorCallback (initErrorMessage codes code)])) := by
  obtain ⟨m1, m2, m3, m4, m5, m6, m7, m8⟩ := initErrorMessage_named codes hDistinct
  refine ⟨?_, initErrorMessage_other codes, ?_, ?_⟩
  · intro a ha b hb hab
    simp only [namedCodes, List.mem_cons, List.mem_singleton, List.not_mem_nil,
      or_false] at ha hb
    rcases ha with rfl | rfl | rfl | rfl | rfl | rfl | rfl | rfl <;>
      rcases hb with rfl | rfl | rfl | rfl | rfl | rfl | rfl | rfl <;>
      first
        | rfl
        | (simp only [m1, m2, m3, m4, m5, m6, m7, m8] at hab
           exact absurd hab (by decide))
  · intro a ha
    simp only [namedCodes, List.mem_cons, List.mem_singleton, List.not_mem_nil,
      or_false] at ha
    rcases ha with rfl | rfl | rfl | rfl | rfl | rfl | rfl | rfl <;>
      simp only [m1, m2, m3, m4, m5, m6, m7, m8, unknownInitMessage] <;> decide
  · intro platform s appData progress code calls hp hc
    exact initVuforiaInternal_failure { platform := platform, codes := codes } s appData
      progress code calls hp hc

/-- C20 for the values the engine's headers give the eight codes. -/
theorem C20_init_messages_distinct_witness :
    (∀ a ∈ namedCodes vuforiaCodes, ∀ b ∈ namedCodes vuforiaCodes,
      initErrorMessage vuforiaCodes a = initErrorMessage vuforiaCodes b → a = b) ∧
    (∀ p, p ∉ namedCodes vuforiaCodes → initErrorMessage vuforiaCodes p = unknownInitMessage) ∧
    (∀ a ∈ namedCodes vuforiaCodes, initErrorMessage vuforiaCodes a ≠ unknownInitMessage) ∧
    (∀ (platform : Platform) (s : Session) (appData : Nat) (progress : List Int) (code : Int)
        (calls : List Event),
      initPoll 0 progress = some (code, calls) → code ≠ 100 →
      initVuforiaInternal { platform := platform, codes := vuforiaCodes } s appData progress =
        some (invokeThenReturn s.mShowErrorCallback false,
          setInitParametersEvent platform s appData :: calls ++
          [Event.showError s.mShowErrorCallback (initErrorMessage vuforiaCodes code)])) :=
  C20_init_messages_distinct vuforiaCodes (by decide)


/-! ## Dataset guard and transposition -/

/-- C21, amended: `loadTrackerData` called while a dataset is already recorded as loaded
never returns true: it leaves the session, and with it the recorded dataset, unchanged
and makes no call to the object tracker (no dataset is created, loaded or activated), so
the session goes on holding the one dataset it had; its only action is one invocation of
the error callback, after which it returns false when that callback is not empty, whereas
the invocation of an empty callback throws `std::bad_function_call` and nothing is
returned. -/
theorem C21_loadTrackerData_guard (s : Session) (o : LoadOutcome) (dataSet : DataSet)
    (hLoaded : s.mCurrentDataSet = some dataSet) :
    loadTrackerData s o = (invokeThenReturn s.mShowErrorCallback false, s,
      [Event.showError s.mShowErrorCallback
        "Attempt to load a dataset when one is already loaded"]) ∧
    (loadTrackerData s o).1 ≠ .ok true ∧
    (s.mShowErrorCallback ≠ none → (loadTrackerData s o).1 = .ok false) ∧
    (s.mShowErrorCallback = none →
      (loadTrackerData s o).1 = .error Fault.badFunctionCall) ∧
    (loadTrackerData s o).2.1 = s ∧
    (loadTrackerData s o).2.1.mCurrentDataSet = some dataSet ∧
    (∀ e ∈ (loadTrackerData s o).2.2, e.isEngineCall = false) ∧
    Event.getTracker TrackerType.object ∉ (loadTrackerData s o).2.2 ∧
    Event.createDataSet ∉ (loadTrackerData s o).2.2 ∧
    (∀ (d : DataSet) (path : String), Event.dataSetLoad d path ∉ (loadTrackerData s o).2.2) ∧
    (∀ (d : DataSet), Event.activateDataSet d ∉ (loadTrackerData s o).2.2) := by
  have h := loadTrackerData_loaded s o (by rw [hLoaded]; simp)
  rw [h]
  refine ⟨rfl, ?_, ?_, ?_, rfl, hLoaded, ?_, ?_, ?_, ?_, ?_⟩
  · cases s.mShowErrorCallback <;> simp [invokeThenReturn]
  · intro hne
    obtain ⟨k, hk⟩ := Option.ne_none_iff_exists'.mp hne
    simp [hk, invokeThenReturn]
  · intro hnone
    simp [hnone, invokeThenReturn]
  · intro e he
    simp only [List.mem_singleton] at he
    subst he; rfl
  · simp
  · simp
  · intro d path; simp
  · intro d; simp

/-- The amended C21 on the started session, which holds dataset 5 and a non-empty error
callback: the call returns false. -/
theorem C21_loadTrackerData_guard_witness :
    startedSession.mCurrentDataSet = some 5 ∧
    loadTrackerData startedSession okLoad = (.ok false, startedSession,
      [Event.showError (some 1) "Attempt to load a dataset when one is already loaded"]) ∧
    (loadTrackerData startedSession okLoad).2.1.mCurrentDataSet = some 5 ∧
    Event.createDataSet ∉ (loadTrackerData startedSession okLoad).2.2 :=
  ⟨by decide,
   (C21_loadTrackerData_guard startedSession okLoad 5 (by decide)).1,
   (C21_loadTrackerData_guard startedSession okLoad 5 (by decide)).2.2.2.2.2.1,
   (C21_loadTrackerData_guard startedSession okLoad 5 (by decide)).2.2.2.2.2.2.2.2.1⟩

/-- C21, as stated, fails on a session whose error callback is an empty function object:
after an `initAR` that returned and loaded dataset 5 for a request without error
callback, `loadTrackerData` does not return false; the invocation of the empty callback
throws `std::bad_function_call`. -/
theorem C21_counterexample :
    (∃ calls : List Event,
      initAR androidEnv Session.fresh noErrorCallbackConfig IMAGE_TARGET_ID okInit =
        some (.ok (), noErrorCallbackSession, calls)) ∧
    noErrorCallbackSession.mCurrentDataSet = some 5 ∧
    noErrorCallbackSession.mShowErrorCallback = none ∧
    loadTrackerData noErrorCallbackSession okLoad =
      (.error Fault.badFunctionCall, noErrorCallbackSession,
        [Event.showError none "Attempt to load a dataset when one is already loaded"]) ∧
    (loadTrackerData noErrorCallbackSession okLoad).1 ≠ .ok false := by
  have h : loadTrackerData noErrorCallbackSession okLoad =
      (.error Fault.badFunctionCall, noErrorCallbackSession,
        [Event.showError none "Attempt to load a dataset when one is already loaded"]) := rfl
  refine ⟨⟨_, rfl⟩, rfl, rfl, h, ?_⟩
  rw [h]; simp

/-- C22: for every 4x4 matrix `M`, `Matrix44FTranspose(Matrix44FTranspose(M))` equals `M`
exactly, entry by entry. -/
theorem C22_transpose_involutive (m : Matrix44F) :
    (∀ k : Fin 16,
      (MathUtils.Matrix44FTranspose (MathUtils.Matrix44FTranspose m)).data k = m.data k) ∧
    MathUtils.Matrix44FTranspose (MathUtils.Matrix44FTranspose m) = m := by
  have h : ∀ k : Fin 16,
      (MathUtils.Matrix44FTranspose (MathUtils.Matrix44FTranspose m)).data k = m.data k := by
    intro k
    unfold MathUtils.Matrix44FTranspose
    simp only
    congr 1
    apply Fin.ext
    simp only
    have := k.isLt
    omega
  refine ⟨h, ?_⟩
  cases hm : MathUtils.Matrix44FTranspose (MathUtils.Matrix44FTranspose m) with
  | mk d =>
    cases m with
    | mk d0 =>
      congr 1
      funext k
      have hk := h k
      rw [hm] at hk
      exact hk

/-! ## Origin, image target and guide view accessors -/

/-- C23: in a frame begun by `prepareToRender`, `getOrigin` returns true exactly when
the snapshot has a device/origin result whose status is TRACKED and whose status detail
is NORMAL; when it returns true the model-view output is transpose(inverse(pose of that
result)), and when it returns false both output matrices are left unchanged. -/
theorem C23_getOrigin {M : Type} (ops : MathOps M) (s0 : Session) (snapshot : State)
    (primitives : RenderingPrimitives)
    (viewportInfo : RenderingPrimitives → Int × Int × Int × Int)
    (videoBackgroundTexture textureUpdated : Bool) (projectionMatrix modelViewMatrix : M) :
    ∃ (found : Bool) (projectionOut modelViewOut : M),
      getOrigin ops
        (prepareToRender s0 snapshot primitives viewportInfo videoBackgroundTexture
          textureUpdated).2.1 projectionMatrix modelViewMatrix
        = .ok (found, projectionOut, modelViewOut) ∧
      (found = true ↔
        ∃ origin, snapshot.deviceTrackableResult = some origin ∧
          origin.status = Status.TRACKED ∧ origin.statusInfo = StatusInfo.NORMAL) ∧
      (found = true → ∀ origin, snapshot.deviceTrackableResult = some origin →
        modelViewOut = ops.Matrix44FTranspose
          (ops.Matrix44FInverse (ops.convertPose2GLMatrix origin.pose))) ∧
      (found = false → projectionOut = projectionMatrix ∧ modelViewOut = modelViewMatrix) := by
  obtain ⟨hState, _, hPrim, _⟩ :=
    prepareToRender_fields s0 snapshot primitives viewportInfo videoBackgroundTexture
      textureUpdated
  generalize (prepareToRender s0 snapshot primitives viewportInfo videoBackgroundTexture
      textureUpdated).2.1 = s at hState hPrim
  unfold getOrigin
  rw [hState]
  cases hd : snapshot.deviceTrackableResult with
  | none =>
    exact ⟨false, projectionMatrix, modelViewMatrix, rfl, by simp, by simp, by simp⟩
  | some origin =>
    dsimp only
    by_cases hc : origin.status = Status.TRACKED ∧ origin.statusInfo = StatusInfo.NORMAL
    · rw [if_pos hc]
      cases hp : s.mCurrentRenderingPrimitives with
      | none => exact absurd hp hPrim
      | some p =>
        refine ⟨true, _, _, rfl, ?_, ?_, by simp⟩
        · simp [hc]
        · intro _ o ho
          simp only [Option.some.injEq] at ho
          subst ho
          rfl
    · rw [if_neg hc]
      refine ⟨false, projectionMatrix, modelViewMatrix, rfl, ?_, by simp, by simp⟩
      simp only [Bool.false_eq_true, false_iff, not_exists]
      intro o ho
      simp only [Option.some.injEq] at ho
      obtain ⟨rfl, h2⟩ := ho
      exact hc h2

/-- The scan of `getImageTargetResult` stops at the first image-target result when the
image target type is selected. -/
theorem getImageTargetResultLoop_first {M : Type} (ops : MathOps M) (s : Session)
    (hs : s.mTarget = IMAGE_TARGET_ID) :
    ∀ (results : List TrackableResult) (out : TargetMatrices M),
      (∀ r, results.find? isImageResult = some r →
        ∃ target, r.trackable = Trackable.imageTarget target ∧
          getImageTargetResultLoop ops s results out =
            match imageTargetTransforms ops s r target with
            | .error f => .error f
            | .ok m => .ok (true, m)) ∧
      (results.find? isImageResult = none →
        getImageTargetResultLoop ops s results out = .ok (false, out)) := by
  intro results
  induction results with
  | nil =>
    intro out
    exact ⟨by intro r h; simp at h, by intro _; rw [getImageTargetResultLoop]⟩
  | cons a rest ih =>
    intro out
    obtain ⟨ih1, ih2⟩ := ih out
    cases ht : a.trackable with
    | imageTarget t =>
      have hi : isImageResult a = true := by unfold isImageResult; rw [ht]
      constructor
      · intro r h
        rw [List.find?_cons, hi] at h
        simp only [Option.some.injEq] at h
        subst h
        refine ⟨t, ht, ?_⟩
        rw [getImageTargetResultLoop]
        simp only [ht]
        rw [if_pos hs]
      · intro h
        rw [List.find?_cons, hi] at h
        exact absurd h (by simp)
    | modelTarget t =>
      have hi : isImageResult a = false := by unfold isImageResult; rw [ht]
      constructor
      · intro r h
        rw [List.find?_cons, hi] at h
        obtain ⟨target, h1, h2⟩ := ih1 r h
        refine ⟨target, h1, ?_⟩
        rw [getImageTargetResultLoop]
        simp only [ht]
        exact h2
      · intro h
        rw [List.find?_cons, hi] at h
        rw [getImageTargetResultLoop]
        simp only [ht]
        exact ih2 h
    | other =>
      have hi : isImageResult a = false := by unfold isImageResult; rw [ht]
      constructor
      · intro r h
        rw [List.find?_cons, hi] at h
        obtain ⟨target, h1, h2⟩ := ih1 r h
        refine ⟨target, h1, ?_⟩
        rw [getImageTargetResultLoop]
        simp only [ht]
        exact h2
      · intro h
        rw [List.find?_cons, hi] at h
        rw [getImageTargetResultLoop]
        simp only [ht]
        exact ih2 h

/-- C24: with the image target type selected, in a frame begun by `prepareToRender` on
a snapshot with a device/origin result, `getImageTargetResult` uses the first
image-target result in snapshot order, whatever its status, and returns scaledModelView
equal to modelView post-multiplied (`Matrix44FScale`) by the scaling by (width, height,
max(width, height)) of that target's size, where modelView =
transpose(inverse(devicePose)) * targetPose; it returns false, leaving the outputs as
they were, when the snapshot has no image-target result. -/
theorem C24_getImageTargetResult {M : Type} (ops : MathOps M) (s0 : Session)
    (snapshot : State) (primitives : RenderingPrimitives)
    (viewportInfo : RenderingPrimitives → Int × Int × Int × Int)
    (videoBackgroundTexture textureUpdated : Bool) (out : TargetMatrices M)
    (device : DeviceTrackableResult)
    (hTarget : s0.mTarget = IMAGE_TARGET_ID)
    (hDevice : snapshot.deviceTrackableResult = some device) :
    (∀ (r : TrackableResult), snapshot.trackableResults.find? isImageResult = some r →
      ∃ (target : ImageTarget) (m : TargetMatrices M),
        r.trackable = Trackable.imageTarget target ∧
        getImageTargetResult ops
          (prepareToRender s0 snapshot primitives viewportInfo videoBackgroundTexture
            textureUpdated).2.1 out = .ok (true, m) ∧
        m.modelViewMatrix =
          ops.multiplyMatrix
            (ops.Matrix44FTranspose
              (ops.Matrix44FInverse (ops.convertPose2GLMatrix device.pose)))
            (ops.convertPose2GLMatrix r.pose) ∧
        m.scaledModelViewMatrix =
          ops.Matrix44FScale
            { x := target.size.x, y := target.size.y, z := max target.size.x target.size.y }
            m.modelViewMatrix) ∧
    (snapshot.trackableResults.find? isImageResult = none →
      getImageTargetResult ops
        (prepareToRender s0 snapshot primitives viewportInfo videoBackgroundTexture
          textureUpdated).2.1 out = .ok (false, out)) := by
  obtain ⟨hState, hT, hPrim, _⟩ :=
    prepareToRender_fields s0 snapshot primitives viewportInfo videoBackgroundTexture
      textureUpdated
  generalize (prepareToRender s0 snapshot primitives viewportInfo videoBackgroundTexture
      textureUpdated).2.1 = s at hState hT hPrim
  subst hState
  obtain ⟨h1, h2⟩ :=
    getImageTargetResultLoop_first ops s (hT.trans hTarget) s.mVuforiaState.trackableResults out
  constructor
  · intro r hr
    obtain ⟨target, ht, hl⟩ := h1 r hr
    cases hp : s.mCurrentRenderingPrimitives with
    | none => exact absurd hp hPrim
    | some p =>
      have htr : imageTargetTransforms ops s r target =
          .ok { projectionMatrix := projectionOf ops p s.mVuforiaState
                modelViewMatrix :=
                  ops.multiplyMatrix (viewMatrixOf ops device.pose)
                    (ops.convertPose2GLMatrix r.pose)
                scaledModelViewMatrix :=
                  ops.Matrix44FScale
                    { x := target.size.x, y := target.size.y,
                      z := max target.size.x target.size.y }
                    (ops.multiplyMatrix (viewMatrixOf ops device.pose)
                      (ops.convertPose2GLMatrix r.pose)) } := by
        unfold imageTargetTransforms
        rw [hDevice, hp]
      refine ⟨target,
        { projectionMatrix := projectionOf ops p s.mVuforiaState
          modelViewMatrix :=
            ops.multiplyMatrix (viewMatrixOf ops device.pose)
              (ops.convertPose2GLMatrix r.pose)
          scaledModelViewMatrix :=
            ops.Matrix44FScale
              { x := target.size.x, y := target.size.y,
                z := max target.size.x target.size.y }
              (ops.multiplyMatrix (viewMatrixOf ops device.pose)
                (ops.convertPose2GLMatrix r.pose)) }, ht, ?_, rfl, rfl⟩
      unfold getImageTargetResult
      rw [hl, htr]
  · intro hn
    unfold getImageTargetResult
    exact h2 hn

/-- C24 on a fresh image-target session and a snapshot whose second result is the image
target. -/
theorem C24_getImageTargetResult_witness :
    (∀ (r : TrackableResult),
      imageSecondSnapshot.trackableResults.find? isImageResult = some r →
      ∃ (target : ImageTarget) (m : TargetMatrices MatExpr),
        r.trackable = Trackable.imageTarget target ∧
        getImageTargetResult symbolicOps
          (prepareToRender Session.fresh imageSecondSnapshot 0 (fun _ => (0, 0, 0, 0)) false
            true).2.1 identityMatrices = .ok (true, m) ∧
        m.modelViewMatrix =
          symbolicOps.multiplyMatrix
            (symbolicOps.Matrix44FTranspose
              (symbolicOps.Matrix44FInverse
                (symbolicOps.convertPose2GLMatrix trackedDevice.pose)))
            (symbolicOps.convertPose2GLMatrix r.pose) ∧
        m.scaledModelViewMatrix =
          symbolicOps.Matrix44FScale
            { x := target.size.x, y := target.size.y, z := max target.size.x target.size.y }
            m.modelViewMatrix) ∧
    (imageSecondSnapshot.trackableResults.find? isImageResult = none →
      getImageTargetResult symbolicOps
        (prepareToRender Session.fresh imageSecondSnapshot 0 (fun _ => (0, 0, 0, 0)) false
          true).2.1 identityMatrices = .ok (false, identityMatrices)) :=
  C24_getImageTargetResult symbolicOps Session.fresh imageSecondSnapshot 0
    (fun _ => (0, 0, 0, 0)) false true identityMatrices trackedDevice rfl rfl

/-- C25: `getModelTargetGuideView` returns true exactly when the guide-view candidate is
non-null, the candidate has at least one guide view and the snapshot has a camera
calibration; when it returns false because the candidate is null or has no guide view,
the projection, model-view and image outputs are left unchanged, and when it returns
true the image output is the image of the candidate's first guide view and the
projection is the identity matrix. -/
theorem C25_getModelTargetGuideView {M : Type} (ops : MathOps M) (s : Session)
    (projectionMatrix modelViewMatrix : M) (guideViewImage : Option Image) :
    ((getModelTargetGuideView ops s projectionMatrix modelViewMatrix guideViewImage).1 = true ↔
      ∃ (target : ModelTarget) (guideView : GuideView) (rest : List GuideView)
        (calibration : CameraCalibration),
        s.mGuideViewModelTarget = some target ∧ target.guideViews = guideView :: rest ∧
        s.mVuforiaState.cameraCalibration = some calibration) ∧
    ((s.mGuideViewModelTarget = none ∨
        ∃ target, s.mGuideViewModelTarget = some target ∧ target.guideViews = []) →
      getModelTargetGuideView ops s projectionMatrix modelViewMatrix guideViewImage =
        (false, projectionMatrix, modelViewMatrix, guideViewImage)) ∧
    ((getModelTargetGuideView ops s projectionMatrix modelViewMatrix guideViewImage).1 = true →
      (getModelTargetGuideView ops s projectionMatrix modelViewMatrix guideViewImage).2.1
        = ops.Matrix44FIdentity ∧
      ∀ (target : ModelTarget) (guideView : GuideView) (rest : List GuideView),
        s.mGuideViewModelTarget = some target → target.guideViews = guideView :: rest →
        (getModelTargetGuideView ops s projectionMatrix modelViewMatrix guideViewImage).2.2.2
          = some guideView.image) := by
  unfold getModelTargetGuideView
  cases hg : s.mGuideViewModelTarget with
  | none => simp
  | some target =>
    cases hv : target.guideViews with
    | nil => simp [hv]
    | cons gv rest =>
      cases hc : s.mVuforiaState.cameraCalibration with
      | none => simp [hv]
      | some calibration =>
        simp [hv]
        intro t g r ht hgv
        subst ht
        rw [hv] at hgv
        simp only [List.cons.injEq] at hgv
        rw [hgv.1]

/-- C26: in each of the four cases of `getModelTargetGuideView`'s split on (guide image
aspect >= 1, display aspect >= 1), for every positive guide aspect `g`, display aspect
`d` and near-plane height, over exact arithmetic: planeWidth / planeHeight = g (no
distortion), the larger of planeWidth and planeHeight equals the larger of
nearPlaneWidth and nearPlaneHeight, and the resulting scale (2*planeWidth/nearPlaneWidth,
2*planeHeight/nearPlaneHeight) is a function of `g` and `d` alone, the same for every
near-plane height and so for every field of view. -/
theorem C26_guide_view_plane (g d nearPlaneHeight : ℚ) (hg : 0 < g) (hd : 0 < d)
    (hn : 0 < nearPlaneHeight) :
    (guideViewPlane g d (nearPlaneHeight * d) nearPlaneHeight).1 /
      (guideViewPlane g d (nearPlaneHeight * d) nearPlaneHeight).2 = g ∧
    max (guideViewPlane g d (nearPlaneHeight * d) nearPlaneHeight).1
        (guideViewPlane g d (nearPlaneHeight * d) nearPlaneHeight).2 =
      max (nearPlaneHeight * d) nearPlaneHeight ∧
    guideViewScale g d nearPlaneHeight =
      (if g ≥ 1 ∧ d ≥ 1 then (2, 2 * d / g)
       else if g < 1 ∧ d < 1 then (2 * g / d, 2)
       else if d < 1 then (2 / d, 2 / g)
       else (2 * g, 2 * d)) ∧
    (∀ otherHeight : ℚ, 0 < otherHeight →
      guideViewScale g d otherHeight = guideViewScale g d nearPlaneHeight) := by
  have hscale : ∀ h : ℚ, 0 < h → guideViewScale g d h =
      (if g ≥ 1 ∧ d ≥ 1 then (2, 2 * d / g)
       else if g < 1 ∧ d < 1 then (2 * g / d, 2)
       else if d < 1 then (2 / d, 2 / g)
       else (2 * g, 2 * d)) := by
    intro h hh
    have hne : h ≠ 0 := ne_of_gt hh
    have hgne : g ≠ 0 := ne_of_gt hg
    have hdne : d ≠ 0 := ne_of_gt hd
    unfold guideViewScale guideViewPlane
    by_cases c1 : g ≥ 1 ∧ d ≥ 1
    · simp only [if_pos c1]
      refine Prod.ext ?_ ?_ <;> simp only <;> first | (field_simp; ring) | field_simp
    · simp only [if_neg c1]
      by_cases c2 : g < 1 ∧ d < 1
      · simp only [if_pos c2]
        refine Prod.ext ?_ ?_ <;> simp only <;> first | (field_simp; ring) | field_simp
      · simp only [if_neg c2]
        by_cases c3 : d < 1
        · simp only [if_pos c3]
          refine Prod.ext ?_ ?_ <;> simp only <;> (field_simp; ring)
        · simp only [if_neg c3]
          refine Prod.ext ?_ ?_ <;> simp only <;> (field_simp; ring)
  have hgne : g ≠ 0 := ne_of_gt hg
  have hnne : nearPlaneHeight ≠ 0 := ne_of_gt hn
  have hdne : d ≠ 0 := ne_of_gt hd
  refine ⟨?_, ?_, hscale nearPlaneHeight hn, ?_⟩
  · unfold guideViewPlane
    split_ifs <;> simp only <;> field_simp
  · unfold guideViewPlane
    by_cases c1 : g ≥ 1 ∧ d ≥ 1
    · simp only [if_pos c1]
      have h1 : nearPlaneHeight * d / g ≤ nearPlaneHeight * d := by
        rw [div_le_iff₀ hg]; nlinarith [c1.1, c1.2, mul_pos hn hd]
      have h2 : nearPlaneHeight ≤ nearPlaneHeight * d := by nlinarith [c1.2]
      rw [max_eq_left h1, max_eq_left h2]
    · simp only [if_neg c1]
      by_cases c2 : g < 1 ∧ d < 1
      · simp only [if_pos c2]
        have h1 : nearPlaneHeight * g ≤ nearPlaneHeight := by nlinarith [c2.1]
        have h2 : nearPlaneHeight * d ≤ nearPlaneHeight := by nlinarith [c2.2]
        rw [max_eq_right h1, max_eq_right h2]
      · simp only [if_neg c2]
        by_cases c3 : d < 1
        · simp only [if_pos c3]
          have hg1 : 1 ≤ g := by
            by_contra hlt
            exact c2 ⟨lt_of_not_ge hlt, c3⟩
          have h1 : nearPlaneHeight / g ≤ nearPlaneHeight := by
            rw [div_le_iff₀ hg]; nlinarith
          have h2 : nearPlaneHeight * d ≤ nearPlaneHeight := by nlinarith
          rw [max_eq_left h1, max_eq_right h2]
        · simp only [if_neg c3]
          have hd1 : 1 ≤ d := not_lt.mp c3
          have hg1 : g < 1 := by
            by_contra hge
            exact c1 ⟨not_lt.mp hge, hd1⟩
          have h1 : nearPlaneHeight * d * g ≤ nearPlaneHeight * d := by
            nlinarith [mul_pos hn hd]
          have h2 : nearPlaneHeight ≤ nearPlaneHeight * d := by nlinarith
          rw [max_eq_right h1, max_eq_left h2]
  · intro other ho
    rw [hscale other ho, hscale nearPlaneHeight hn]

/-- C26 for a guide image of aspect 3/2, a display of aspect 16/9 and the near-plane
height 1/100. -/
theorem C26_guide_view_plane_witness :
    (guideViewPlane (3 / 2) (16 / 9) (1 / 100 * (16 / 9)) (1 / 100)).1 /
      (guideViewPlane (3 / 2) (16 / 9) (1 / 100 * (16 / 9)) (1 / 100)).2 = 3 / 2 ∧
    max (guideViewPlane (3 / 2) (16 / 9) (1 / 100 * (16 / 9)) (1 / 100)).1
        (guideViewPlane (3 / 2) (16 / 9) (1 / 100 * (16 / 9)) (1 / 100)).2 =
      max (1 / 100 * (16 / 9)) (1 / 100) ∧
    guideViewScale (3 / 2) (16 / 9) (1 / 100) =
      (if (3 / 2 : ℚ) ≥ 1 ∧ (16 / 9 : ℚ) ≥ 1 then (2, 2 * (16 / 9) / (3 / 2))
       else if (3 / 2 : ℚ) < 1 ∧ (16 / 9 : ℚ) < 1 then (2 * (3 / 2) / (16 / 9), 2)
       else if (16 / 9 : ℚ) < 1 then (2 / (16 / 9), 2 / (3 / 2))
       else (2 * (3 / 2), 2 * (16 / 9))) ∧
    (∀ otherHeight : ℚ, 0 < otherHeight →
      guideViewScale (3 / 2) (16 / 9) otherHeight = guideViewScale (3 / 2) (16 / 9) (1 / 100)) :=
  C26_guide_view_plane (3 / 2) (16 / 9) (1 / 100) (by norm_num) (by norm_num) (by norm_num)

/-! ## Engine polling, the flag invariant, stale guide views and selectors -/

/-- C27: for every sequence of progress values returned by the engine's init call that
holds a value that is negative or at least 100, `initVuforiaInternal` terminates; it
calls `Vuforia::init()` again only while every value returned so far lies in 0..99, so
that the number of calls is one more than the number of values before the first terminal
value, and the result is success exactly when that first terminal value is 100 (in the
other case it ends with the invocation of the error callback). On values that all lie in
0..99 it asks for a further value after each of them. -/
theorem C27_init_polling (env : Env) (s : Session) (appData : Nat)
    (before after : List Int) (terminal : Int)
    (hBefore : ∀ v ∈ before, 0 ≤ v ∧ v < 100)
    (hTerminal : isTerminalProgress terminal = true) :
    (∃ (result : Except Fault Bool) (calls : List Event),
      initVuforiaInternal env s appData (before ++ terminal :: after) =
        some (result, calls) ∧
      (result = .ok true ↔ terminal = 100) ∧
      (terminal ≠ 100 → result = invokeThenReturn s.mShowErrorCallback false) ∧
      calls.count Event.vuforiaInit = before.length + 1) ∧
    initPoll 0 (before ++ terminal :: after) =
      some (terminal, List.replicate (before.length + 1) Event.vuforiaInit) ∧
    (∀ vals : List Int, (∀ v ∈ vals, 0 ≤ v ∧ v < 100) →
      initVuforiaInternal env s appData vals = none) := by
  have ht : ¬ (0 ≤ terminal ∧ terminal < 100) := (isTerminalProgress_iff terminal).mp hTerminal
  have hp := initPoll_front terminal after ht before 0 (by decide) hBefore
  have hset : setInitParametersEvent env.platform s appData ≠ Event.vuforiaInit := by
    unfold setInitParametersEvent
    cases env.platform <;> simp
  refine ⟨?_, hp, ?_⟩
  · rw [initVuforiaInternal_front env s appData before after terminal hBefore hTerminal]
    by_cases hc : terminal = 100
    · rw [if_pos hc]
      refine ⟨.ok true, setInitParametersEvent env.platform s appData ::
        List.replicate (before.length + 1) Event.vuforiaInit, rfl, by simp [hc],
        fun hne => absurd hc hne, ?_⟩
      rw [List.count_cons, List.count_replicate_self]
      simp [hset]
    · rw [if_neg hc]
      refine ⟨invokeThenReturn s.mShowErrorCallback false,
        setInitParametersEvent env.platform s appData ::
        List.replicate (before.length + 1) Event.vuforiaInit ++
        [Event.showError s.mShowErrorCallback (initErrorMessage env.codes terminal)],
        rfl, ?_, fun _ => rfl, ?_⟩
      · cases s.mShowErrorCallback <;> simp [invokeThenReturn, hc]
      · rw [List.count_append, List.count_cons, List.count_replicate_self]
        simp [hset]
  · intro vals hv
    unfold initVuforiaInternal
    rw [initPoll_no_terminal vals 0 (by decide) hv]

/-- C27 on the values 10, 50, 100, 7. -/
theorem C27_init_polling_witness :
    (∀ v ∈ [(10 : Int), 50], 0 ≤ v ∧ v < 100) ∧ isTerminalProgress 100 = true ∧
    (∃ (result : Except Fault Bool) (calls : List Event),
      initVuforiaInternal androidEnv Session.fresh 0 ([10, 50] ++ 100 :: [7]) =
        some (result, calls) ∧
      (result = .ok true ↔ (100 : Int) = 100) ∧
      ((100 : Int) ≠ 100 → result = invokeThenReturn Session.fresh.mShowErrorCallback false) ∧
      calls.count Event.vuforiaInit = [(10 : Int), 50].length + 1) ∧
    initPoll 0 ([10, 50] ++ 100 :: [7]) =
      some (100, List.replicate ([(10 : Int), 50].length + 1) Event.vuforiaInit) ∧
    (∀ vals : List Int, (∀ v ∈ vals, 0 ≤ v ∧ v < 100) →
      initVuforiaInternal androidEnv Session.fresh 0 vals = none) :=
  ⟨by intro v hv; simp at hv; rcases hv with rfl | rfl <;> decide, by decide,
   C27_init_polling androidEnv Session.fresh 0 [10, 50] [7] 100
    (by intro v hv; simp at hv; rcases hv with rfl | rfl <;> decide) (by decide)⟩

/-- C28: in every session state reachable from a freshly constructed controller by any
sequence of `initAR`, `startAR`, `pauseAR`, `resumeAR`, `stopAR`, `deinitAR` and
`configureRendering` calls (and of the per-frame calls) with arbitrary collaborator
outcomes, the camera-active flag implies the camera-started flag. -/
theorem C28_active_implies_started (env : Env) (s : Session) (hReach : Reachable env s) :
    s.mCameraIsActive = true → s.mCameraIsStarted = true :=
  reachable_active_imp_started env s hReach

/-- C28 on the started session. -/
theorem C28_active_implies_started_witness :
    Reachable androidEnv startedSession ∧ startedSession.mCameraIsActive = true ∧
    startedSession.mCameraIsStarted = true :=
  ⟨startedSession_reachable, rfl,
   C28_active_implies_started androidEnv startedSession startedSession_reachable rfl⟩

/-- The scan of `getModelTargetResult` finds nothing and keeps the session when another
target type is selected, or when no model-target result has a pose or recommends
guidance. -/
theorem getModelTargetResultLoop_nothing {M : Type} (ops : MathOps M) :
    ∀ (results : List TrackableResult) (s : Session) (out : TargetMatrices M),
      (s.mTarget ≠ MODEL_TARGET_ID ∨
        ∀ x ∈ results, isPosedModelResult x = false ∧ isGuidanceModelResult x = false) →
      getModelTargetResultLoop ops results s out = .ok (false, s, out) := by
  intro results
  induction results with
  | nil => intro s out _; rw [getModelTargetResultLoop]
  | cons a rest ih =>
    intro s out h
    have hrest : s.mTarget ≠ MODEL_TARGET_ID ∨
        ∀ x ∈ rest, isPosedModelResult x = false ∧ isGuidanceModelResult x = false := by
      rcases h with h | h
      · exact Or.inl h
      · exact Or.inr (fun x hx => h x (List.mem_cons_of_mem _ hx))
    rw [getModelTargetResultLoop]
    cases ht : a.trackable with
    | modelTarget t =>
      simp only [ht]
      by_cases hs : s.mTarget = MODEL_TARGET_ID
      · rw [if_pos hs]
        rcases h with h | h
        · exact absurd hs h
        · obtain ⟨hp, hg⟩ := h a (List.mem_cons_self _ _)
          unfold isPosedModelResult at hp
          unfold isGuidanceModelResult at hg
          rw [ht] at hp hg
          simp only [decide_eq_false_iff_not, not_not] at hp
          simp only [decide_eq_false_iff_not, not_and] at hg
          rw [if_pos hp, if_neg (hg hp)]
          exact ih s out hrest
      · rw [if_neg hs]
        exact ih s out hrest
    | imageTarget t =>
      simp only [ht]
      exact ih s out hrest
    | other =>
      simp only [ht]
      exact ih s out hrest

/-- The scan of `getImageTargetResult` finds nothing when another target type is
selected. -/
theorem getImageTargetResultLoop_unselected {M : Type} (ops : MathOps M) (s : Session)
    (hs : s.mTarget ≠ IMAGE_TARGET_ID) :
    ∀ (results : List TrackableResult) (out : TargetMatrices M),
      getImageTargetResultLoop ops s results out = .ok (false, out) := by
  intro results
  induction results with
  | nil => intro out; rw [getImageTargetResultLoop]
  | cons a rest ih =>
    intro out
    rw [getImageTargetResultLoop]
    cases ht : a.trackable with
    | imageTarget t =>
      simp only [ht]
      rw [if_neg hs]
      exact ih out
    | modelTarget t =>
      simp only [ht]
      exact ih out
    | other =>
      simp only [ht]
      exact ih out

/-- C29: when the snapshot holds no model-target result that has a pose and none with
status NO_POSE and detail "recommending guidance" (for instance an empty result list),
`getModelTargetResult` returns false and leaves the session, and with it the guide-view
candidate, exactly as the previous frame left it; `getModelTargetGuideView` then returns
true for that candidate whenever it has a guide view and the snapshot a calibration, so
it can return true for a target that the current snapshot does not report at all, as on
the frame `staleGuideFrame`. -/
theorem C29_stale_guide_view {M : Type} (ops : MathOps M) (s : Session)
    (out : TargetMatrices M)
    (hNone : ∀ x ∈ s.mVuforiaState.trackableResults,
      isPosedModelResult x = false ∧ isGuidanceModelResult x = false) :
    getModelTargetResult ops s out = .ok (false, s, out) ∧
    (∀ (target : ModelTarget) (guideView : GuideView) (rest : List GuideView)
        (calibration : CameraCalibration) (projectionMatrix modelViewMatrix : M)
        (guideViewImage : Option Image),
      s.mGuideViewModelTarget = some target → target.guideViews = guideView :: rest →
      s.mVuforiaState.cameraCalibration = some calibration →
      (getModelTargetGuideView ops s projectionMatrix modelViewMatrix guideViewImage).1
        = true ∧
      (getModelTargetGuideView ops s projectionMatrix modelViewMatrix guideViewImage).2.2.2
        = some guideView.image) ∧
    (∃ frame : Session,
      frame.mVuforiaState.trackableResults = [] ∧
      frame.mGuideViewModelTarget = some guidedTarget ∧
      getModelTargetResult symbolicOps frame identityMatrices
        = .ok (false, frame, identityMatrices) ∧
      (getModelTargetGuideView symbolicOps frame MatExpr.identity MatExpr.identity none).1
        = true) := by
  refine ⟨getModelTargetResultLoop_nothing ops _ s out (Or.inr hNone), ?_, ?_⟩
  · intro target gv rest calibration pm mv img hg hv hc
    unfold getModelTargetGuideView
    simp [hg, hv, hc]
  · exact ⟨staleGuideFrame, rfl, rfl, rfl, rfl⟩

/-- C29 on a frame with an empty snapshot and the candidate of an earlier frame. -/
theorem C29_stale_guide_view_witness :
    staleGuideFrame.mVuforiaState.trackableResults = [] ∧
    getModelTargetResult symbolicOps staleGuideFrame identityMatrices
      = .ok (false, staleGuideFrame, identityMatrices) ∧
    (getModelTargetGuideView symbolicOps staleGuideFrame MatExpr.identity MatExpr.identity
      none).1 = true :=
  ⟨rfl,
   (C29_stale_guide_view symbolicOps staleGuideFrame identityMatrices
      (by intro x hx; exact absurd hx (List.not_mem_nil x))).1,
   ((C29_stale_guide_view symbolicOps staleGuideFrame identityMatrices
      (by intro x hx; exact absurd hx (List.not_mem_nil x))).2.1
      guidedTarget { image := { id := 1, width := 300, height := 200 } } []
      { fieldOfViewRads := (1, 1) } MatExpr.identity MatExpr.identity none rfl rfl rfl).1⟩


/-- The polling loop stops only at a terminal value. -/
theorem initPoll_some_terminal :
    ∀ (vals : List Int) (progress : Int) (r : Int × List Event),
      (0 ≤ progress ∧ progress < 100) → initPoll progress vals = some r →
      ∃ v ∈ vals, isTerminalProgress v = true := by
  intro vals
  induction vals with
  | nil =>
    intro p r hp h
    rw [initPoll, if_pos hp] at h
    exact absurd h (by simp)
  | cons v vs ih =>
    intro p r hp h
    by_cases hv : isTerminalProgress v = true
    · exact ⟨v, List.mem_cons_self _ _, hv⟩
    · have hv1 : 0 ≤ v ∧ v < 100 := by
        by_contra hc
        exact hv ((isTerminalProgress_iff v).mpr hc)
      rw [initPoll, if_pos hp] at h
      cases hr : initPoll v vs with
      | none => rw [hr] at h; exact absurd h (by simp)
      | some q =>
        obtain ⟨w, hw, hwt⟩ := ih v q hv1 hr
        exact ⟨w, List.mem_cons_of_mem _ hw, hwt⟩

/-- When `initAR` ends, the engine reported a terminal progress value. -/
theorem initAR_some_terminal (env : Env) (s : Session) (initConfig : InitConfig)
    (target : Int) (o : InitOutcome) (r : Except Fault Unit × Session × List Event)
    (h : initAR env s initConfig target o = some r) :
    ∃ v ∈ o.progress, isTerminalProgress v = true := by
  cases hp : initPoll 0 o.progress with
  | none =>
    unfold initAR initVuforiaInternal at h
    rw [hp] at h
    exact absurd h (by simp)
  | some q => exact initPoll_some_terminal o.progress 0 q (by decide) hp

/-- Every dataset that `initAR` loads is the one of the selected target type: the image
target's for the selector `IMAGE_TARGET_ID`, the model target's for every other value.
-/
theorem initAR_dataSetLoad_path (env : Env) (s s1 : Session) (initConfig : InitConfig)
    (target : Int) (o : InitOutcome) (completion : Except Fault Unit) (calls : List Event)
    (h : initAR env s initConfig target o = some (completion, s1, calls)) :
    ∀ (d : DataSet) (p : String), Event.dataSetLoad d p ∈ calls →
      p = (if target = IMAGE_TARGET_ID then "StonesAndChips.xml"
           else "VuforiaMars_ModelTarget.xml") := by
  obtain ⟨before, after, terminal, hP, hB, hT⟩ :=
    exists_first_terminal o.progress (initAR_some_terminal env s initConfig target o _ h)
  have hE : ∀ (d : DataSet) (p : String), Event.dataSetLoad d p ∉
      setInitParametersEvent env.platform (initARReset s initConfig target)
        initConfig.appData :: List.replicate (before.length + 1) Event.vuforiaInit := by
    intro d p hmem
    rcases List.mem_cons.mp hmem with h1 | h1
    · unfold setInitParametersEvent at h1
      cases hp : env.platform <;> rw [hp] at h1 <;> simp at h1
    · exact absurd (List.eq_of_mem_replicate h1) (by simp)
  intro d p hmem
  by_cases h100 : terminal = 100
  · by_cases hd : o.deviceTracker = true
    · by_cases ho : o.objectTracker = true
      · by_cases hn : s.mCurrentDataSet = none
        · cases hr : (loadAndActivateDataSet
            (if target = IMAGE_TARGET_ID then "StonesAndChips.xml"
             else "VuforiaMars_ModelTarget.xml") o.load).1 with
          | none =>
            rw [initAR_load_fails env s initConfig target o before after terminal hP hB hT
              h100 hd ho hn hr] at h
            simp only [Option.some.injEq, Prod.mk.injEq] at h
            rw [← h.2.2] at hmem
            have hpath := (loadAndActivateDataSet_calls
              (if target = IMAGE_TARGET_ID then "StonesAndChips.xml"
               else "VuforiaMars_ModelTarget.xml") o.load).2.2 d p
            rcases List.mem_append.mp hmem with h1 | h1
            · rcases List.mem_append.mp h1 with h2 | h2
              · rcases List.mem_append.mp h2 with h3 | h3
                · exact absurd h3 (hE d p)
                · simp at h3
              · exact hpath h2
            · simp at h1
          | some d1 =>
            obtain ⟨k1, k2, k3, k4⟩ := (loadAndActivateDataSet_some_iff
              (if target = IMAGE_TARGET_ID then "StonesAndChips.xml"
               else "VuforiaMars_ModelTarget.xml") o.load d1).mp hr
            rw [initAR_succeeds env s initConfig target o before after terminal d1 hP hB hT
              h100 hd ho hn k1 k2 k3 k4] at h
            simp only [Option.some.injEq, Prod.mk.injEq] at h
            rw [← h.2.2] at hmem
            rcases List.mem_append.mp hmem with h1 | h1
            · exact absurd h1 (hE d p)
            · simp at h1
              exact h1.2
        · rw [initAR_dataset_recorded env s initConfig target o before after terminal hP hB
            hT h100 hd ho hn] at h
          simp only [Option.some.injEq, Prod.mk.injEq] at h
          rw [← h.2.2] at hmem
          rcases List.mem_append.mp hmem with h1 | h1
          · exact absurd h1 (hE d p)
          · simp at h1
      · rw [initAR_object_fails env s initConfig target o before after terminal hP hB hT
          h100 hd (by simpa using ho)] at h
        simp only [Option.some.injEq, Prod.mk.injEq] at h
        rw [← h.2.2] at hmem
        rcases List.mem_append.mp hmem with h1 | h1
        · exact absurd h1 (hE d p)
        · simp at h1
    · rw [initAR_device_fails env s initConfig target o before after terminal hP hB hT
        h100 (by simpa using hd)] at h
      simp only [Option.some.injEq, Prod.mk.injEq] at h
      rw [← h.2.2] at hmem
      rcases List.mem_append.mp hmem with h1 | h1
      · exact absurd h1 (hE d p)
      · simp at h1
  · rw [initAR_engine_fails env s initConfig target o before after terminal hP hB hT
      h100] at h
    simp only [Option.some.injEq, Prod.mk.injEq] at h
    rw [← h.2.2] at hmem
    rcases List.mem_append.mp hmem with h1 | h1
    · exact absurd h1 (hE d p)
    · simp at h1

/-- The dataset calls for a path, after the log line and the look-up of the object
tracker: each call is made exactly when the one before it succeeded, the dataset is loaded
from the path, and a dataset is handed out only when every call succeeded. -/
theorem loadAndActivateDataSet_rest (path : String) (o : LoadOutcome) :
    ∃ rest : List Event,
      (loadAndActivateDataSet path o).2 =
        Event.log ("Loading data set from " ++ path) :: Event.getTracker TrackerType.object ::
          rest ∧
      (∀ d p, Event.dataSetLoad d p ∈ rest → p = path) ∧
      (Event.createDataSet ∈ rest ↔ o.objectTracker = true) ∧
      (∀ d, Event.dataSetLoad d path ∈ rest ↔
        (o.objectTracker = true ∧ o.createDataSet = some d)) ∧
      (∀ d, Event.activateDataSet d ∈ rest ↔
        (o.objectTracker = true ∧ o.createDataSet = some d ∧ o.load = true)) ∧
      (∀ d, (loadAndActivateDataSet path o).1 = some d ↔
        (o.objectTracker = true ∧ o.createDataSet = some d ∧ o.load = true ∧
          o.activate = true)) := by
  refine ⟨(loadAndActivateDataSet path o).2.drop 2, ?_, ?_, ?_, ?_, ?_, ?_⟩ <;>
    unfold loadAndActivateDataSet <;>
    cases h1 : o.objectTracker <;> cases h2 : o.createDataSet <;> cases h3 : o.load <;>
    cases h4 : o.activate <;> simp [eq_comm]

/-- C30: for every target selector value other than IMAGE_TARGET_ID (0) and
MODEL_TARGET_ID (1), an `initAR` whose engine and tracker stages succeed loads the
model-target dataset: after creating the two trackers it logs the path
`VuforiaMars_ModelTarget.xml`, looks up the object tracker, creates a dataset exactly when
that tracker exists, loads the created dataset from that path, activates it exactly when
the load succeeded, and records it as the current dataset exactly when every call
succeeded, in which case the calls are `createDataSet`, `load`, `activate` followed by the
completion callback; and no `initAR` with a selector other than IMAGE_TARGET_ID loads a
dataset from any other path.  Yet for every snapshot both `getImageTargetResult` and
`getModelTargetResult` return false and the guide-view candidate is never set (the session
is unchanged); and for every selector, so for the two valid ones, at most one of
`getImageTargetResult` and `getModelTargetResult` can return true on any snapshot. -/
theorem C30_target_selector :
    (∀ (env : Env) (s : Session) (initConfig : InitConfig) (target : Int) (o : InitOutcome)
        (before after : List Int),
      target ≠ IMAGE_TARGET_ID → target ≠ MODEL_TARGET_ID → s.mCurrentDataSet = none →
      o.progress = before ++ 100 :: after → (∀ v ∈ before, 0 ≤ v ∧ v < 100) →
      o.deviceTracker = true → o.objectTracker = true →
      ∃ (completion : Except Fault Unit) (s1 : Session) (rest : List Event) (last : Event),
        initAR env s initConfig target o = some (completion, s1,
          setInitParametersEvent env.platform (initARReset s initConfig target)
              initConfig.appData ::
            List.replicate (before.length + 1) Event.vuforiaInit ++
          [Event.initTracker TrackerType.positionalDevice,
           Event.initTracker TrackerType.object,
           Event.log ("Loading data set from " ++ "VuforiaMars_ModelTarget.xml"),
           Event.getTracker TrackerType.object] ++ rest ++ [last]) ∧
        s1.mTarget = target ∧
        (∀ d p, Event.dataSetLoad d p ∈ rest → p = "VuforiaMars_ModelTarget.xml") ∧
        (Event.createDataSet ∈ rest ↔ o.load.objectTracker = true) ∧
        (∀ d, Event.dataSetLoad d "VuforiaMars_ModelTarget.xml" ∈ rest ↔
          (o.load.objectTracker = true ∧ o.load.createDataSet = some d)) ∧
        (∀ d, Event.activateDataSet d ∈ rest ↔
          (o.load.objectTracker = true ∧ o.load.createDataSet = some d ∧
            o.load.load = true)) ∧
        (∀ d, s1.mCurrentDataSet = some d ↔
          (o.load.objectTracker = true ∧ o.load.createDataSet = some d ∧
            o.load.load = true ∧ o.load.activate = true)) ∧
        (∀ d, o.load.objectTracker = true → o.load.createDataSet = some d →
          o.load.load = true → o.load.activate = true →
          rest = [Event.createDataSet,
            Event.dataSetLoad d "VuforiaMars_ModelTarget.xml", Event.activateDataSet d] ∧
          last = Event.initDone initConfig.initDoneCallback ∧
          completion = invokeThenReturn initConfig.initDoneCallback ()) ∧
        ((∀ d, ¬ (o.load.objectTracker = true ∧ o.load.createDataSet = some d ∧
            o.load.load = true ∧ o.load.activate = true)) →
          s1.mCurrentDataSet = none ∧
          last = Event.showError initConfig.showErrorCallback
            "Error loading dataset for Model Target" ∧
          completion = invokeThenReturn initConfig.showErrorCallback ())) ∧
    (∀ (env : Env) (s s1 : Session) (initConfig : InitConfig) (target : Int)
        (o : InitOutcome) (completion : Except Fault Unit) (calls : List Event),
      target ≠ IMAGE_TARGET_ID →
      initAR env s initConfig target o = some (completion, s1, calls) →
      ∀ d p, Event.dataSetLoad d p ∈ calls → p = "VuforiaMars_ModelTarget.xml") ∧
    (∀ {M : Type} (ops : MathOps M) (s : Session) (out : TargetMatrices M),
      s.mTarget ≠ IMAGE_TARGET_ID → s.mTarget ≠ MODEL_TARGET_ID →
      getImageTargetResult ops s out = .ok (false, out) ∧
      getModelTargetResult ops s out = .ok (false, s, out)) ∧
    (∀ {M : Type} (ops : MathOps M) (s : Session) (out out1 : TargetMatrices M),
      ¬ (∃ (m m1 : TargetMatrices M) (s1 : Session),
        getImageTargetResult ops s out = .ok (true, m) ∧
        getModelTargetResult ops s out1 = .ok (true, s1, m1))) := by
  refine ⟨?_, ?_, ?_, ?_⟩
  · intro env s initConfig target o before after h0 _ hNone hP hB hDev hObj
    have hpath : (if target = IMAGE_TARGET_ID then "StonesAndChips.xml"
        else "VuforiaMars_ModelTarget.xml") = "VuforiaMars_ModelTarget.xml" := if_neg h0
    have hmsg : (if target = IMAGE_TARGET_ID then "Error loading dataset for Image Target"
        else "Error loading dataset for Model Target") =
        "Error loading dataset for Model Target" := if_neg h0
    obtain ⟨rest, hcalls, hp, hc, hl, ha, hsome⟩ :=
      loadAndActivateDataSet_rest "VuforiaMars_ModelTarget.xml" o.load
    cases hr : (loadAndActivateDataSet "VuforiaMars_ModelTarget.xml" o.load).1 with
    | none =>
      have row := initAR_load_fails env s initConfig target o before after 100 hP hB
        (by decide) rfl hDev hObj hNone (by rw [hpath]; exact hr)
      rw [hpath, hmsg, hcalls] at row
      have hnot : ∀ d, ¬ (o.load.objectTracker = true ∧ o.load.createDataSet = some d ∧
          o.load.load = true ∧ o.load.activate = true) := by
        intro d hd
        have := (hsome d).mpr hd
        rw [hr] at this
        exact absurd this (by simp)
      refine ⟨invokeThenReturn initConfig.showErrorCallback (),
        initARReset s initConfig target, rest,
        Event.showError initConfig.showErrorCallback "Error loading dataset for Model Target",
        row.trans (by simp), rfl, hp, hc, hl, ha, ?_, ?_, ?_⟩
      · intro d
        constructor
        · intro h
          simp [initARReset, hNone] at h
        · intro h
          exact absurd h (hnot d)
      · intro d k1 k2 k3 k4
        exact absurd ⟨k1, k2, k3, k4⟩ (hnot d)
      · intro _
        exact ⟨by simp [initARReset, hNone], rfl, rfl⟩
    | some d1 =>
      obtain ⟨k1, k2, k3, k4⟩ := (hsome d1).mp hr
      have row := initAR_succeeds env s initConfig target o before after 100 d1 hP hB
        (by decide) rfl hDev hObj hNone k1 k2 k3 k4
      rw [hpath] at row
      have hrest : rest = [Event.createDataSet,
          Event.dataSetLoad d1 "VuforiaMars_ModelTarget.xml", Event.activateDataSet d1] := by
        have h2 := hcalls
        rw [loadAndActivateDataSet_ok _ o.load d1 k1 k2 k3 k4] at h2
        simp only [List.cons.injEq, true_and] at h2
        exact h2.symm
      refine ⟨invokeThenReturn initConfig.initDoneCallback (),
        { initARReset s initConfig target with mCurrentDataSet := some d1 }, rest,
        Event.initDone initConfig.initDoneCallback,
        row.trans (by rw [hrest]; simp), rfl, hp, hc, hl, ha, ?_, ?_, ?_⟩
      · intro d
        constructor
        · intro h
          have hd : d1 = d := by simpa using h
          rw [← hd]
          exact ⟨k1, k2, k3, k4⟩
        · intro h
          have hd : some d1 = some d := k2.symm.trans h.2.1
          simpa using hd
      · intro d _ j2 _ _
        have hd : d1 = d := by
          have : some d1 = some d := k2.symm.trans j2
          simpa using this
        rw [← hd]
        exact ⟨hrest, rfl, rfl⟩
      · intro hnot
        exact absurd ⟨k1, k2, k3, k4⟩ (hnot d1)
  · intro env s s1 initConfig target o completion calls h0 h d p hmem
    have := initAR_dataSetLoad_path env s s1 initConfig target o completion calls h d p hmem
    rw [if_neg h0] at this
    exact this
  · intro M ops s out h0 h1
    exact ⟨getImageTargetResultLoop_unselected ops s h0 _ out,
      getModelTargetResultLoop_nothing ops _ s out (Or.inl h1)⟩
  · intro M ops s out out1 h
    obtain ⟨m, m1, s1, hi, hm⟩ := h
    by_cases h0 : s.mTarget = IMAGE_TARGET_ID
    · have h1 : s.mTarget ≠ MODEL_TARGET_ID := by
        rw [h0]; decide
      have := getModelTargetResultLoop_nothing ops s.mVuforiaState.trackableResults s out1
        (Or.inl h1)
      unfold getModelTargetResult at hm
      rw [this] at hm
      simp at hm
    · have := getImageTargetResultLoop_unselected ops s h0 s.mVuforiaState.trackableResults out
      unfold getImageTargetResult at hi
      rw [this] at hi
      simp at hi

/-- C30 on a fresh controller initialised with the selector 2: the model-target dataset 5
is created, loaded from `VuforiaMars_ModelTarget.xml` and activated, the completion
callback runs, and both accessors return false on the resulting session. -/
theorem C30_target_selector_witness :
    (∃ (completion : Except Fault Unit) (s1 : Session) (rest : List Event) (last : Event),
      initAR androidEnv Session.fresh firstConfig 2 okInit =
        some (completion, s1,
          [Event.setInitParameters (some 0) (some 0), Event.vuforiaInit, Event.vuforiaInit,
           Event.initTracker TrackerType.positionalDevice,
           Event.initTracker TrackerType.object,
           Event.log "Loading data set from VuforiaMars_ModelTarget.xml",
           Event.getTracker TrackerType.object] ++ rest ++ [last]) ∧
      s1.mTarget = 2 ∧ s1.mCurrentDataSet = some 5 ∧
      rest = [Event.createDataSet, Event.dataSetLoad 5 "VuforiaMars_ModelTarget.xml",
        Event.activateDataSet 5] ∧
      last = Event.initDone (some 2) ∧ completion = .ok () ∧
      getImageTargetResult symbolicOps s1 identityMatrices = .ok (false, identityMatrices) ∧
      getModelTargetResult symbolicOps s1 identityMatrices
        = .ok (false, s1, identityMatrices)) ∧
    initAR androidEnv Session.fresh firstConfig 2 okInit =
      some (.ok (), { initARReset Session.fresh firstConfig 2 with mCurrentDataSet := some 5 },
        [Event.setInitParameters (some 0) (some 0), Event.vuforiaInit, Event.vuforiaInit,
         Event.initTracker TrackerType.positionalDevice,
         Event.initTracker TrackerType.object,
         Event.log "Loading data set from VuforiaMars_ModelTarget.xml",
         Event.getTracker TrackerType.object,
         Event.createDataSet,
         Event.dataSetLoad 5 "VuforiaMars_ModelTarget.xml",
         Event.activateDataSet 5,
         Event.initDone (some 2)]) := by
  obtain ⟨completion, s1, rest, last, h, ht, _, _, _, _, hd, hok, _⟩ :=
    C30_target_selector.1 androidEnv Session.fresh firstConfig 2 okInit [50] []
      (by decide) (by decide) rfl rfl (by decide) rfl rfl
  obtain ⟨hrest, hlast, hcompletion⟩ := hok 5 rfl rfl rfl rfl
  have h0 : s1.mTarget ≠ IMAGE_TARGET_ID := by rw [ht]; decide
  have h1 : s1.mTarget ≠ MODEL_TARGET_ID := by rw [ht]; decide
  have hacc := C30_target_selector.2.2.1 symbolicOps s1 identityMatrices h0 h1
  exact ⟨⟨completion, s1, rest, last, h, ht, (hd 5).mpr ⟨rfl, rfl, rfl, rfl⟩, hrest, hlast,
    hcompletion, hacc.1, hacc.2⟩, rfl⟩

end AppController
